import Mathlib

/-!
# Satox SDK (Go bindings): in-memory managers

A shallow embedding of the managers of `bindings/go/satox` (packages `asset`,
`nft`, `security`, `quantum`, `wallet`, `database`), of
`bindings/go/satox_bindings` and of `bindings/go/satox_sdk.go`.

* A Go `map[string]V` is a `GoMap V`: an association list with pairwise
  distinct keys.  Reading a missing key gives `none` (Go's `_, exists := m[k]`).
* A Go `int64` is an `Int`; every arithmetic result is wrapped by `wrapInt64`.
* A call returns an `Outcome` together with the manager state after the call.
  A pointer stored in a map (`*Asset`, `*NFT`) is modelled by the record
  itself: every pointer is created by one call and stored under one key.
* `time.Now().Unix()` is a parameter of the operation that reads the clock.
-/

namespace Satox

/-! ## Go maps -/

/-- Lookup in an association list: the first entry with the key. -/
def lookupL {V : Type} (k : String) : List (String × V) → Option V
  | [] => none
  | e :: r => if e.1 = k then some e.2 else lookupL k r

/-- Assignment `m[k] = v` on an association list: overwrite the entry of `k`,
or add a new entry. -/
def setL {V : Type} (k : String) (v : V) : List (String × V) → List (String × V)
  | [] => [(k, v)]
  | e :: r => if e.1 = k then (k, v) :: r else e :: setL k v r

/-- The builtin `delete(m, k)` on an association list. -/
def delL {V : Type} (k : String) : List (String × V) → List (String × V)
  | [] => []
  | e :: r => if e.1 = k then r else e :: delL k r

theorem keys_setL {V : Type} (k : String) (v : V) (l : List (String × V)) :
    (setL k v l).map Prod.fst =
      if k ∈ l.map Prod.fst then l.map Prod.fst else l.map Prod.fst ++ [k] := by
  induction l with
  | nil => simp [setL]
  | cons e r ih =>
    by_cases h : e.1 = k
    · simp [setL, h]
    · have h' : ¬ k = e.1 := fun c => h c.symm
      by_cases hm : k ∈ r.map Prod.fst
      · simp only [setL, h, if_false, List.map_cons, ih, hm, if_true, List.mem_cons, or_true]
      · simp only [setL, h, if_false, List.map_cons, ih, hm, List.mem_cons, h', or_self,
          List.cons_append]

theorem nodup_setL {V : Type} (k : String) (v : V) (l : List (String × V))
    (h : (l.map Prod.fst).Nodup) : ((setL k v l).map Prod.fst).Nodup := by
  rw [keys_setL]
  split
  · exact h
  · rename_i hk
    rw [List.nodup_append]
    refine ⟨h, List.nodup_singleton k, ?_⟩
    intro a ha hb
    simp only [List.mem_singleton] at hb
    exact hk (hb ▸ ha)

theorem keys_delL_sublist {V : Type} (k : String) (l : List (String × V)) :
    ((delL k l).map Prod.fst).Sublist (l.map Prod.fst) := by
  induction l with
  | nil => simp [delL]
  | cons e r ih =>
    by_cases h : e.1 = k
    · simp [delL, h]
    · simp only [delL, h, if_false, List.map_cons]
      exact ih.cons₂ _

theorem nodup_delL {V : Type} (k : String) (l : List (String × V))
    (h : (l.map Prod.fst).Nodup) : ((delL k l).map Prod.fst).Nodup :=
  h.sublist (keys_delL_sublist k l)

/-- A Go `map[string]V`: entries with pairwise distinct keys. -/
structure GoMap (V : Type) where
  entries : List (String × V)
  nodup : (entries.map Prod.fst).Nodup

namespace GoMap

variable {V : Type}

instance [DecidableEq V] : DecidableEq (GoMap V) := fun a b =>
  match a, b with
  | ⟨ea, _⟩, ⟨eb, _⟩ =>
    if h : ea = eb then isTrue (by subst h; rfl)
    else isFalse (fun c => h (by cases c; rfl))

/-- The result of `make(map[string]V)`. -/
def empty : GoMap V := ⟨[], List.nodup_nil⟩

/-- The read `v, exists := m[k]`. -/
def get? (m : GoMap V) (k : String) : Option V := lookupL k m.entries

/-- The assignment `m[k] = v`. -/
def set (m : GoMap V) (k : String) (v : V) : GoMap V :=
  ⟨setL k v m.entries, nodup_setL k v m.entries m.nodup⟩

/-- The builtin `delete(m, k)`. -/
def del (m : GoMap V) (k : String) : GoMap V :=
  ⟨delL k m.entries, nodup_delL k m.entries m.nodup⟩

/-- The builtin `len(m)`. -/
def len (m : GoMap V) : Nat := m.entries.length

/-- The values stored in the map. -/
def values (m : GoMap V) : List V := m.entries.map Prod.snd

end GoMap

/-! ## Go's `int64` -/

/-- The value of an `int64` expression whose mathematical value is `x`
(two's complement wrap-around). -/
def wrapInt64 (x : Int) : Int := (x + 2 ^ 63) % 2 ^ 64 - 2 ^ 63

/-- The values an `int64` can hold. -/
def InInt64 (x : Int) : Prop := -(2 ^ 63) ≤ x ∧ x < 2 ^ 63

instance (x : Int) : Decidable (InInt64 x) := by unfold InInt64; infer_instance

/-- Outcome of a call: a normal return without error, a returned error
(`errors.New msg`, paired with the zero value of the result type), or a panic
that unwinds out of the call. -/
inductive Outcome (α : Type) where
  | ret (v : α)
  | err (msg : String)
  | panic (msg : String)
  deriving DecidableEq, Repr


/-! ## `asset.Manager` (asset_manager.go) -/

/-- Modelled from the spec: the declaration of the `Asset` record that
`asset.Manager` stores is not in the source tree; the fields are the ones
`Manager.CreateAsset` assigns ("a fungible token record (name, symbol, supply,
owner)"). `TotalSupply`, `CreatedAt` and `UpdatedAt` are `int64`. -/
structure Asset where
  ID : String
  Name : String
  Symbol : String
  Description : String
  Decimals : Int
  TotalSupply : Int
  Owner : String
  CreatedAt : Int
  UpdatedAt : Int
  deriving DecidableEq, Repr

/-- Modelled from the spec: the declaration of `AssetConfig` is not in the
source tree; the fields are the ones `Manager.CreateAsset` reads. -/
structure AssetConfig where
  Name : String
  Symbol : String
  Description : String
  Decimals : Int
  TotalSupply : Int
  Owner : String
  deriving DecidableEq, Repr

/-- Modelled from the spec: the declaration of `AssetUpdateConfig` is not in
the source tree; the fields are the ones `Manager.UpdateAsset` reads. -/
structure AssetUpdateConfig where
  Name : String
  Description : String
  TotalSupply : Int
  deriving DecidableEq, Repr

/-- Modelled from the spec: the declaration of `TransferConfig` is not in the
source tree; the fields are the ones `Manager.TransferAsset` reads. `Amount`
is compared with and added to `int64` balances, so it is an `int64`. -/
structure TransferConfig where
  AssetID : String
  FromAddress : String
  ToAddress : String
  Amount : Int
  deriving DecidableEq, Repr

/-- The fields of `asset.Manager` (the mutex is not modelled: every operation
holds it from entry to exit). `balances` is assetID -> address -> balance. -/
structure Manager where
  initialized : Bool
  assets : GoMap Asset
  balances : GoMap (GoMap Int)
  deriving DecidableEq

namespace Manager

/-- `NewManager`. -/
def NewManager : Manager :=
  { initialized := false, assets := GoMap.empty, balances := GoMap.empty }

/-- `Manager.Initialize`. -/
def Initialize (am : Manager) : Outcome Unit × Manager :=
  if am.initialized then (.ret (), am)
  else (.ret (), { am with initialized := true })

/-- `Manager.Shutdown`. -/
def Shutdown (am : Manager) : Outcome Unit × Manager :=
  if !am.initialized then (.ret (), am)
  else (.ret (), { am with initialized := false })

/-- `Manager.ensureInitialized`: `some msg` when the call panics with `msg`,
`none` when it returns. -/
def ensureInitialized (am : Manager) : Option String :=
  if !am.initialized then some "asset manager not initialized" else none

/-- `Manager.CreateAsset`; `now` is the value of `time.Now().Unix()`. -/
def CreateAsset (am : Manager) (config : AssetConfig) (now : Int) :
    Outcome Asset × Manager :=
  match am.ensureInitialized with
  | some msg => (.panic msg, am)
  | none =>
    match am.assets.get? config.Symbol with
    | some _ => (.err "asset already exists", am)
    | none =>
      let asset : Asset :=
        { ID := config.Symbol
          Name := config.Name
          Symbol := config.Symbol
          Description := config.Description
          Decimals := config.Decimals
          TotalSupply := config.TotalSupply
          Owner := config.Owner
          CreatedAt := now
          UpdatedAt := now }
      let assets := am.assets.set config.Symbol asset
      let balances := am.balances.set config.Symbol GoMap.empty
      let inner := ((balances.get? config.Symbol).getD GoMap.empty).set config.Owner
        config.TotalSupply
      (.ret asset, { am with assets := assets, balances := balances.set config.Symbol inner })

/-- `Manager.GetAsset`. -/
def GetAsset (am : Manager) (id : String) : Outcome Asset × Manager :=
  match am.ensureInitialized with
  | some msg => (.panic msg, am)
  | none =>
    match am.assets.get? id with
    | none => (.err "asset not found", am)
    | some asset => (.ret asset, am)

/-- `Manager.UpdateAsset`; `now` is the value of `time.Now().Unix()`. -/
def UpdateAsset (am : Manager) (id : String) (config : AssetUpdateConfig) (now : Int) :
    Outcome Unit × Manager :=
  match am.ensureInitialized with
  | some msg => (.panic msg, am)
  | none =>
    match am.assets.get? id with
    | none => (.err "asset not found", am)
    | some asset =>
      let asset' : Asset :=
        { asset with
          Name := config.Name
          Description := config.Description
          TotalSupply := config.TotalSupply
          UpdatedAt := now }
      (.ret (), { am with assets := am.assets.set id asset' })

/-- `Manager.DeleteAsset`. -/
def DeleteAsset (am : Manager) (id : String) : Outcome Unit × Manager :=
  match am.ensureInitialized with
  | some msg => (.panic msg, am)
  | none =>
    match am.assets.get? id with
    | none => (.err "asset not found", am)
    | some _ => (.ret (), { am with assets := am.assets.del id, balances := am.balances.del id })

/-- `Manager.GetAssetBalance`. -/
def GetAssetBalance (am : Manager) (assetID address : String) : Outcome Int × Manager :=
  match am.ensureInitialized with
  | some msg => (.panic msg, am)
  | none =>
    match am.assets.get? assetID with
    | none => (.err "asset not found", am)
    | some _ =>
      match am.balances.get? assetID with
      | none => (.err "asset has no balances", am)
      | some balances =>
        match balances.get? address with
        | none => (.ret 0, am)
        | some balance => (.ret balance, am)

/-- `Manager.TransferAsset`. The two compound assignments read the current
entry (0 when missing), compute in `int64` and write the entry back into the
map stored under `config.AssetID`. -/
def TransferAsset (am : Manager) (config : TransferConfig) : Outcome Unit × Manager :=
  match am.ensureInitialized with
  | some msg => (.panic msg, am)
  | none =>
    match am.assets.get? config.AssetID with
    | none => (.err "asset not found", am)
    | some _ =>
      match am.balances.get? config.AssetID with
      | none => (.err "asset has no balances", am)
      | some balances =>
        match balances.get? config.FromAddress with
        | none => (.err "insufficient balance", am)
        | some fromBalance =>
          if fromBalance < config.Amount then (.err "insufficient balance", am)
          else
            let b1 := balances.set config.FromAddress
              (wrapInt64 ((balances.get? config.FromAddress).getD 0 - config.Amount))
            let b2 := b1.set config.ToAddress
              (wrapInt64 ((b1.get? config.ToAddress).getD 0 + config.Amount))
            (.ret (), { am with balances := am.balances.set config.AssetID b2 })

/-- The sum of all address balances of one asset, accumulated in `int64`. -/
def sumInt64 (balances : GoMap Int) : Int :=
  balances.entries.foldl (fun acc e => wrapInt64 (acc + e.2)) 0

/-- The supply in circulation of an asset: the `int64` sum of its address
balances, `none` when the asset has no balances map. -/
def supply (am : Manager) (assetID : String) : Option Int :=
  (am.balances.get? assetID).map sumInt64

end Manager

/-- The manager states that calls of the public operations can produce,
starting from `NewManager`. A call that panics leaves the state as it was. -/
inductive Manager.Reachable : Manager → Prop
  | start : Manager.Reachable Manager.NewManager
  | init (am : Manager) : Manager.Reachable am → Manager.Reachable am.Initialize.2
  | shut (am : Manager) : Manager.Reachable am → Manager.Reachable am.Shutdown.2
  | create (am : Manager) (config : AssetConfig) (now : Int) :
      Manager.Reachable am → Manager.Reachable (am.CreateAsset config now).2
  | update (am : Manager) (id : String) (config : AssetUpdateConfig) (now : Int) :
      Manager.Reachable am → Manager.Reachable (am.UpdateAsset id config now).2
  | delete (am : Manager) (id : String) :
      Manager.Reachable am → Manager.Reachable (am.DeleteAsset id).2
  | transfer (am : Manager) (config : TransferConfig) :
      Manager.Reachable am → Manager.Reachable (am.TransferAsset config).2

/-- The balance entry of `address` for `assetID`, `none` when the asset has no
balances map or the address has no entry in it. -/
def Manager.balanceEntry (am : Manager) (assetID address : String) : Option Int :=
  (am.balances.get? assetID).bind (fun b => b.get? address)

/-- The manager of `TestTransferAsset` after `Initialize` and `CreateAsset`. -/
def testManager : Manager :=
  (((Manager.NewManager.Initialize).2.CreateAsset
    { Name := "Test Asset", Symbol := "TEST", Description := "Test Description",
      Decimals := 8, TotalSupply := 1000000, Owner := "owner1" } 0).2)

/-- The first transfer of `TestTransferAsset`. -/
def testTransfer : TransferConfig :=
  { AssetID := "TEST", FromAddress := "owner1", ToAddress := "owner2", Amount := 500000 }

/-- Every stored asset has a balances map. -/
def Manager.AssetsHaveBalances (am : Manager) : Prop :=
  ∀ id, (am.assets.get? id).isSome = true → (am.balances.get? id).isSome = true

/-- A transfer of a negative amount out of the owner's balance of `testManager`. -/
def negativeTransfer : TransferConfig :=
  { AssetID := "TEST", FromAddress := "owner1", ToAddress := "owner2", Amount := -5 }

/-- The configuration `TestCreateAsset` creates its asset from. -/
def testConfig : AssetConfig :=
  { Name := "Test Asset", Symbol := "TEST", Description := "Test Description",
    Decimals := 8, TotalSupply := 1000000, Owner := "owner1" }

/-! ## `nft.NFTManager` (nft_manager.go) -/

/-- `NFTMetadata`; a `json.RawMessage` is its list of bytes. -/
structure NFTMetadata where
  Name : String
  Description : String
  Image : String
  ExternalURL : String
  Attributes : List Nat
  Properties : List Nat
  deriving DecidableEq, Repr

/-- `NFT`. `TokenID` is a `uint64`, `RoyaltyBasisPoints` a `uint32`,
`CreatedAt` and `UpdatedAt` are `int64`. -/
structure NFT where
  ID : String
  ContractAddress : String
  Owner : String
  Creator : String
  Metadata : NFTMetadata
  TokenID : Nat
  TokenURI : String
  IsTransferable : Bool
  IsBurnable : Bool
  RoyaltyRecipient : String
  RoyaltyBasisPoints : Nat
  CreatedAt : Int
  UpdatedAt : Int
  deriving DecidableEq, Repr

/-- The fields of `NFTManager` (the mutex is not modelled: every operation
holds it from entry to exit). The three indices map an owner, a contract and a
creator to a slice of NFT ids. -/
structure NFTManager where
  nfts : GoMap NFT
  ownerNFTs : GoMap (List String)
  contractNFTs : GoMap (List String)
  creatorNFTs : GoMap (List String)
  initialized : Bool
  deriving DecidableEq

/-- The loop shared by `removeFromOwnerNFTs`, `removeFromContractNFTs` and
`removeFromCreatorNFTs`: at the first index `i` with `nfts[i] == nftID` it
yields `append(nfts[:i], nfts[i+1:]...)`; `none` when no element matches and
nothing is assigned. -/
def removeFirst (nftID : String) : List String → Option (List String)
  | [] => none
  | id :: rest =>
    if id = nftID then some rest else (removeFirst nftID rest).map (fun r => id :: r)

namespace NFTManager

/-- `NewNFTManager`. -/
def NewNFTManager : NFTManager :=
  { nfts := GoMap.empty, ownerNFTs := GoMap.empty, contractNFTs := GoMap.empty,
    creatorNFTs := GoMap.empty, initialized := false }

/-- `NFTManager.Initialize`. -/
def Initialize (nm : NFTManager) : Outcome Unit × NFTManager :=
  if nm.initialized then (.err "NFTManager already initialized", nm)
  else (.ret (), { nm with initialized := true })

/-- `NFTManager.validateMetadata`: `some msg` for the error `msg`, `none` for nil. -/
def validateMetadata (metadata : NFTMetadata) : Option String :=
  if metadata.Name = "" then some "NFT name cannot be empty"
  else if metadata.Description = "" then some "NFT description cannot be empty"
  else if metadata.Image = "" then some "NFT image cannot be empty"
  else none

/-- `generateNFTID`. -/
def generateNFTID (contractAddress : String) (metadata : NFTMetadata) : String :=
  contractAddress ++ "_" ++ metadata.Name

/-- `NFTManager.removeFromOwnerNFTs`. -/
def removeFromOwnerNFTs (nm : NFTManager) (owner nftID : String) : NFTManager :=
  match removeFirst nftID ((nm.ownerNFTs.get? owner).getD []) with
  | none => nm
  | some nfts => { nm with ownerNFTs := nm.ownerNFTs.set owner nfts }

/-- `NFTManager.removeFromContractNFTs`. -/
def removeFromContractNFTs (nm : NFTManager) (contract nftID : String) : NFTManager :=
  match removeFirst nftID ((nm.contractNFTs.get? contract).getD []) with
  | none => nm
  | some nfts => { nm with contractNFTs := nm.contractNFTs.set contract nfts }

/-- `NFTManager.removeFromCreatorNFTs`. -/
def removeFromCreatorNFTs (nm : NFTManager) (creator nftID : String) : NFTManager :=
  match removeFirst nftID ((nm.creatorNFTs.get? creator).getD []) with
  | none => nm
  | some nfts => { nm with creatorNFTs := nm.creatorNFTs.set creator nfts }

/-- `NFTManager.CreateNFT`; `tCreated` and `tUpdated` are the values of the two
`time.Now().Unix()` calls. Reading a missing key of an index gives the nil
slice, to which `append` adds the id. -/
def CreateNFT (nm : NFTManager) (contractAddress : String) (metadata : NFTMetadata)
    (creator : String) (isTransferable isBurnable : Bool) (royaltyRecipient : String)
    (royaltyBasisPoints : Nat) (tCreated tUpdated : Int) : Outcome String × NFTManager :=
  if !nm.initialized then (.err "NFTManager not initialized", nm)
  else
    match validateMetadata metadata with
    | some msg => (.err msg, nm)
    | none =>
      let nftID := generateNFTID contractAddress metadata
      let nft : NFT :=
        { ID := nftID
          ContractAddress := contractAddress
          Owner := creator
          Creator := creator
          Metadata := metadata
          TokenID := (nm.nfts.len + 1) % 2 ^ 64
          TokenURI := metadata.ExternalURL
          IsTransferable := isTransferable
          IsBurnable := isBurnable
          RoyaltyRecipient := royaltyRecipient
          RoyaltyBasisPoints := royaltyBasisPoints
          CreatedAt := tCreated
          UpdatedAt := tUpdated }
      (.ret nftID,
        { nm with
          nfts := nm.nfts.set nftID nft
          ownerNFTs := nm.ownerNFTs.set creator ((nm.ownerNFTs.get? creator).getD [] ++ [nftID])
          contractNFTs := nm.contractNFTs.set contractAddress
            ((nm.contractNFTs.get? contractAddress).getD [] ++ [nftID])
          creatorNFTs := nm.creatorNFTs.set creator
            ((nm.creatorNFTs.get? creator).getD [] ++ [nftID]) })

/-- `NFTManager.GetNFT`. -/
def GetNFT (nm : NFTManager) (nftID : String) : Outcome NFT × NFTManager :=
  if !nm.initialized then (.err "NFTManager not initialized", nm)
  else
    match nm.nfts.get? nftID with
    | none => (.err "NFT not found", nm)
    | some nft => (.ret nft, nm)

/-- `NFTManager.TransferNFT`; `now` is the value of `time.Now().Unix()`. The
fields are assigned through the stored pointer, so the record under `nftID` is
the one that changes. -/
def TransferNFT (nm : NFTManager) (nftID from' to' : String) (now : Int) :
    Outcome Unit × NFTManager :=
  if !nm.initialized then (.err "NFTManager not initialized", nm)
  else
    match nm.nfts.get? nftID with
    | none => (.err "NFT not found", nm)
    | some nft =>
      if !nft.IsTransferable then (.err "NFT is not transferable", nm)
      else if nft.Owner ≠ from' then (.err "Sender is not the owner", nm)
      else
        let nm1 : NFTManager :=
          { nm with nfts := nm.nfts.set nftID { nft with Owner := to', UpdatedAt := now } }
        let nm2 := nm1.removeFromOwnerNFTs from' nftID
        (.ret (),
          { nm2 with
            ownerNFTs := nm2.ownerNFTs.set to' ((nm2.ownerNFTs.get? to').getD [] ++ [nftID]) })

/-- `NFTManager.BurnNFT`. -/
def BurnNFT (nm : NFTManager) (nftID owner : String) : Outcome Unit × NFTManager :=
  if !nm.initialized then (.err "NFTManager not initialized", nm)
  else
    match nm.nfts.get? nftID with
    | none => (.err "NFT not found", nm)
    | some nft =>
      if !nft.IsBurnable then (.err "NFT is not burnable", nm)
      else if nft.Owner ≠ owner then (.err "Sender is not the owner", nm)
      else
        let nm1 := nm.removeFromOwnerNFTs owner nftID
        let nm2 := nm1.removeFromContractNFTs nft.ContractAddress nftID
        let nm3 := nm2.removeFromCreatorNFTs nft.Creator nftID
        (.ret (), { nm3 with nfts := nm3.nfts.del nftID })

/-- `NFTManager.GetNFTsByOwner`: the records the returned pointers point to, in
the order of the owner's id slice; ids without a stored NFT are skipped. -/
def GetNFTsByOwner (nm : NFTManager) (owner : String) : Outcome (List NFT) × NFTManager :=
  if !nm.initialized then (.err "NFTManager not initialized", nm)
  else
    match nm.ownerNFTs.get? owner with
    | none => (.ret [], nm)
    | some nftIDs => (.ret (nftIDs.filterMap (fun nftID => nm.nfts.get? nftID)), nm)

/-- The stored NFTs whose `Owner` field is `owner`. -/
def storedOwnedBy (nm : NFTManager) (owner : String) : List NFT :=
  nm.nfts.values.filter (fun nft => nft.Owner = owner)

end NFTManager

/-- The metadata used by the tests of nft_manager_test.go (without the JSON
attributes and properties, as in `TestGetNFT`). -/
def testMetadata : NFTMetadata :=
  { Name := "Test NFT", Description := "Test NFT description", Image := "ipfs://test-image",
    ExternalURL := "https://example.com/nft", Attributes := [], Properties := [] }

/-- The manager of the NFT tests after `Initialize` and the first `CreateNFT`. -/
def testNFTManager : NFTManager :=
  (NFTManager.NewNFTManager.Initialize.2.CreateNFT "0x123" testMetadata "creator" true true
    "royaltyRecipient" 500 0 0).2

/-- The NFT stored in `testNFTManager`. -/
def testNFT : NFT :=
  { ID := "0x123_Test NFT", ContractAddress := "0x123", Owner := "creator",
    Creator := "creator", Metadata := testMetadata, TokenID := 1,
    TokenURI := "https://example.com/nft", IsTransferable := true, IsBurnable := true,
    RoyaltyRecipient := "royaltyRecipient", RoyaltyBasisPoints := 500, CreatedAt := 0,
    UpdatedAt := 0 }

/-- The manager after the second, identical `CreateNFT` of `TestCreateNFT`. -/
def duplicateNFTManager : NFTManager :=
  (testNFTManager.CreateNFT "0x123" testMetadata "creator" true true "royaltyRecipient" 500
    1 1).2

/-- The calls `TransferNFT(nftID, from, to)` made one after the other (the
mutex serializes them), one call per clock value of the list: the outcomes in
call order and the manager after the last call. -/
def NFTManager.transferRepeatedly (nm : NFTManager) (nftID from' to' : String) :
    List Int → List (Outcome Unit) × NFTManager
  | [] => ([], nm)
  | now :: rest =>
    ((nm.TransferNFT nftID from' to' now).1 ::
        (NFTManager.transferRepeatedly (nm.TransferNFT nftID from' to' now).2 nftID from' to'
          rest).1,
      (NFTManager.transferRepeatedly (nm.TransferNFT nftID from' to' now).2 nftID from' to'
        rest).2)

/-! ## Placeholder cryptography (security_manager.go, quantum_manager.go)

A `[]byte` is a list of naturals below 256. -/

/-- What `crypto/rand` delivers to one `rand.Read` call: an error, or a stream
of bytes. -/
inductive RandSource where
  | fails (msg : String)
  | bytes (stream : List Nat)
  deriving DecidableEq, Repr

/-- The call `rand.Read(buf)` with `len(buf) = n`: the error message, or the
filled buffer (`buf[i]` is byte `i` of the stream, 0 past its end). -/
def randRead (n : Nat) : RandSource → String ⊕ List Nat
  | .fails msg => .inl msg
  | .bytes stream => .inr ((List.range n).map (fun i => stream.getD i 0 % 256))

/-- The body shared by the four placeholder `Encrypt`/`Decrypt` functions:
`out := make([]byte, len(data))` followed by
`for i := range data { out[i] = data[i] ^ key[i%len(key)] }`. With no data the
loop body never runs; otherwise `i%len(key)` panics in the first iteration
when the key is empty. -/
def xorWithKey (key data : List Nat) : Outcome (List Nat) :=
  if data.length = 0 then .ret []
  else if key.length = 0 then .panic "runtime error: integer divide by zero"
  else .ret ((List.range data.length).map
    (fun i => data.getD i 0 ^^^ key.getD (i % key.length) 0))

/-- `quantum.KeyPair`. -/
structure KeyPair where
  PublicKey : List Nat
  PrivateKey : List Nat
  deriving DecidableEq, Repr

namespace SecurityManager

/-- `SecurityManager.GenerateKeyPair`: `(privateKey, publicKey)`; one random
source per `rand.Read` call. -/
def GenerateKeyPair (srcPrivate srcPublic : RandSource) : Outcome (List Nat × List Nat) :=
  match randRead 32 srcPrivate with
  | .inl e => .err ("failed to generate private key: " ++ e)
  | .inr privateKey =>
    match randRead 32 srcPublic with
    | .inl e => .err ("failed to generate public key: " ++ e)
    | .inr publicKey => .ret (privateKey, publicKey)

/-- `SecurityManager.Encrypt`. -/
def Encrypt (publicKey data : List Nat) : Outcome (List Nat) := xorWithKey publicKey data

/-- `SecurityManager.Decrypt`. -/
def Decrypt (privateKey encrypted : List Nat) : Outcome (List Nat) :=
  xorWithKey privateKey encrypted

end SecurityManager

namespace QuantumManager

/-- `QuantumManager.GenerateKeyPair`; one random source per `rand.Read` call. -/
def GenerateKeyPair (srcPrivate srcPublic : RandSource) : Outcome KeyPair :=
  match randRead 32 srcPrivate with
  | .inl e => .err ("failed to generate private key: " ++ e)
  | .inr privateKey =>
    match randRead 32 srcPublic with
    | .inl e => .err ("failed to generate public key: " ++ e)
    | .inr publicKey => .ret { PublicKey := publicKey, PrivateKey := privateKey }

/-- `QuantumManager.Encrypt`. -/
def Encrypt (publicKey data : List Nat) : Outcome (List Nat) := xorWithKey publicKey data

/-- `QuantumManager.Decrypt`. -/
def Decrypt (privateKey encrypted : List Nat) : Outcome (List Nat) :=
  xorWithKey privateKey encrypted

/-- `QuantumManager.Sign`: neither argument is read. -/
def Sign (_privateKey _data : List Nat) (src : RandSource) : Outcome (List Nat) :=
  match randRead 64 src with
  | .inl e => .err ("failed to generate signature: " ++ e)
  | .inr signature => .ret signature

/-- `QuantumManager.Verify`: no argument is read. -/
def Verify (_publicKey _data _signature : List Nat) : Outcome Bool := .ret true

end QuantumManager

/-- Decryption after encryption, as the tests chain them: `Decrypt` runs on
the result of `Encrypt` when that call returned. -/
def decryptAfterEncrypt (encrypt decrypt : List Nat → List Nat → Outcome (List Nat))
    (privateKey publicKey data : List Nat) : Outcome (List Nat) :=
  match encrypt publicKey data with
  | .ret encrypted => decrypt privateKey encrypted
  | .err msg => .err msg
  | .panic msg => .panic msg

/-- The bytes of "Hello, World!". -/
def helloWorld : List Nat := [72, 101, 108, 108, 111, 44, 32, 87, 111, 114, 108, 100, 33]

/-- The bytes of "test". -/
def testBytes : List Nat := [116, 101, 115, 116]

/-- A random source that delivers the byte `b` over and over. -/
def constSource (b : Nat) : RandSource := .bytes (List.replicate 64 b)

/-! ## `wallet.WalletManager` (wallet_manager.go) -/

/-- One digit of `hex.EncodeToString`: entry `n` of the table
"0123456789abcdef". -/
def hexDigit (n : Nat) : Char := "0123456789abcdef".toList.getD n '0'

/-- `hex.EncodeToString`: two lowercase hexadecimal digits per byte, the high
nibble first. -/
def hexEncodeToString (src : List Nat) : String :=
  String.mk (List.flatten (src.map (fun b => [hexDigit (b / 16), hexDigit (b % 16)])))

/-- `Wallet`. `CreatedAt` and `UpdatedAt` are the clock readings; `Balance` is
a `float64`, of which the operations modelled here only assign the constant 0;
`Nonce` is a `uint64`. -/
structure Wallet where
  Address : String
  PrivateKey : List Nat
  PublicKey : List Nat
  CreatedAt : Int
  UpdatedAt : Int
  Balance : Rat
  Nonce : Nat
  deriving DecidableEq

/-- The fields of `WalletManager` (without the mutex). -/
structure WalletManager where
  wallets : GoMap Wallet
  deriving DecidableEq

namespace WalletManager

/-- `NewWalletManager`. -/
def NewWalletManager : WalletManager := { wallets := GoMap.empty }

/-- `WalletManager.CreateWallet`; one random source per `rand.Read` call,
`tCreated` and `tUpdated` are the two `time.Now()` readings. -/
def CreateWallet (m : WalletManager) (srcPrivate srcPublic : RandSource)
    (tCreated tUpdated : Int) : Outcome Wallet × WalletManager :=
  match randRead 32 srcPrivate with
  | .inl e => (.err ("failed to generate private key: " ++ e), m)
  | .inr privateKey =>
    match randRead 32 srcPublic with
    | .inl e => (.err ("failed to generate public key: " ++ e), m)
    | .inr publicKey =>
      let address := hexEncodeToString (publicKey.take 20)
      let wallet : Wallet :=
        { Address := address
          PrivateKey := privateKey
          PublicKey := publicKey
          CreatedAt := tCreated
          UpdatedAt := tUpdated
          Balance := 0
          Nonce := 0 }
      (.ret wallet, { m with wallets := m.wallets.set address wallet })

/-- `WalletManager.GetWallet`. -/
def GetWallet (m : WalletManager) (address : String) : Outcome Wallet × WalletManager :=
  match m.wallets.get? address with
  | none => (.err ("wallet not found: " ++ address), m)
  | some wallet => (.ret wallet, m)

/-- `WalletManager.SignMessage`. -/
def SignMessage (m : WalletManager) (address : String) (_message : List Nat)
    (src : RandSource) : Outcome (List Nat) × WalletManager :=
  match m.wallets.get? address with
  | none => (.err ("wallet not found: " ++ address), m)
  | some _ =>
    match randRead 64 src with
    | .inl e => (.err ("failed to generate signature: " ++ e), m)
    | .inr signature => (.ret signature, m)

/-- `WalletManager.VerifySignature`. -/
def VerifySignature (m : WalletManager) (address : String) (_message _signature : List Nat) :
    Outcome Bool × WalletManager :=
  match m.wallets.get? address with
  | none => (.err ("wallet not found: " ++ address), m)
  | some _ => (.ret true, m)

/-- `WalletManager.ExportWallet`. -/
def ExportWallet (m : WalletManager) (address : String) : Outcome (List Nat) × WalletManager :=
  match m.wallets.get? address with
  | none => (.err ("wallet not found: " ++ address), m)
  | some wallet => (.ret wallet.PrivateKey, m)

/-- `WalletManager.ImportWallet`; `tCreated` and `tUpdated` are the two
`time.Now()` readings. -/
def ImportWallet (m : WalletManager) (privateKey : List Nat) (srcPublic : RandSource)
    (tCreated tUpdated : Int) : Outcome Wallet × WalletManager :=
  if privateKey.length ≠ 32 then
    (.err ("invalid private key length: " ++ toString privateKey.length), m)
  else
    match randRead 32 srcPublic with
    | .inl e => (.err ("failed to generate public key: " ++ e), m)
    | .inr publicKey =>
      let address := hexEncodeToString (publicKey.take 20)
      let wallet : Wallet :=
        { Address := address
          PrivateKey := privateKey
          PublicKey := publicKey
          CreatedAt := tCreated
          UpdatedAt := tUpdated
          Balance := 0
          Nonce := 0 }
      (.ret wallet, { m with wallets := m.wallets.set address wallet })

end WalletManager

/-- The manager of the wallet tests after one `CreateWallet`, the random
source delivering the bytes 1 (private key) and 171 = 0xab (public key). -/
def testWalletManager : WalletManager :=
  (WalletManager.NewWalletManager.CreateWallet (constSource 1) (constSource 171) 10 11).2

/-! ## `database.DatabaseManager` (database/database_manager.go, types.go) -/

/-- `satox.DatabaseType`, a string type. -/
abbrev DatabaseType := String

/-- `satox.DatabaseTypeSQLite`. -/
def DatabaseTypeSQLite : DatabaseType := "sqlite"
/-- `satox.DatabaseTypePostgreSQL`. -/
def DatabaseTypePostgreSQL : DatabaseType := "postgresql"
/-- `satox.DatabaseTypeMySQL`. -/
def DatabaseTypeMySQL : DatabaseType := "mysql"
/-- `satox.DatabaseTypeRedis`. -/
def DatabaseTypeRedis : DatabaseType := "redis"
/-- `satox.DatabaseTypeMongoDB`. -/
def DatabaseTypeMongoDB : DatabaseType := "mongodb"
/-- `satox.DatabaseTypeSupabase`. -/
def DatabaseTypeSupabase : DatabaseType := "supabase"
/-- `satox.DatabaseTypeFirebase`. -/
def DatabaseTypeFirebase : DatabaseType := "firebase"
/-- `satox.DatabaseTypeAWS`. -/
def DatabaseTypeAWS : DatabaseType := "aws"
/-- `satox.DatabaseTypeAzure`. -/
def DatabaseTypeAzure : DatabaseType := "azure"
/-- `satox.DatabaseTypeGoogleCloud`. -/
def DatabaseTypeGoogleCloud : DatabaseType := "google_cloud"

/-- The `DatabaseType` constants declared in types.go, in declaration order. -/
def declaredDatabaseTypes : List DatabaseType :=
  [DatabaseTypeSQLite, DatabaseTypePostgreSQL, DatabaseTypeMySQL, DatabaseTypeRedis,
    DatabaseTypeMongoDB, DatabaseTypeSupabase, DatabaseTypeFirebase, DatabaseTypeAWS,
    DatabaseTypeAzure, DatabaseTypeGoogleCloud]

/-- `satox.DatabaseConfig`; the three `int` fields are integers. The field
`Type` is written `Type'`. -/
structure DatabaseConfig where
  Type' : DatabaseType
  Host : String
  Port : Int
  Database : String
  Username : String
  Password : String
  ConnectionString : String
  MaxConnections : Int
  Timeout : Int
  deriving DecidableEq, Repr

/-- The fields of `database.DatabaseManager` (without the mutex); `config` is
a pointer, `none` when nil. -/
structure DatabaseManager where
  initialized : Bool
  connected : Bool
  config : Option DatabaseConfig
  lastError : String
  deriving DecidableEq, Repr

namespace DatabaseManager

/-- `NewDatabaseManager`: the zero value of every field. -/
def NewDatabaseManager : DatabaseManager :=
  { initialized := false, connected := false, config := none, lastError := "" }

/-- `DatabaseManager.Initialize`. -/
def Initialize (d : DatabaseManager) (config : Option DatabaseConfig) :
    Outcome Unit × DatabaseManager :=
  if d.initialized then (.err "DatabaseManager already initialized", d)
  else (.ret (), { d with config := config, initialized := true })

/-- `DatabaseManager.connectSQLite`. -/
def connectSQLite (d : DatabaseManager) : Outcome Unit × DatabaseManager :=
  (.ret (), { d with connected := true })

/-- `DatabaseManager.connectPostgreSQL`. -/
def connectPostgreSQL (d : DatabaseManager) : Outcome Unit × DatabaseManager :=
  (.ret (), { d with connected := true })

/-- `DatabaseManager.connectMySQL`. -/
def connectMySQL (d : DatabaseManager) : Outcome Unit × DatabaseManager :=
  (.ret (), { d with connected := true })

/-- `DatabaseManager.connectRedis`. -/
def connectRedis (d : DatabaseManager) : Outcome Unit × DatabaseManager :=
  (.ret (), { d with connected := true })

/-- `DatabaseManager.connectMongoDB`. -/
def connectMongoDB (d : DatabaseManager) : Outcome Unit × DatabaseManager :=
  (.ret (), { d with connected := true })

/-- `DatabaseManager.connectSupabase`. -/
def connectSupabase (d : DatabaseManager) : Outcome Unit × DatabaseManager :=
  (.ret (), { d with connected := true })

/-- `DatabaseManager.connectFirebase`. -/
def connectFirebase (d : DatabaseManager) : Outcome Unit × DatabaseManager :=
  (.ret (), { d with connected := true })

/-- `DatabaseManager.disconnect`. -/
def disconnect (d : DatabaseManager) : Outcome Unit × DatabaseManager :=
  (.ret (), { d with connected := false })

/-- `DatabaseManager.Connect`. Reading `d.config.Type'` through a nil `config`
panics. -/
def Connect (d : DatabaseManager) : Outcome Unit × DatabaseManager :=
  if !d.initialized then (.err "DatabaseManager not initialized", d)
  else if d.connected then (.err "Already connected to database", d)
  else
    match d.config with
    | none => (.panic "runtime error: invalid memory address or nil pointer dereference", d)
    | some config =>
      if config.Type' = DatabaseTypeSQLite then d.connectSQLite
      else if config.Type' = DatabaseTypePostgreSQL then d.connectPostgreSQL
      else if config.Type' = DatabaseTypeMySQL then d.connectMySQL
      else if config.Type' = DatabaseTypeRedis then d.connectRedis
      else if config.Type' = DatabaseTypeMongoDB then d.connectMongoDB
      else if config.Type' = DatabaseTypeSupabase then d.connectSupabase
      else if config.Type' = DatabaseTypeFirebase then d.connectFirebase
      else (.err ("Unsupported database type: " ++ config.Type'), d)

/-- `DatabaseManager.Disconnect`. -/
def Disconnect (d : DatabaseManager) : Outcome Unit × DatabaseManager :=
  if !d.initialized then (.err "DatabaseManager not initialized", d)
  else if !d.connected then (.err "Not connected to database", d)
  else d.disconnect

/-- `DatabaseManager.Shutdown`. -/
def Shutdown (d : DatabaseManager) : Outcome Unit × DatabaseManager :=
  if !d.initialized then (.err "DatabaseManager not initialized", d)
  else
    let r := if d.connected then d.disconnect else (Outcome.ret (), d)
    match r.1 with
    | .ret _ => (.ret (), { r.2 with initialized := false })
    | .err msg => (.err msg, r.2)
    | .panic msg => (.panic msg, r.2)

/-- `DatabaseManager.IsConnected`. -/
def IsConnected (d : DatabaseManager) : Bool := d.connected

/-- `DatabaseManager.GetLastError`. -/
def GetLastError (d : DatabaseManager) : String := d.lastError

end DatabaseManager

/-- A configuration of the given type with every other field at its zero
value. -/
def configOfType (t : DatabaseType) : DatabaseConfig :=
  { Type' := t, Host := "", Port := 0, Database := "", Username := "", Password := "",
    ConnectionString := "", MaxConnections := 0, Timeout := 0 }

/-- An initialized, not yet connected manager configured with the given type. -/
def initializedDatabase (t : DatabaseType) : DatabaseManager :=
  (DatabaseManager.NewDatabaseManager.Initialize (some (configOfType t))).2

/-! ## `security.SecurityManager`: the audit log (security/security_manager.go)

The audit log is a slice of pointers, and `GetAuditLog` hands a second slice to
its caller, so the backing arrays are modelled: `EventArrays` lists the arrays
allocated so far, and a slice is an index into that list with a length. -/

/-- The alphabet of `base64.StdEncoding`. -/
def base64Char (n : Nat) : Char :=
  "ABCDEFGHIJKLMNOPQRSTUVWXYZabcdefghijklmnopqrstuvwxyz0123456789+/".toList.getD n 'A'

/-- The characters of `base64.StdEncoding.EncodeToString`: four per group of
three bytes, the last group padded with the character 61 (the equals sign). -/
def base64Chars : List Nat → List Char
  | [] => []
  | [a] => [base64Char (a / 4), base64Char (a % 4 * 16), Char.ofNat 61, Char.ofNat 61]
  | [a, b] =>
    [base64Char (a / 4), base64Char (a % 4 * 16 + b / 16), base64Char (b % 16 * 4),
      Char.ofNat 61]
  | a :: b :: c :: rest =>
    [base64Char (a / 4), base64Char (a % 4 * 16 + b / 16), base64Char (b % 16 * 4 + c / 64),
      base64Char (c % 64)] ++ base64Chars rest

/-- `base64.StdEncoding.EncodeToString`. -/
def base64EncodeToString (src : List Nat) : String := String.mk (base64Chars src)

/-- `generateID` of package security: 16 random bytes in base64, the empty
string when the random source fails. -/
def generateID (src : RandSource) : String :=
  match randRead 16 src with
  | .inl _ => ""
  | .inr bytes => base64EncodeToString bytes

/-- `SecurityPolicy`. -/
structure SecurityPolicy where
  ID : String
  Name : String
  Description : String
  Rules : List String
  CreatedAt : Int
  UpdatedAt : Int
  deriving DecidableEq, Repr

/-- `AuditEvent`; the field `Type` is written `Type'`, `Timestamp` is the clock
reading. -/
structure AuditEvent where
  ID : String
  Type' : String
  Message : String
  Data : List Nat
  Timestamp : Int
  deriving DecidableEq, Repr

/-- The backing arrays of the `[]*AuditEvent` slices allocated so far; a cell
holds a pointer to an event, `none` for nil. The capacity of an array is its
number of cells. -/
abbrev EventArrays := List (List (Option AuditEvent))

/-- A slice header of type `[]*AuditEvent`: the backing array (its position in
`EventArrays`) and the length. Every slice of this code starts at the first
cell of its array. -/
structure EventSlice where
  array : Nat
  len : Nat
  deriving DecidableEq, Repr

/-- The elements of a slice, `s[0]` to `s[len(s)-1]`. -/
def EventSlice.read (heap : EventArrays) (s : EventSlice) : List (Option AuditEvent) :=
  (List.range s.len).map (fun i => (heap.getD s.array []).getD i none)

/-- The builtin `append(s, e)` for one element. With room left in the backing
array the element is written in place; otherwise a larger array (its capacity
chosen by `grow`, at least `len(s)+1`) is allocated and the elements are
copied over. -/
def EventSlice.append (grow : Nat → Nat) (heap : EventArrays) (s : EventSlice)
    (e : AuditEvent) : EventArrays × EventSlice :=
  if s.len < (heap.getD s.array []).length then
    (heap.set s.array ((heap.getD s.array []).set s.len (some e)), { s with len := s.len + 1 })
  else
    (heap ++ [(List.range s.len).map (fun i => (heap.getD s.array []).getD i none) ++
        [some e] ++ List.replicate (grow (heap.getD s.array []).length - (s.len + 1)) none],
      { array := heap.length, len := s.len + 1 })

/-- The fields of `security.SecurityManager` (without the mutex). -/
structure SecurityManager where
  policies : GoMap SecurityPolicy
  auditLog : EventSlice
  deriving DecidableEq

/-- `NewSecurityManager`: `make([]*AuditEvent, 0)` allocates an array without
cells. -/
def SecurityManager.NewSecurityManager (heap : EventArrays) : EventArrays × SecurityManager :=
  (heap ++ [[]], { policies := GoMap.empty, auditLog := { array := heap.length, len := 0 } })

/-- `SecurityManager.LogAuditEvent`; `idSource` feeds `generateID`, `now` is
`time.Now()`, `grow` the capacity rule of `append`. -/
def SecurityManager.LogAuditEvent (grow : Nat → Nat) (heap : EventArrays) (m : SecurityManager)
    (eventType message : String) (data : List Nat) (idSource : RandSource) (now : Int) :
    Outcome Unit × EventArrays × SecurityManager :=
  (.ret (),
    (EventSlice.append grow heap m.auditLog
      { ID := generateID idSource, Type' := eventType, Message := message, Data := data,
        Timestamp := now }).1,
    { m with auditLog := (EventSlice.append grow heap m.auditLog
      { ID := generateID idSource, Type' := eventType, Message := message, Data := data,
        Timestamp := now }).2 })

/-- `SecurityManager.GetAuditLog`: `make([]*AuditEvent, len(m.auditLog))`
allocates a new array, `copy` fills it, and the slice over it is returned. -/
def SecurityManager.GetAuditLog (heap : EventArrays) (m : SecurityManager) :
    EventSlice × EventArrays :=
  ({ array := heap.length, len := m.auditLog.len }, heap ++ [m.auditLog.read heap])

/-- What the caller of `GetAuditLog` can do to memory through the returned
slice `log`: put other cells into its backing array (replacing elements,
appending after a truncation). Truncating `log` itself changes the caller's
slice header only. -/
def callerOverwrites (heap : EventArrays) (log : EventSlice)
    (cells : List (Option AuditEvent)) : EventArrays :=
  heap.set log.array cells

/-- The arguments of one `LogAuditEvent` call. -/
structure LogCall where
  eventType : String
  message : String
  data : List Nat
  idSource : RandSource
  now : Int
  deriving DecidableEq, Repr

/-- The event a `LogAuditEvent` call creates. -/
def LogCall.event (c : LogCall) : AuditEvent :=
  { ID := generateID c.idSource, Type' := c.eventType, Message := c.message, Data := c.data,
    Timestamp := c.now }

/-- The `LogAuditEvent` calls of the list, made one after the other. -/
def SecurityManager.logAll (grow : Nat → Nat) :
    EventArrays → SecurityManager → List LogCall → EventArrays × SecurityManager
  | heap, m, [] => (heap, m)
  | heap, m, c :: rest =>
    SecurityManager.logAll grow
      (SecurityManager.LogAuditEvent grow heap m c.eventType c.message c.data c.idSource
        c.now).2.1
      (SecurityManager.LogAuditEvent grow heap m c.eventType c.message c.data c.idSource
        c.now).2.2
      rest

/-- The slice of the audit log lies inside an allocated array. -/
def SecurityManager.WellFormed (heap : EventArrays) (m : SecurityManager) : Prop :=
  m.auditLog.array < heap.length ∧ m.auditLog.len ≤ (heap.getD m.auditLog.array []).length

/-- The memory and the manager after `NewSecurityManager` and the given
`LogAuditEvent` calls. -/
def loggedState (grow : Nat → Nat) (heap : EventArrays) (calls : List LogCall) :
    EventArrays × SecurityManager :=
  SecurityManager.logAll grow (SecurityManager.NewSecurityManager heap).1
    (SecurityManager.NewSecurityManager heap).2 calls

/-- The call of `TestLogAuditEvent`; the random source delivers the bytes 1. -/
def testLogCall : LogCall :=
  { eventType := "test-event", message := "Test audit event",
    data := [116, 101, 115, 116, 45, 100, 97, 116, 97], idSource := constSource 1, now := 42 }

/-! ## Package `satox_bindings`: shared models

The managers of package `satox_bindings` live in the namespace `Bindings`.
`sha256.Sum256` is a parameter of every definition that hashes. -/

/-- A value stored in a `map[string]interface{}` configuration. A `float64`
constant is kept as the rational it denotes. -/
inductive AnyValue where
  | int (v : Int)
  | float (v : Rat)
  | str (v : String)
  | bool (v : Bool)
  deriving DecidableEq

/-- The UTF-8 encoding of one character. -/
def utf8Char (c : Char) : List Nat :=
  if c.toNat < 128 then [c.toNat]
  else if c.toNat < 2048 then [192 + c.toNat / 64, 128 + c.toNat % 64]
  else if c.toNat < 65536 then
    [224 + c.toNat / 4096, 128 + c.toNat / 64 % 64, 128 + c.toNat % 64]
  else
    [240 + c.toNat / 262144, 128 + c.toNat / 4096 % 64, 128 + c.toNat / 64 % 64,
      128 + c.toNat % 64]

/-- The conversion `[]byte(s)`. -/
def stringBytes (s : String) : List Nat := (s.toList.map utf8Char).flatten

/-- A stand-in for `sha256.Sum256`, used only to evaluate examples: 32 bytes
read off the input. -/
def stubSha256 (data : List Nat) : List Nat :=
  (List.range 32).map (fun i => (data.getD i 0 + i) % 256)

/-- The value of a `uint64` expression whose mathematical value is `x`. -/
def wrapUInt64 (x : Nat) : Nat := x % 2 ^ 64

/-- The `uint64` difference `a - b`. -/
def subUInt64 (a b : Nat) : Nat := (a + 2 ^ 64 - b % 2 ^ 64) % 2 ^ 64

namespace Bindings

/-! ### `satox_bindings.AssetManager` (satox_bindings/asset_manager.go) -/

/-- `Asset` of package `satox_bindings`. `TotalSupply` and `BlockHeight` are
`uint64`, `Decimals` is a `uint8`, `Created` and `LastUpdated` are clock
readings, `Metadata` is `none` for a nil map. -/
structure Asset where
  AssetID : String
  Name : String
  Symbol : String
  Description : String
  TotalSupply : Nat
  Decimals : Nat
  Owner : String
  Created : Int
  LastUpdated : Int
  Metadata : Option (GoMap String)
  Transferable : Bool
  Divisible : Bool
  Reissuable : Bool
  IPFSHash : String
  BlockHeight : Nat
  TransactionID : String
  deriving DecidableEq

/-- `AssetTransfer`. `Fee` is a `float64`, kept as the rational it denotes. -/
structure AssetTransfer where
  TransferID : String
  AssetID : String
  FromAddress : String
  ToAddress : String
  Amount : Nat
  Fee : Rat
  BlockHeight : Nat
  TxID : String
  Timestamp : Nat
  Confirmations : Nat
  deriving DecidableEq

/-- The fields of `AssetManager` (without the mutex). -/
structure AssetManager where
  initialized : Bool
  assets : GoMap Asset
  config : GoMap AnyValue
  deriving DecidableEq

namespace AssetManager

/-- `NewAssetManager`. -/
def NewAssetManager : AssetManager :=
  { initialized := false, assets := GoMap.empty, config := GoMap.empty }

/-- The default configuration that `AssetManager.Initialize` installs. -/
def defaultConfig : GoMap AnyValue :=
  ((((((((GoMap.empty.set "max_name_length" (.int 32)).set "max_symbol_length" (.int 5)).set
    "max_description_length" (.int 1000)).set "min_total_supply" (.int 1)).set
    "max_total_supply" (.int 1000000000)).set "default_decimals" (.int 8)).set
    "max_decimals" (.int 18)).set "min_fee" (.float (1 / 100000))).set
    "default_fee" (.float (1 / 10000))

/-- `AssetManager.Initialize`. -/
def Initialize (m : AssetManager) : Outcome Unit × AssetManager :=
  if m.initialized then (.err "AssetManager already initialized", m)
  else (.ret (), { m with initialized := true, config := defaultConfig })

/-- `AssetManager.Shutdown`. -/
def Shutdown (m : AssetManager) : Outcome Unit × AssetManager :=
  if !m.initialized then (.err "AssetManager not initialized", m)
  else (.ret (), { m with initialized := false, assets := GoMap.empty })

/-- `AssetManager.generateAssetID`: 16 bytes of the hash of
`name_symbol_owner` in hexadecimal. -/
def generateAssetID (sha256 : List Nat → List Nat) (name symbol owner : String) : String :=
  hexEncodeToString ((sha256 (stringBytes (name ++ "_" ++ symbol ++ "_" ++ owner))).take 16)

/-- `AssetManager.generateTransferID`. -/
def generateTransferID (sha256 : List Nat → List Nat) (assetID fromAddress toAddress : String)
    (amount : Nat) : String :=
  hexEncodeToString (sha256 (stringBytes
    (assetID ++ "_" ++ fromAddress ++ "_" ++ toAddress ++ "_" ++ toString amount)))

/-- `AssetManager.CreateAsset`; `tCreated` and `tUpdated` are the two
`time.Now()` readings, `len` of a string is its number of bytes. -/
def CreateAsset (sha256 : List Nat → List Nat) (m : AssetManager)
    (name symbol description owner : String) (totalSupply decimals : Nat)
    (metadata : Option (GoMap String)) (tCreated tUpdated : Int) :
    Outcome Asset × AssetManager :=
  if !m.initialized then (.err "AssetManager not initialized", m)
  else if name = "" then (.err "asset name cannot be empty", m)
  else if symbol = "" then (.err "asset symbol cannot be empty", m)
  else if owner = "" then (.err "asset owner cannot be empty", m)
  else if totalSupply = 0 then (.err "total supply must be greater than 0", m)
  else if name.utf8ByteSize > 32 then (.err "asset name too long (max 32 characters)", m)
  else if symbol.utf8ByteSize > 5 then (.err "asset symbol too long (max 5 characters)", m)
  else if description.utf8ByteSize > 1000 then
    (.err "asset description too long (max 1000 characters)", m)
  else if decimals > 18 then (.err "decimals cannot exceed 18", m)
  else
    match m.assets.get? (generateAssetID sha256 name symbol owner) with
    | some _ => (.err "asset already exists", m)
    | none =>
      let asset : Asset :=
        { AssetID := generateAssetID sha256 name symbol owner
          Name := name
          Symbol := symbol
          Description := description
          TotalSupply := totalSupply
          Decimals := decimals
          Owner := owner
          Created := tCreated
          LastUpdated := tUpdated
          Metadata := metadata
          Transferable := true
          Divisible := decide (decimals > 0)
          Reissuable := false
          IPFSHash := ""
          BlockHeight := 0
          TransactionID := "" }
      (.ret asset,
        { m with assets := m.assets.set (generateAssetID sha256 name symbol owner) asset })

/-- `AssetManager.GetAsset`. -/
def GetAsset (m : AssetManager) (assetID : String) : Outcome Asset × AssetManager :=
  if !m.initialized then (.err "AssetManager not initialized", m)
  else if assetID = "" then (.err "asset ID cannot be empty", m)
  else
    match m.assets.get? assetID with
    | none => (.err "asset not found", m)
    | some asset => (.ret asset, m)

/-- `AssetManager.UpdateAsset`; `now` is `time.Now()`. -/
def UpdateAsset (m : AssetManager) (assetID description : String)
    (metadata : Option (GoMap String)) (now : Int) : Outcome Unit × AssetManager :=
  if !m.initialized then (.err "AssetManager not initialized", m)
  else if assetID = "" then (.err "asset ID cannot be empty", m)
  else
    match m.assets.get? assetID with
    | none => (.err "asset not found", m)
    | some asset =>
      if description.utf8ByteSize > 1000 then
        (.err "asset description too long (max 1000 characters)", m)
      else
        (.ret (),
          { m with
            assets := m.assets.set assetID
              { asset with Description := description, Metadata := metadata,
                           LastUpdated := now } })

/-- `AssetManager.TransferAsset`; `now` is `time.Now().Unix()`. The manager is
only read. -/
def TransferAsset (sha256 : List Nat → List Nat) (m : AssetManager)
    (assetID fromAddress toAddress : String) (amount : Nat) (fee : Rat) (now : Int) :
    Outcome AssetTransfer × AssetManager :=
  if !m.initialized then (.err "AssetManager not initialized", m)
  else if assetID = "" then (.err "asset ID cannot be empty", m)
  else if fromAddress = "" then (.err "from address cannot be empty", m)
  else if toAddress = "" then (.err "to address cannot be empty", m)
  else if amount = 0 then (.err "transfer amount must be greater than 0", m)
  else if fee < 0 then (.err "fee cannot be negative", m)
  else
    match m.assets.get? assetID with
    | none => (.err "asset not found", m)
    | some asset =>
      if !asset.Transferable then (.err "asset is not transferable", m)
      else
        (.ret
          { TransferID := generateTransferID sha256 assetID fromAddress toAddress amount
            AssetID := assetID
            FromAddress := fromAddress
            ToAddress := toAddress
            Amount := amount
            Fee := fee
            BlockHeight := 0
            TxID := ""
            Timestamp := (now % 2 ^ 64).toNat
            Confirmations := 0 }, m)

/-- `AssetManager.ReissueAsset`; `now` is `time.Now()`. -/
def ReissueAsset (m : AssetManager) (assetID owner : String) (additionalSupply : Nat)
    (now : Int) : Outcome Unit × AssetManager :=
  if !m.initialized then (.err "AssetManager not initialized", m)
  else if assetID = "" then (.err "asset ID cannot be empty", m)
  else if owner = "" then (.err "owner address cannot be empty", m)
  else if additionalSupply = 0 then (.err "additional supply must be greater than 0", m)
  else
    match m.assets.get? assetID with
    | none => (.err "asset not found", m)
    | some asset =>
      if asset.Owner ≠ owner then (.err "only asset owner can reissue", m)
      else if !asset.Reissuable then (.err "asset is not reissuable", m)
      else
        (.ret (),
          { m with
            assets := m.assets.set assetID
              { asset with TotalSupply := wrapUInt64 (asset.TotalSupply + additionalSupply),
                           LastUpdated := now } })

/-- `AssetManager.BurnAsset`; `now` is `time.Now()`. -/
def BurnAsset (m : AssetManager) (assetID owner : String) (amount : Nat) (now : Int) :
    Outcome Unit × AssetManager :=
  if !m.initialized then (.err "AssetManager not initialized", m)
  else if assetID = "" then (.err "asset ID cannot be empty", m)
  else if owner = "" then (.err "owner address cannot be empty", m)
  else if amount = 0 then (.err "burn amount must be greater than 0", m)
  else
    match m.assets.get? assetID with
    | none => (.err "asset not found", m)
    | some asset =>
      if asset.Owner ≠ owner then (.err "only asset owner can burn", m)
      else if amount > asset.TotalSupply then (.err "burn amount exceeds total supply", m)
      else
        (.ret (),
          { m with
            assets := m.assets.set assetID
              { asset with TotalSupply := subUInt64 asset.TotalSupply amount,
                           LastUpdated := now } })

/-- `AssetManager.UpdateConfig`: every entry of `newConfig` is assigned. -/
def UpdateConfig (m : AssetManager) (newConfig : GoMap AnyValue) : Outcome Unit × AssetManager :=
  if !m.initialized then (.err "AssetManager not initialized", m)
  else
    (.ret (),
      { m with config := newConfig.entries.foldl (fun c e => c.set e.1 e.2) m.config })

/-- The states of an `AssetManager` that calls of its operations can
produce, starting from `NewAssetManager`. `GetAsset`, `TransferAsset` and the
other operations that only read are left out. -/
inductive Reachable (sha256 : List Nat → List Nat) : AssetManager → Prop
  | start : Reachable sha256 NewAssetManager
  | init (m : AssetManager) : Reachable sha256 m → Reachable sha256 m.Initialize.2
  | shut (m : AssetManager) : Reachable sha256 m → Reachable sha256 m.Shutdown.2
  | create (m : AssetManager) (name symbol description owner : String)
      (totalSupply decimals : Nat) (metadata : Option (GoMap String)) (tCreated tUpdated : Int) :
      Reachable sha256 m →
      Reachable sha256 (CreateAsset sha256 m name symbol description owner totalSupply decimals
        metadata tCreated tUpdated).2
  | update (m : AssetManager) (assetID description : String)
      (metadata : Option (GoMap String)) (now : Int) :
      Reachable sha256 m → Reachable sha256 (m.UpdateAsset assetID description metadata now).2
  | reissue (m : AssetManager) (assetID owner : String) (additionalSupply : Nat) (now : Int) :
      Reachable sha256 m → Reachable sha256 (m.ReissueAsset assetID owner additionalSupply now).2
  | burn (m : AssetManager) (assetID owner : String) (amount : Nat) (now : Int) :
      Reachable sha256 m → Reachable sha256 (m.BurnAsset assetID owner amount now).2
  | config (m : AssetManager) (newConfig : GoMap AnyValue) :
      Reachable sha256 m → Reachable sha256 (m.UpdateConfig newConfig).2

end AssetManager

/-- The inputs that `CreateAsset` of `satox_bindings.AssetManager` refuses. -/
def AssetManager.Refused (sha256 : List Nat → List Nat) (m : AssetManager)
    (name symbol description owner : String) (totalSupply decimals : Nat) : Prop :=
  name = "" ∨ symbol = "" ∨ owner = "" ∨ totalSupply = 0 ∨ name.utf8ByteSize > 32 ∨
    symbol.utf8ByteSize > 5 ∨ description.utf8ByteSize > 1000 ∨ decimals > 18 ∨
    (m.assets.get? (AssetManager.generateAssetID sha256 name symbol owner)).isSome = true

instance (sha256 : List Nat → List Nat) (m : AssetManager)
    (name symbol description owner : String) (totalSupply decimals : Nat) :
    Decidable (AssetManager.Refused sha256 m name symbol description owner totalSupply
      decimals) := by
  unfold AssetManager.Refused
  infer_instance

/-- An initialized manager holding the asset "Gold" of "alice" with a total
supply of 1000. -/
def testAssetManager : AssetManager :=
  (AssetManager.CreateAsset stubSha256 AssetManager.NewAssetManager.Initialize.2 "Gold" "GLD"
    "a test asset" "alice" 1000 8 none 1 2).2

/-- The id that `generateAssetID` gives the asset of `testAssetManager`. -/
def testAssetID : String := AssetManager.generateAssetID stubSha256 "Gold" "GLD" "alice"

end Bindings

namespace Bindings

/-! ### `satox_bindings.SecurityManager` (satox_bindings/security_manager.go) -/

/-- The fields of `SecurityManager` of package `satox_bindings` (without the
mutex). -/
structure SecurityManager where
  initialized : Bool
  encryptionEnabled : Bool
  keyStore : GoMap (List Nat)
  deriving DecidableEq

namespace SecurityManager

/-- `NewSecurityManager`. -/
def NewSecurityManager : SecurityManager :=
  { initialized := false, encryptionEnabled := false, keyStore := GoMap.empty }

/-- `SecurityManager.Initialize`. -/
def Initialize (m : SecurityManager) : Outcome Unit × SecurityManager :=
  if m.initialized then (.err "SecurityManager already initialized", m)
  else (.ret (), { m with initialized := true })

/-- `SecurityManager.EnableEncryption`. -/
def EnableEncryption (m : SecurityManager) (key : List Nat) : Outcome Unit × SecurityManager :=
  if !m.initialized then (.err "SecurityManager not initialized", m)
  else if m.encryptionEnabled then (.err "Encryption already enabled", m)
  else if key.length ≠ 32 then (.err "Invalid key length (must be 32 bytes)", m)
  else (.ret (), { m with encryptionEnabled := true, keyStore := m.keyStore.set "default" key })

/-- `SecurityManager.DisableEncryption`. -/
def DisableEncryption (m : SecurityManager) : Outcome Unit × SecurityManager :=
  if !m.initialized then (.err "SecurityManager not initialized", m)
  else if !m.encryptionEnabled then (.err "Encryption not enabled", m)
  else (.ret (), { m with encryptionEnabled := false, keyStore := GoMap.empty })

/-- `SecurityManager.IsEncryptionEnabled`. -/
def IsEncryptionEnabled (m : SecurityManager) : Bool := m.encryptionEnabled

/-- `SecurityManager.AddKey`. -/
def AddKey (m : SecurityManager) (keyID : String) (key : List Nat) :
    Outcome Unit × SecurityManager :=
  if !m.initialized then (.err "SecurityManager not initialized", m)
  else
    match m.keyStore.get? keyID with
    | some _ => (.err "Key already exists", m)
    | none =>
      if key.length ≠ 32 then (.err "Invalid key length (must be 32 bytes)", m)
      else (.ret (), { m with keyStore := m.keyStore.set keyID key })

/-- `SecurityManager.RemoveKey`. -/
def RemoveKey (m : SecurityManager) (keyID : String) : Outcome Unit × SecurityManager :=
  if !m.initialized then (.err "SecurityManager not initialized", m)
  else
    match m.keyStore.get? keyID with
    | none => (.err "Key not found", m)
    | some _ => (.ret (), { m with keyStore := m.keyStore.del keyID })

/-- `SecurityManager.GenerateKey`; the error of the random source is returned
as it is. -/
def GenerateKey (m : SecurityManager) (src : RandSource) : Outcome (List Nat) :=
  if !m.initialized then .err "SecurityManager not initialized"
  else
    match randRead 32 src with
    | .inl e => .err e
    | .inr key => .ret key

/-- `SecurityManager.HashData`. -/
def HashData (sha256 : List Nat → List Nat) (m : SecurityManager) (data : List Nat) :
    Outcome (List Nat) :=
  if !m.initialized then .err "SecurityManager not initialized"
  else .ret (sha256 data)

/-- `SecurityManager.Shutdown`: with encryption enabled the result of
`DisableEncryption` is returned and nothing else is done. -/
def Shutdown (m : SecurityManager) : Outcome Unit × SecurityManager :=
  if m.encryptionEnabled then m.DisableEncryption
  else (.ret (), { m with initialized := false })

end SecurityManager

/-! ### `satox_bindings.NetworkManager` (satox_bindings/network_manager.go) -/

/-- `Peer`; `Port` is an `int`. -/
structure Peer where
  ID : String
  Address : String
  Port : Int
  Info : GoMap AnyValue
  deriving DecidableEq

/-- The fields of `NetworkManager` (without the mutex); `port` is an `int`. -/
structure NetworkManager where
  initialized : Bool
  connected : Bool
  currentNetwork : String
  port : Int
  peers : GoMap Peer
  deriving DecidableEq

namespace NetworkManager

/-- `NewNetworkManager`. -/
def NewNetworkManager : NetworkManager :=
  { initialized := false, connected := false, currentNetwork := "", port := 0,
    peers := GoMap.empty }

/-- `NetworkManager.Initialize`. -/
def Initialize (m : NetworkManager) : Outcome Unit × NetworkManager :=
  if m.initialized then (.err "NetworkManager already initialized", m)
  else (.ret (), { m with initialized := true })

/-- `NetworkManager.Connect`. -/
def Connect (m : NetworkManager) (networkID : String) (port : Int) :
    Outcome Unit × NetworkManager :=
  if !m.initialized then (.err "NetworkManager not initialized", m)
  else if m.connected then (.err "Already connected to network", m)
  else if port ≤ 0 ∨ port > 65535 then (.err "Invalid port number", m)
  else if networkID ≠ "mainnet" then (.err "Only mainnet is supported", m)
  else if port ≠ 60777 then
    (.err "Invalid port for Satoxcoin mainnet (must be 60777)", m)
  else (.ret (), { m with currentNetwork := networkID, port := port, connected := true })

/-- `NetworkManager.Disconnect`. -/
def Disconnect (m : NetworkManager) : Outcome Unit × NetworkManager :=
  if !m.initialized then (.err "NetworkManager not initialized", m)
  else if !m.connected then (.err "Not connected to any network", m)
  else
    (.ret (),
      { m with connected := false, currentNetwork := "", port := 0, peers := GoMap.empty })

/-- `NetworkManager.IsConnected`. -/
def IsConnected (m : NetworkManager) : Bool := m.connected

/-- `NetworkManager.Shutdown`: with a connection open the result of
`Disconnect` is returned and nothing else is done. -/
def Shutdown (m : NetworkManager) : Outcome Unit × NetworkManager :=
  if m.connected then m.Disconnect
  else (.ret (), { m with initialized := false })

end NetworkManager

/-- An initialized `SecurityManager` with encryption enabled under the key
of 32 bytes 7. -/
def encryptingSecurityManager : SecurityManager :=
  (SecurityManager.NewSecurityManager.Initialize.2.EnableEncryption (List.replicate 32 7)).2

/-- An initialized `NetworkManager` connected to mainnet. -/
def connectedNetworkManager : NetworkManager :=
  (NetworkManager.NewNetworkManager.Initialize.2.Connect "mainnet" 60777).2

end Bindings

namespace Bindings

/-! ### `satox_bindings.IPFSManager` (satox_bindings/ipfs_manager.go) -/

/-- `IPFSFile`; the field `Type` is written `Type'`. `Size` is a `uint64`,
`Replicas` a `uint32`, `Uploaded` and `LastAccessed` are clock readings,
`Metadata` is `none` for a nil map. -/
structure IPFSFile where
  Hash : String
  Name : String
  Size : Nat
  Type' : String
  ContentType : String
  Uploaded : Int
  LastAccessed : Int
  Metadata : Option (GoMap String)
  Pinned : Bool
  Replicas : Nat
  GatewayURL : String
  deriving DecidableEq

/-- `IPFSPin`; the field `Type` is written `Type'`. -/
structure IPFSPin where
  Hash : String
  Name : String
  Type' : String
  Status : String
  Created : Int
  LastUpdated : Int
  Size : Nat
  Metadata : Option (GoMap String)
  deriving DecidableEq

/-- The fields of `IPFSManager` (without the mutex). -/
structure IPFSManager where
  initialized : Bool
  files : GoMap IPFSFile
  pins : GoMap IPFSPin
  config : GoMap AnyValue
  deriving DecidableEq

/-- The verb `%s` of `fmt.Sprintf` applied to a configuration entry: a string
is printed as it is, anything else in the bad-verb notation of package fmt
(`formatFloat` prints a `float64`). -/
def sprintfS (formatFloat : Rat → String) : Option AnyValue → String
  | some (.str v) => v
  | some (.int v) => "%!s(int=" ++ toString v ++ ")"
  | some (.bool v) => "%!s(bool=" ++ toString v ++ ")"
  | some (.float v) => "%!s(float64=" ++ formatFloat v ++ ")"
  | none => "%!s(<nil>)"

namespace IPFSManager

/-- `NewIPFSManager`. -/
def NewIPFSManager : IPFSManager :=
  { initialized := false, files := GoMap.empty, pins := GoMap.empty, config := GoMap.empty }

/-- The default configuration that `IPFSManager.Initialize` installs. -/
def defaultConfig : GoMap AnyValue :=
  ((((((GoMap.empty.set "gateway_url" (.str "https://ipfs.io/ipfs/")).set "api_url"
    (.str "http://localhost:5001")).set "max_file_size" (.int (100 * 1024 * 1024))).set
    "pin_timeout" (.int 300)).set "replication_factor" (.int 3)).set "enable_gc"
    (.bool true)).set "gc_interval" (.int 3600)

/-- `IPFSManager.Initialize`. -/
def Initialize (m : IPFSManager) : Outcome Unit × IPFSManager :=
  if m.initialized then (.err "IPFSManager already initialized", m)
  else (.ret (), { m with initialized := true, config := defaultConfig })

/-- `IPFSManager.Shutdown`. -/
def Shutdown (m : IPFSManager) : Outcome Unit × IPFSManager :=
  if !m.initialized then (.err "IPFSManager not initialized", m)
  else (.ret (), { m with initialized := false, files := GoMap.empty, pins := GoMap.empty })

/-- `IPFSManager.generateIPFSHash`. -/
def generateIPFSHash (sha256 : List Nat → List Nat) (data : List Nat) : String :=
  "Qm" ++ hexEncodeToString (sha256 data)

/-- `IPFSManager.UploadFile`; `tUploaded` and `tAccessed` are the two
`time.Now()` readings. The type assertion `.(int)` on the configured size
limit panics when the entry is missing or holds another type. Only the size
of the data is kept in the file record. -/
def UploadFile (sha256 : List Nat → List Nat) (formatFloat : Rat → String) (m : IPFSManager)
    (name : String) (data : List Nat) (contentType : String)
    (metadata : Option (GoMap String)) (tUploaded tAccessed : Int) :
    Outcome IPFSFile × IPFSManager :=
  if !m.initialized then (.err "IPFSManager not initialized", m)
  else if name = "" then (.err "file name cannot be empty", m)
  else if data.length = 0 then (.err "file data cannot be empty", m)
  else
    match m.config.get? "max_file_size" with
    | some (.int maxSize) =>
      if (data.length : Int) > maxSize then
        (.err ("file size exceeds limit of " ++ toString maxSize ++ " bytes"), m)
      else
        match m.files.get? (generateIPFSHash sha256 data) with
        | some _ => (.err "file already exists in IPFS", m)
        | none =>
          let file : IPFSFile :=
            { Hash := generateIPFSHash sha256 data
              Name := name
              Size := wrapUInt64 data.length
              Type' := "file"
              ContentType := contentType
              Uploaded := tUploaded
              LastAccessed := tAccessed
              Metadata := metadata
              Pinned := false
              Replicas := 0
              GatewayURL := sprintfS formatFloat (m.config.get? "gateway_url") ++
                generateIPFSHash sha256 data }
          (.ret file, { m with files := m.files.set (generateIPFSHash sha256 data) file })
    | _ => (.panic "interface conversion: interface {} is not int", m)

/-- `IPFSManager.GetFile`; `now` is `time.Now()`. -/
def GetFile (m : IPFSManager) (hash : String) (now : Int) : Outcome IPFSFile × IPFSManager :=
  if !m.initialized then (.err "IPFSManager not initialized", m)
  else if hash = "" then (.err "file hash cannot be empty", m)
  else
    match m.files.get? hash with
    | none => (.err "file not found", m)
    | some file =>
      (.ret { file with LastAccessed := now },
        { m with files := m.files.set hash { file with LastAccessed := now } })

/-- `IPFSManager.DownloadFile`; `now` is `time.Now()`. The result is
`make([]byte, file.Size)`: as many zero bytes as the file is long. -/
def DownloadFile (m : IPFSManager) (hash : String) (now : Int) :
    Outcome (List Nat) × IPFSManager :=
  if !m.initialized then (.err "IPFSManager not initialized", m)
  else if hash = "" then (.err "file hash cannot be empty", m)
  else
    match m.files.get? hash with
    | none => (.err "file not found", m)
    | some file =>
      (.ret (List.replicate file.Size 0),
        { m with files := m.files.set hash { file with LastAccessed := now } })

end IPFSManager

/-- An initialized `IPFSManager` without files. -/
def testIPFSManager : IPFSManager := IPFSManager.NewIPFSManager.Initialize.2

/-- A stand-in for the `float64` formatting of package fmt, used only to
evaluate examples. -/
def stubFormatFloat (_v : Rat) : String := "?"

end Bindings

/-! ## `SatoxSDK` (satox_sdk.go)

The types of the nine managers the facade drives are not in the source tree.
A manager is abstract here: it records the calls it received, and what its
`Initialize` and `Start` return is decided by the environment. -/

/-- The nine managers of the facade. -/
inductive ManagerKind where
  | core | wallet | security | asset | nft | blockchain | ipfs | network | database
  deriving DecidableEq, Repr

/-- The position of a manager in the order in which `Initialize` and `Start`
go through them. -/
def ManagerKind.order : ManagerKind → Nat
  | .core => 0 | .wallet => 1 | .security => 2 | .asset => 3 | .nft => 4
  | .blockchain => 5 | .ipfs => 6 | .network => 7 | .database => 8

/-- The name of a manager in the error messages of the facade. -/
def ManagerKind.label : ManagerKind → String
  | .core => "core" | .wallet => "wallet" | .security => "security" | .asset => "asset"
  | .nft => "NFT" | .blockchain => "blockchain" | .ipfs => "IPFS" | .network => "network"
  | .database => "database"

/-- Modelled from the spec: `CoreManager`, `WalletManager` and the other manager
types used by `SatoxSDK` are not in the source tree; "each manager modelled as
an abstract Initialize/Start that may fail". The record keeps the names of the
methods called on the manager, in call order. -/
structure AbstractManager where
  calls : List String
  deriving DecidableEq, Repr

/-- A method call through a manager pointer: the call is recorded. -/
def AbstractManager.call (slot : Option AbstractManager) (method : String) :
    Option AbstractManager :=
  slot.map (fun a => { calls := a.calls ++ [method] })

/-- `Config` of satox_sdk.go. The numeric fields are `uint32` and `uint16`. -/
structure Config where
  DataDir : String
  Network : String
  EnableMining : Bool
  EnableSync : Bool
  SyncIntervalMs : Nat
  MiningThreads : Nat
  MaxConnections : Nat
  RPCPort : Nat
  P2PPort : Nat
  EnableRPC : Bool
  EnableP2P : Bool
  LogLevel : String
  LogFile : String
  deriving DecidableEq, Repr

/-- `DefaultConfig`, with the literals of the source. -/
def DefaultConfig : Config :=
  { DataDir := "./data", Network := "mainnet", EnableMining := false, EnableSync := true,
    SyncIntervalMs := 1000, MiningThreads := 1, MaxConnections := 10, RPCPort := 7777,
    P2PPort := 67777, EnableRPC := true, EnableP2P := true, LogLevel := "info",
    LogFile := "./logs/satox-sdk.log" }

/-- The fields of `SatoxSDK` (without the mutex and the context); a manager
pointer is `none` when nil. -/
structure SatoxSDK where
  coreManager : Option AbstractManager
  walletManager : Option AbstractManager
  securityManager : Option AbstractManager
  assetManager : Option AbstractManager
  nftManager : Option AbstractManager
  blockchainManager : Option AbstractManager
  ipfsManager : Option AbstractManager
  networkManager : Option AbstractManager
  databaseManager : Option AbstractManager
  config : Option Config
  isRunning : Bool
  deriving DecidableEq, Repr

namespace SatoxSDK

/-- `NewSatoxSDK`. -/
def NewSatoxSDK : SatoxSDK :=
  { coreManager := none, walletManager := none, securityManager := none, assetManager := none,
    nftManager := none, blockchainManager := none, ipfsManager := none, networkManager := none,
    databaseManager := none, config := some DefaultConfig, isRunning := false }

/-- The manager pointer of the given kind. -/
def manager (sdk : SatoxSDK) : ManagerKind → Option AbstractManager
  | .core => sdk.coreManager
  | .wallet => sdk.walletManager
  | .security => sdk.securityManager
  | .asset => sdk.assetManager
  | .nft => sdk.nftManager
  | .blockchain => sdk.blockchainManager
  | .ipfs => sdk.ipfsManager
  | .network => sdk.networkManager
  | .database => sdk.databaseManager

/-- A manager fresh from its constructor on which `Initialize` was called. -/
def created : Option AbstractManager := some { calls := ["Initialize"] }

/-- `SatoxSDK.Initialize`. `initResult k` is what `Initialize` of manager `k`
returns: `none` for nil, `some e` for an error with message `e`. -/
def Initialize (sdk : SatoxSDK) (config : Option Config)
    (initResult : ManagerKind → Option String) : Outcome Unit × SatoxSDK :=
  if sdk.isRunning then (.err "SDK is already running", sdk)
  else
    let sdk0 : SatoxSDK :=
      match config with
      | some c => { sdk with config := some c }
      | none => sdk
    let sdk1 : SatoxSDK := { sdk0 with coreManager := created }
    match initResult .core with
    | some e => (.err ("failed to initialize core manager: " ++ e), sdk1)
    | none =>
    let sdk2 : SatoxSDK := { sdk1 with walletManager := created }
    match initResult .wallet with
    | some e => (.err ("failed to initialize wallet manager: " ++ e), sdk2)
    | none =>
    let sdk3 : SatoxSDK := { sdk2 with securityManager := created }
    match initResult .security with
    | some e => (.err ("failed to initialize security manager: " ++ e), sdk3)
    | none =>
    let sdk4 : SatoxSDK := { sdk3 with assetManager := created }
    match initResult .asset with
    | some e => (.err ("failed to initialize asset manager: " ++ e), sdk4)
    | none =>
    let sdk5 : SatoxSDK := { sdk4 with nftManager := created }
    match initResult .nft with
    | some e => (.err ("failed to initialize NFT manager: " ++ e), sdk5)
    | none =>
    let sdk6 : SatoxSDK := { sdk5 with blockchainManager := created }
    match initResult .blockchain with
    | some e => (.err ("failed to initialize blockchain manager: " ++ e), sdk6)
    | none =>
    let sdk7 : SatoxSDK := { sdk6 with ipfsManager := created }
    match initResult .ipfs with
    | some e => (.err ("failed to initialize IPFS manager: " ++ e), sdk7)
    | none =>
    let sdk8 : SatoxSDK := { sdk7 with networkManager := created }
    match initResult .network with
    | some e => (.err ("failed to initialize network manager: " ++ e), sdk8)
    | none =>
    let sdk9 : SatoxSDK := { sdk8 with databaseManager := created }
    match initResult .database with
    | some e => (.err ("failed to initialize database manager: " ++ e), sdk9)
    | none => (.ret (), { sdk9 with isRunning := true })

/-- `SatoxSDK.Start`. `startResult k` is what `Start` of manager `k` returns. -/
def Start (sdk : SatoxSDK) (startResult : ManagerKind → Option String) :
    Outcome Unit × SatoxSDK :=
  if !sdk.isRunning then (.err "SDK is not initialized", sdk)
  else
    let sdk1 : SatoxSDK := { sdk with coreManager := AbstractManager.call sdk.coreManager "Start" }
    match startResult .core with
    | some e => (.err ("failed to start core manager: " ++ e), sdk1)
    | none =>
    let sdk2 : SatoxSDK :=
      { sdk1 with walletManager := AbstractManager.call sdk1.walletManager "Start" }
    match startResult .wallet with
    | some e => (.err ("failed to start wallet manager: " ++ e), sdk2)
    | none =>
    let sdk3 : SatoxSDK :=
      { sdk2 with securityManager := AbstractManager.call sdk2.securityManager "Start" }
    match startResult .security with
    | some e => (.err ("failed to start security manager: " ++ e), sdk3)
    | none =>
    let sdk4 : SatoxSDK :=
      { sdk3 with assetManager := AbstractManager.call sdk3.assetManager "Start" }
    match startResult .asset with
    | some e => (.err ("failed to start asset manager: " ++ e), sdk4)
    | none =>
    let sdk5 : SatoxSDK := { sdk4 with nftManager := AbstractManager.call sdk4.nftManager "Start" }
    match startResult .nft with
    | some e => (.err ("failed to start NFT manager: " ++ e), sdk5)
    | none =>
    let sdk6 : SatoxSDK :=
      { sdk5 with blockchainManager := AbstractManager.call sdk5.blockchainManager "Start" }
    match startResult .blockchain with
    | some e => (.err ("failed to start blockchain manager: " ++ e), sdk6)
    | none =>
    let sdk7 : SatoxSDK :=
      { sdk6 with ipfsManager := AbstractManager.call sdk6.ipfsManager "Start" }
    match startResult .ipfs with
    | some e => (.err ("failed to start IPFS manager: " ++ e), sdk7)
    | none =>
    let sdk8 : SatoxSDK :=
      { sdk7 with networkManager := AbstractManager.call sdk7.networkManager "Start" }
    match startResult .network with
    | some e => (.err ("failed to start network manager: " ++ e), sdk8)
    | none =>
    let sdk9 : SatoxSDK :=
      { sdk8 with databaseManager := AbstractManager.call sdk8.databaseManager "Start" }
    match startResult .database with
    | some e => (.err ("failed to start database manager: " ++ e), sdk9)
    | none => (.ret (), sdk9)

/-- `SatoxSDK.Stop`; the results of the `Stop` calls are discarded. -/
def Stop (sdk : SatoxSDK) : Outcome Unit × SatoxSDK :=
  if !sdk.isRunning then (.ret (), sdk)
  else
    (.ret (),
      { sdk with
        coreManager := AbstractManager.call sdk.coreManager "Stop"
        walletManager := AbstractManager.call sdk.walletManager "Stop"
        securityManager := AbstractManager.call sdk.securityManager "Stop"
        assetManager := AbstractManager.call sdk.assetManager "Stop"
        nftManager := AbstractManager.call sdk.nftManager "Stop"
        blockchainManager := AbstractManager.call sdk.blockchainManager "Stop"
        ipfsManager := AbstractManager.call sdk.ipfsManager "Stop"
        networkManager := AbstractManager.call sdk.networkManager "Stop"
        databaseManager := AbstractManager.call sdk.databaseManager "Stop"
        isRunning := false })

/-- `SatoxSDK.Shutdown`: the context is cancelled, then `Stop` runs. -/
def Shutdown (sdk : SatoxSDK) : Outcome Unit × SatoxSDK := sdk.Stop

end SatoxSDK

/-- An environment in which only the `Initialize` of the asset manager fails. -/
def assetInitFails : ManagerKind → Option String
  | .asset => some "disk full"
  | _ => none

/-- The ledger property of `asset.Manager`: for every stored asset the
`int64` sum of its address balances is the asset's `TotalSupply`. -/
def Manager.LedgerConsistent (am : Manager) : Prop :=
  ∀ id a, am.assets.get? id = some a → am.supply id = some a.TotalSupply

/-- The states of `asset.Manager` reachable from `NewManager` through
`Initialize`, `Shutdown`, `CreateAsset` (with an `int64` total supply),
`DeleteAsset`, `TransferAsset`, and those `UpdateAsset` calls that keep the
`TotalSupply` of the asset they update. -/
inductive Manager.ReachableKeepingSupply : Manager → Prop
  | start : Manager.ReachableKeepingSupply Manager.NewManager
  | init (am : Manager) :
      Manager.ReachableKeepingSupply am → Manager.ReachableKeepingSupply am.Initialize.2
  | shut (am : Manager) :
      Manager.ReachableKeepingSupply am → Manager.ReachableKeepingSupply am.Shutdown.2
  | create (am : Manager) (config : AssetConfig) (now : Int) :
      InInt64 config.TotalSupply → Manager.ReachableKeepingSupply am →
      Manager.ReachableKeepingSupply (am.CreateAsset config now).2
  | update (am : Manager) (id : String) (config : AssetUpdateConfig) (now : Int) :
      (∀ a, am.assets.get? id = some a → config.TotalSupply = a.TotalSupply) →
      Manager.ReachableKeepingSupply am →
      Manager.ReachableKeepingSupply (am.UpdateAsset id config now).2
  | delete (am : Manager) (id : String) :
      Manager.ReachableKeepingSupply am → Manager.ReachableKeepingSupply (am.DeleteAsset id).2
  | transfer (am : Manager) (config : TransferConfig) :
      Manager.ReachableKeepingSupply am →
      Manager.ReachableKeepingSupply (am.TransferAsset config).2

/-- The manager of `TestUpdateAsset` after `UpdateAsset`. -/
def updatedManager : Manager :=
  (testManager.UpdateAsset "TEST"
    { Name := "Updated Asset", Description := "Updated Description", TotalSupply := 2000000 }
    5).2

/-! ## Token ids of `nft.NFTManager` -/

/-- No two NFTs stored under different keys have the same `TokenID`. -/
def NFTManager.TokenIDsUnique (nm : NFTManager) : Prop :=
  ∀ e1 ∈ nm.nfts.entries, ∀ e2 ∈ nm.nfts.entries, e1.1 ≠ e2.1 → e1.2.TokenID ≠ e2.2.TokenID

instance (nm : NFTManager) : Decidable nm.TokenIDsUnique := by
  unfold NFTManager.TokenIDsUnique
  infer_instance

/-- The states of an `nft.NFTManager` that `Initialize`, `CreateNFT`,
`TransferNFT` and `BurnNFT` produce from `NewNFTManager`. -/
inductive NFTManager.Reachable : NFTManager → Prop
  | start : NFTManager.Reachable NFTManager.NewNFTManager
  | init (nm : NFTManager) : NFTManager.Reachable nm → NFTManager.Reachable nm.Initialize.2
  | create (nm : NFTManager) (contractAddress : String) (metadata : NFTMetadata)
      (creator : String) (isTransferable isBurnable : Bool) (royaltyRecipient : String)
      (royaltyBasisPoints : Nat) (tCreated tUpdated : Int) :
      NFTManager.Reachable nm →
      NFTManager.Reachable (nm.CreateNFT contractAddress metadata creator isTransferable
        isBurnable royaltyRecipient royaltyBasisPoints tCreated tUpdated).2
  | transfer (nm : NFTManager) (nftID from' to' : String) (now : Int) :
      NFTManager.Reachable nm → NFTManager.Reachable (nm.TransferNFT nftID from' to' now).2
  | burn (nm : NFTManager) (nftID owner : String) :
      NFTManager.Reachable nm → NFTManager.Reachable (nm.BurnNFT nftID owner).2

/-- The metadata of `testMetadata` under another name. -/
def namedMetadata (name : String) : NFTMetadata := { testMetadata with Name := name }

/-- The manager after `Initialize`, `CreateNFT` for the names "A" and "B" (token
ids 1 and 2), `BurnNFT` of "0x123_A" and `CreateNFT` for the name "C". -/
def tokenClashManager : NFTManager :=
  ((((NFTManager.NewNFTManager.Initialize.2.CreateNFT "0x123" (namedMetadata "A") "creator"
    true true "royaltyRecipient" 500 1 1).2.CreateNFT "0x123" (namedMetadata "B") "creator"
    true true "royaltyRecipient" 500 2 2).2.BurnNFT "0x123_A" "creator").2.CreateNFT "0x123"
    (namedMetadata "C") "creator" true true "royaltyRecipient" 500 3 3).2

namespace Bindings

/-- `AssetManager.ValidateAsset`; `none` is the nil pointer. The manager is
only read. -/
def AssetManager.ValidateAsset (m : AssetManager) (asset : Option Asset) :
    Outcome Unit × AssetManager :=
  if !m.initialized then (.err "AssetManager not initialized", m)
  else
    match asset with
    | none => (.err "asset cannot be nil", m)
    | some asset =>
      if asset.AssetID = "" then (.err "asset ID cannot be empty", m)
      else if asset.Name = "" then (.err "asset name cannot be empty", m)
      else if asset.Symbol = "" then (.err "asset symbol cannot be empty", m)
      else if asset.Owner = "" then (.err "asset owner cannot be empty", m)
      else if asset.TotalSupply = 0 then (.err "total supply must be greater than 0", m)
      else if asset.Name.utf8ByteSize > 32 then
        (.err "asset name too long (max 32 characters)", m)
      else if asset.Symbol.utf8ByteSize > 5 then
        (.err "asset symbol too long (max 5 characters)", m)
      else if asset.Description.utf8ByteSize > 1000 then
        (.err "asset description too long (max 1000 characters)", m)
      else if asset.Decimals > 18 then (.err "decimals cannot exceed 18", m)
      else (.ret (), m)

/-- The checks of `ValidateAsset` other than the one on `TotalSupply`. -/
def Asset.ValidUpToSupply (a : Asset) : Prop :=
  a.AssetID ≠ "" ∧ a.Name ≠ "" ∧ a.Symbol ≠ "" ∧ a.Owner ≠ "" ∧ a.Name.utf8ByteSize ≤ 32 ∧
    a.Symbol.utf8ByteSize ≤ 5 ∧ a.Description.utf8ByteSize ≤ 1000 ∧ a.Decimals ≤ 18

instance (a : Asset) : Decidable a.ValidUpToSupply := by
  unfold Asset.ValidUpToSupply
  infer_instance

/-- The manager `testAssetManager` after `BurnAsset(id, "alice", 1000)`: the
whole supply of "Gold" is burnt. -/
def burntAssetManager : AssetManager :=
  (testAssetManager.BurnAsset testAssetID "alice" 1000 3).2

end Bindings

namespace Bindings

/-! ### `satox_bindings.NFTManager` (satox_bindings/nft_manager.go) -/

/-- `NFTAttribute`; `Percentage` is a `float64`, kept as the rational it
denotes. -/
structure NFTAttribute where
  TraitType : String
  Value : String
  Rarity : String
  Percentage : Rat
  deriving DecidableEq

/-- `NFT` of package `satox_bindings`. `Created` and `LastUpdated` are clock
readings, `Metadata` is `none` for a nil map, `BlockHeight` is a `uint64`,
`Royalty` a `float64`. -/
structure NFT where
  TokenID : String
  CollectionID : String
  Name : String
  Description : String
  Owner : String
  Creator : String
  Created : Int
  LastUpdated : Int
  Metadata : Option (GoMap String)
  IPFSHash : String
  ImageURL : String
  Attributes : List NFTAttribute
  Transferable : Bool
  BlockHeight : Nat
  TransactionID : String
  Royalty : Rat
  deriving DecidableEq

/-- `NFTCollection`. `TotalSupply` and `MintedCount` are `uint64`. -/
structure NFTCollection where
  CollectionID : String
  Name : String
  Description : String
  Creator : String
  Created : Int
  LastUpdated : Int
  Metadata : Option (GoMap String)
  IPFSHash : String
  ImageURL : String
  TotalSupply : Nat
  MintedCount : Nat
  Transferable : Bool
  Royalty : Rat
  deriving DecidableEq

/-- `NFTTransfer`. -/
structure NFTTransfer where
  TransferID : String
  TokenID : String
  FromAddress : String
  ToAddress : String
  Fee : Rat
  BlockHeight : Nat
  TxID : String
  Timestamp : Nat
  Confirmations : Nat
  deriving DecidableEq

/-- The fields of `NFTManager` of package `satox_bindings` (without the
mutex). -/
structure NFTManager where
  initialized : Bool
  nfts : GoMap NFT
  collections : GoMap NFTCollection
  config : GoMap AnyValue
  deriving DecidableEq

namespace NFTManager

/-- `NewNFTManager`. -/
def NewNFTManager : NFTManager :=
  { initialized := false, nfts := GoMap.empty, collections := GoMap.empty,
    config := GoMap.empty }

/-- The default configuration that `NFTManager.Initialize` installs. -/
def defaultConfig : GoMap AnyValue :=
  ((((((GoMap.empty.set "max_name_length" (.int 64)).set "max_description_length"
    (.int 2000)).set "max_attributes" (.int 50)).set "max_royalty" (.float 50)).set
    "min_fee" (.float (1 / 100000))).set "default_fee" (.float (1 / 10000))).set
    "max_collection_size" (.int 10000)

/-- `NFTManager.Initialize`. -/
def Initialize (m : NFTManager) : Outcome Unit × NFTManager :=
  if m.initialized then (.err "NFTManager already initialized", m)
  else (.ret (), { m with initialized := true, config := defaultConfig })

/-- `NFTManager.Shutdown`. -/
def Shutdown (m : NFTManager) : Outcome Unit × NFTManager :=
  if !m.initialized then (.err "NFTManager not initialized", m)
  else (.ret (), { m with initialized := false, nfts := GoMap.empty, collections := GoMap.empty })

/-- `NFTManager.generateCollectionID`: 16 bytes of the hash of `name_creator`
in hexadecimal. -/
def generateCollectionID (sha256 : List Nat → List Nat) (name creator : String) : String :=
  hexEncodeToString ((sha256 (stringBytes (name ++ "_" ++ creator))).take 16)

/-- `NFTManager.generateTokenID`: the hash of `collectionID_index` in
hexadecimal. -/
def generateTokenID (sha256 : List Nat → List Nat) (collectionID : String) (index : Nat) :
    String :=
  hexEncodeToString (sha256 (stringBytes (collectionID ++ "_" ++ toString index)))

/-- `NFTManager.generateTransferID`. -/
def generateTransferID (sha256 : List Nat → List Nat) (tokenID fromAddress toAddress : String) :
    String :=
  hexEncodeToString (sha256 (stringBytes (tokenID ++ "_" ++ fromAddress ++ "_" ++ toAddress)))

/-- `NFTManager.CreateCollection`; `tCreated` and `tUpdated` are the two
`time.Now()` readings. -/
def CreateCollection (sha256 : List Nat → List Nat) (m : NFTManager)
    (name description creator : String) (totalSupply : Nat) (metadata : Option (GoMap String))
    (tCreated tUpdated : Int) : Outcome NFTCollection × NFTManager :=
  if !m.initialized then (.err "NFTManager not initialized", m)
  else if name = "" then (.err "collection name cannot be empty", m)
  else if creator = "" then (.err "creator address cannot be empty", m)
  else if totalSupply = 0 then (.err "total supply must be greater than 0", m)
  else if name.utf8ByteSize > 64 then (.err "collection name too long (max 64 characters)", m)
  else if description.utf8ByteSize > 2000 then
    (.err "collection description too long (max 2000 characters)", m)
  else if totalSupply > 10000 then (.err "total supply too large (max 10000)", m)
  else
    match m.collections.get? (generateCollectionID sha256 name creator) with
    | some _ => (.err "collection already exists", m)
    | none =>
      let collection : NFTCollection :=
        { CollectionID := generateCollectionID sha256 name creator
          Name := name
          Description := description
          Creator := creator
          Created := tCreated
          LastUpdated := tUpdated
          Metadata := metadata
          IPFSHash := ""
          ImageURL := ""
          TotalSupply := totalSupply
          MintedCount := 0
          Transferable := true
          Royalty := 5 / 2 }
      (.ret collection,
        { m with
          collections := m.collections.set (generateCollectionID sha256 name creator)
            collection })

/-- `NFTManager.MintNFT`; `tCreated`, `tUpdated` and `tCollection` are the
three `time.Now()` readings. The returned NFT is the stored one; the counter is
incremented through the stored collection pointer. -/
def MintNFT (sha256 : List Nat → List Nat) (m : NFTManager)
    (collectionID name description owner : String) (metadata : Option (GoMap String))
    (attributes : List NFTAttribute) (tCreated tUpdated tCollection : Int) :
    Outcome NFT × NFTManager :=
  if !m.initialized then (.err "NFTManager not initialized", m)
  else if collectionID = "" then (.err "collection ID cannot be empty", m)
  else if name = "" then (.err "NFT name cannot be empty", m)
  else if owner = "" then (.err "owner address cannot be empty", m)
  else if name.utf8ByteSize > 64 then (.err "NFT name too long (max 64 characters)", m)
  else if description.utf8ByteSize > 2000 then
    (.err "NFT description too long (max 2000 characters)", m)
  else if attributes.length > 50 then (.err "too many attributes (max 50)", m)
  else
    match m.collections.get? collectionID with
    | none => (.err "collection not found", m)
    | some collection =>
      if collection.MintedCount ≥ collection.TotalSupply then (.err "collection is full", m)
      else
        match m.nfts.get? (generateTokenID sha256 collectionID collection.MintedCount) with
        | some _ => (.err "NFT already exists", m)
        | none =>
          let nft : NFT :=
            { TokenID := generateTokenID sha256 collectionID collection.MintedCount
              CollectionID := collectionID
              Name := name
              Description := description
              Owner := owner
              Creator := collection.Creator
              Created := tCreated
              LastUpdated := tUpdated
              Metadata := metadata
              IPFSHash := ""
              ImageURL := ""
              Attributes := attributes
              Transferable := collection.Transferable
              BlockHeight := 0
              TransactionID := ""
              Royalty := collection.Royalty }
          (.ret nft,
            { m with
              nfts := m.nfts.set (generateTokenID sha256 collectionID collection.MintedCount)
                nft
              collections := m.collections.set collectionID
                { collection with MintedCount := wrapUInt64 (collection.MintedCount + 1),
                                  LastUpdated := tCollection } })

/-- `NFTManager.TransferNFT`; `tStamp` is `time.Now().Unix()` and `tUpdated`
the later `time.Now()`. -/
def TransferNFT (sha256 : List Nat → List Nat) (m : NFTManager)
    (tokenID fromAddress toAddress : String) (fee : Rat) (tStamp tUpdated : Int) :
    Outcome NFTTransfer × NFTManager :=
  if !m.initialized then (.err "NFTManager not initialized", m)
  else if tokenID = "" then (.err "token ID cannot be empty", m)
  else if fromAddress = "" then (.err "from address cannot be empty", m)
  else if toAddress = "" then (.err "to address cannot be empty", m)
  else if fee < 0 then (.err "fee cannot be negative", m)
  else
    match m.nfts.get? tokenID with
    | none => (.err "NFT not found", m)
    | some nft =>
      if !nft.Transferable then (.err "NFT is not transferable", m)
      else if nft.Owner ≠ fromAddress then (.err "sender is not the owner of this NFT", m)
      else
        (.ret
          { TransferID := generateTransferID sha256 tokenID fromAddress toAddress
            TokenID := tokenID
            FromAddress := fromAddress
            ToAddress := toAddress
            Fee := fee
            BlockHeight := 0
            TxID := ""
            Timestamp := (tStamp % 2 ^ 64).toNat
            Confirmations := 0 },
          { m with
            nfts := m.nfts.set tokenID { nft with Owner := toAddress, LastUpdated := tUpdated } })

/-- `NFTManager.UpdateNFTMetadata`; `now` is `time.Now()`. -/
def UpdateNFTMetadata (m : NFTManager) (tokenID : String) (metadata : Option (GoMap String))
    (now : Int) : Outcome Unit × NFTManager :=
  if !m.initialized then (.err "NFTManager not initialized", m)
  else if tokenID = "" then (.err "token ID cannot be empty", m)
  else
    match m.nfts.get? tokenID with
    | none => (.err "NFT not found", m)
    | some nft =>
      (.ret (),
        { m with nfts := m.nfts.set tokenID { nft with Metadata := metadata, LastUpdated := now } })

/-- `NFTManager.UpdateNFTImage`; `now` is `time.Now()`. -/
def UpdateNFTImage (m : NFTManager) (tokenID imageURL ipfsHash : String) (now : Int) :
    Outcome Unit × NFTManager :=
  if !m.initialized then (.err "NFTManager not initialized", m)
  else if tokenID = "" then (.err "token ID cannot be empty", m)
  else
    match m.nfts.get? tokenID with
    | none => (.err "NFT not found", m)
    | some nft =>
      (.ret (),
        { m with
          nfts := m.nfts.set tokenID
            { nft with ImageURL := imageURL, IPFSHash := ipfsHash, LastUpdated := now } })

/-- `NFTManager.UpdateConfig`: every entry of `newConfig` is assigned. -/
def UpdateConfig (m : NFTManager) (newConfig : GoMap AnyValue) : Outcome Unit × NFTManager :=
  if !m.initialized then (.err "NFTManager not initialized", m)
  else
    (.ret (),
      { m with config := newConfig.entries.foldl (fun c e => c.set e.1 e.2) m.config })

/-- The number of stored NFTs whose `CollectionID` is `collectionID`. -/
def mintedIn (m : NFTManager) (collectionID : String) : Nat :=
  (m.nfts.values.filter (fun nft => nft.CollectionID = collectionID)).length

/-- The bookkeeping of the collections: a manager that stores a collection is
initialized; a collection is stored under its `CollectionID`, its
`TotalSupply` lies between 1 and 10000, its `MintedCount` is at most its
`TotalSupply` and counts the stored NFTs of the collection; every stored NFT
belongs to a stored collection. -/
def CollectionsConsistent (m : NFTManager) : Prop :=
  (∀ cid c, m.collections.get? cid = some c →
    m.initialized = true ∧ c.CollectionID = cid ∧ 1 ≤ c.TotalSupply ∧ c.TotalSupply ≤ 10000 ∧
      c.MintedCount ≤ c.TotalSupply ∧ c.MintedCount = m.mintedIn cid) ∧
  ∀ nft ∈ m.nfts.values, (m.collections.get? nft.CollectionID).isSome = true

/-- The states of an `NFTManager` that calls of its operations can produce,
starting from `NewNFTManager`. The operations that only read are left out. -/
inductive Reachable (sha256 : List Nat → List Nat) : NFTManager → Prop
  | start : Reachable sha256 NewNFTManager
  | init (m : NFTManager) : Reachable sha256 m → Reachable sha256 m.Initialize.2
  | shut (m : NFTManager) : Reachable sha256 m → Reachable sha256 m.Shutdown.2
  | createCollection (m : NFTManager) (name description creator : String) (totalSupply : Nat)
      (metadata : Option (GoMap String)) (tCreated tUpdated : Int) :
      Reachable sha256 m →
      Reachable sha256 (CreateCollection sha256 m name description creator totalSupply metadata
        tCreated tUpdated).2
  | mint (m : NFTManager) (collectionID name description owner : String)
      (metadata : Option (GoMap String)) (attributes : List NFTAttribute)
      (tCreated tUpdated tCollection : Int) :
      Reachable sha256 m →
      Reachable sha256 (MintNFT sha256 m collectionID name description owner metadata
        attributes tCreated tUpdated tCollection).2
  | transfer (m : NFTManager) (tokenID fromAddress toAddress : String) (fee : Rat)
      (tStamp tUpdated : Int) :
      Reachable sha256 m →
      Reachable sha256 (TransferNFT sha256 m tokenID fromAddress toAddress fee tStamp
        tUpdated).2
  | updateMetadata (m : NFTManager) (tokenID : String) (metadata : Option (GoMap String))
      (now : Int) :
      Reachable sha256 m → Reachable sha256 (m.UpdateNFTMetadata tokenID metadata now).2
  | updateImage (m : NFTManager) (tokenID imageURL ipfsHash : String) (now : Int) :
      Reachable sha256 m → Reachable sha256 (m.UpdateNFTImage tokenID imageURL ipfsHash now).2
  | config (m : NFTManager) (newConfig : GoMap AnyValue) :
      Reachable sha256 m → Reachable sha256 (m.UpdateConfig newConfig).2

end NFTManager

/-- The id that `generateCollectionID` gives the collection "Art" of "carol". -/
def testCollectionID : String := NFTManager.generateCollectionID stubSha256 "Art" "carol"

/-- An initialized manager with the collection "Art" of "carol", of total
supply 1, after the NFT "one" has been minted for "dave". -/
def fullCollectionManager : NFTManager :=
  (NFTManager.MintNFT stubSha256
    (NFTManager.CreateCollection stubSha256 NFTManager.NewNFTManager.Initialize.2 "Art"
      "first collection" "carol" 1 none 1 2).2
    testCollectionID "one" "" "dave" none [] 3 4 5).2

end Bindings

namespace Bindings

/-! ### `satox_bindings.TransactionManager` (satox_bindings/transaction_manager.go)

A `float64` is kept as the rational it denotes and sums are exact; the example
below uses the amounts 1, 0.5 and 0, on which `float64` arithmetic is exact as
well. -/

/-- `TransactionInput`; `Vout` and `Sequence` are `uint32`. -/
structure TransactionInput where
  Txid : String
  Vout : Nat
  ScriptSig : String
  Sequence : Nat
  Amount : Rat
  Address : String
  deriving DecidableEq

/-- `TransactionOutput`; `N` is a `uint32`. -/
structure TransactionOutput where
  Value : Rat
  N : Nat
  ScriptPubKey : String
  Address : String
  Type' : String
  deriving DecidableEq

/-- `Transaction`. `Version` is a `uint32`; `LockTime`, `Size`,
`Confirmations`, `BlockHeight` and `Timestamp` are `uint64`. -/
structure Transaction where
  Txid : String
  Version : Nat
  LockTime : Nat
  Inputs : List TransactionInput
  Outputs : List TransactionOutput
  Size : Nat
  Fee : Rat
  Amount : Rat
  Confirmations : Nat
  BlockHash : String
  BlockHeight : Nat
  Timestamp : Nat
  RawTx : String
  deriving DecidableEq

/-- The fields of `TransactionManager` (without the mutex). -/
structure TransactionManager where
  initialized : Bool
  transactions : GoMap Transaction
  config : GoMap AnyValue
  deriving DecidableEq

namespace TransactionManager

/-- `NewTransactionManager`. -/
def NewTransactionManager : TransactionManager :=
  { initialized := false, transactions := GoMap.empty, config := GoMap.empty }

/-- The default configuration that `TransactionManager.Initialize` installs. -/
def defaultConfig : GoMap AnyValue :=
  ((((GoMap.empty.set "min_fee" (.float (1 / 100000))).set "max_fee" (.float 1)).set
    "default_fee" (.float (1 / 10000))).set "max_size" (.int 1000000)).set
    "confirmations" (.int 6)

/-- `TransactionManager.Initialize`. -/
def Initialize (m : TransactionManager) : Outcome Unit × TransactionManager :=
  if m.initialized then (.err "TransactionManager already initialized", m)
  else (.ret (), { m with initialized := true, config := defaultConfig })

/-- `TransactionManager.generateTxid`; `render inputs outputs fee` is the text
`fmt.Sprintf("%v%v%f", inputs, outputs, fee)`. -/
def generateTxid (sha256 : List Nat → List Nat)
    (render : List TransactionInput → List TransactionOutput → Rat → String)
    (inputs : List TransactionInput) (outputs : List TransactionOutput) (fee : Rat) : String :=
  hexEncodeToString (sha256 (stringBytes (render inputs outputs fee)))

/-- `TransactionManager.generateRawTx`; `now` is `time.Now().Unix()`. -/
def generateRawTx (now : Int) : String := "raw_tx_" ++ toString now

/-- `TransactionManager.CreateTransaction`; `tStamp` is the `time.Now().Unix()`
of the `Timestamp` field and `tRaw` the one read by `generateRawTx`. -/
def CreateTransaction (sha256 : List Nat → List Nat)
    (render : List TransactionInput → List TransactionOutput → Rat → String)
    (m : TransactionManager) (inputs : List TransactionInput)
    (outputs : List TransactionOutput) (fee : Rat) (tStamp tRaw : Int) :
    Outcome Transaction × TransactionManager :=
  if !m.initialized then (.err "TransactionManager not initialized", m)
  else if inputs.length = 0 then (.err "at least one input is required", m)
  else if outputs.length = 0 then (.err "at least one output is required", m)
  else if fee < 0 then (.err "fee cannot be negative", m)
  else
    let totalInput : Rat := inputs.foldl (fun s input => s + input.Amount) 0
    let totalOutput : Rat := outputs.foldl (fun s output => s + output.Value) 0
    if totalOutput + fee > totalInput then (.err "insufficient funds for transaction", m)
    else
      let txid := generateTxid sha256 render inputs outputs fee
      let tx : Transaction :=
        { Txid := txid
          Version := 1
          LockTime := 0
          Inputs := inputs
          Outputs := outputs
          Size := wrapUInt64 (txid.utf8ByteSize * 2)
          Fee := fee
          Amount := totalOutput
          Confirmations := 0
          BlockHash := ""
          BlockHeight := 0
          Timestamp := (tStamp % 2 ^ 64).toNat
          RawTx := generateRawTx tRaw }
      (.ret tx, { m with transactions := m.transactions.set txid tx })

/-- The `range` loop of `GetTransactionHistory` over the transactions still to
be visited, `history` being the slice built so far: a transaction is appended
when one of its inputs has the address (the `break` leaves the loop over the
inputs), appended when one of its outputs has the address, and the loop over
the transactions ends once `len(history) >= limit`. -/
def historyLoop (address : String) (limit : Int) :
    List Transaction → List Transaction → List Transaction
  | history, [] => history
  | history, tx :: rest =>
    let afterInputs :=
      if tx.Inputs.any (fun input => input.Address = address) then history ++ [tx] else history
    let afterOutputs :=
      if tx.Outputs.any (fun output => output.Address = address) then afterInputs ++ [tx]
      else afterInputs
    if (afterOutputs.length : Int) ≥ limit then afterOutputs
    else historyLoop address limit afterOutputs rest

/-- `TransactionManager.GetTransactionHistory`; `visited` is the stored
transactions in the order in which the `range` over the map delivers them, and
`limit` is an `int`. The result lists the transactions the returned pointers
point to. -/
def GetTransactionHistory (m : TransactionManager) (visited : List Transaction)
    (address : String) (limit : Int) : Outcome (List Transaction) × TransactionManager :=
  if !m.initialized then (.err "TransactionManager not initialized", m)
  else if address = "" then (.err "address cannot be empty", m)
  else (.ret (historyLoop address (if limit ≤ 0 then 100 else limit) [] visited), m)

end TransactionManager

/-- A stand-in for `fmt.Sprintf("%v%v%f", inputs, outputs, fee)`, used only to
evaluate examples: the addresses of the inputs and outputs. -/
def stubRender (inputs : List TransactionInput) (outputs : List TransactionOutput) (_fee : Rat) :
    String :=
  String.join (inputs.map (fun i => i.Address)) ++ String.join (outputs.map (fun o => o.Address))

/-- An input of 1 coin spent by "alice". -/
def aliceInput : TransactionInput :=
  { Txid := "prev", Vout := 0, ScriptSig := "", Sequence := 0, Amount := 1, Address := "alice" }

/-- An output of half a coin paid back to "alice". -/
def aliceChange : TransactionOutput :=
  { Value := 1 / 2, N := 0, ScriptPubKey := "", Address := "alice", Type' := "" }

/-- The transaction that `CreateTransaction` builds from the input
`aliceInput`, the output `aliceChange` and no fee at the clock readings 1 and
2. -/
def changeTransaction : Transaction :=
  { Txid := TransactionManager.generateTxid stubSha256 stubRender [aliceInput] [aliceChange] 0
    Version := 1
    LockTime := 0
    Inputs := [aliceInput]
    Outputs := [aliceChange]
    Size := 128
    Fee := 0
    Amount := 1 / 2
    Confirmations := 0
    BlockHash := ""
    BlockHeight := 0
    Timestamp := 1
    RawTx := "raw_tx_2" }

/-- An initialized manager after `CreateTransaction` with the input
`aliceInput`, the output `aliceChange` and no fee. -/
def changeTransactionManager : TransactionManager :=
  (TransactionManager.CreateTransaction stubSha256 stubRender
    TransactionManager.NewTransactionManager.Initialize.2 [aliceInput] [aliceChange] 0 1 2).2

end Bindings

/-- The buffer after `bytes := make([]byte, n)` and a `rand.Read(bytes)` whose
error is not looked at: the bytes read, or the zeros of `make` when the read
fails. -/
def randFill (n : Nat) (src : RandSource) : List Nat :=
  match randRead n src with
  | .inl _ => List.replicate n 0
  | .inr bytes => bytes

namespace Bindings

/-! ### `satox_bindings.WalletManager` (satox_bindings/wallet_manager.go) -/

/-- `WalletAddress`; `Balance` and `Unconfirmed` are `float64`, `Index` is a
`uint32`. -/
structure WalletAddress where
  Address : String
  PrivateKey : String
  PublicKey : String
  Balance : Rat
  Unconfirmed : Rat
  Label : String
  IsChange : Bool
  Index : Nat
  deriving DecidableEq

/-- `Wallet` of package `satox_bindings`. `Created` and `LastUpdated` are clock
readings. -/
structure Wallet where
  ID : String
  Name : String
  Addresses : List WalletAddress
  Balance : Rat
  Unconfirmed : Rat
  Created : Int
  LastUpdated : Int
  Encrypted : Bool
  BackupPath : String
  Config : GoMap AnyValue
  deriving DecidableEq

/-- The fields of `WalletManager` of package `satox_bindings` (without the
mutex). -/
structure WalletManager where
  initialized : Bool
  wallets : GoMap Wallet
  config : GoMap AnyValue
  deriving DecidableEq

namespace WalletManager

/-- `NewWalletManager`. -/
def NewWalletManager : WalletManager :=
  { initialized := false, wallets := GoMap.empty, config := GoMap.empty }

/-- The default configuration that `WalletManager.Initialize` installs. -/
def defaultConfig : GoMap AnyValue :=
  ((((GoMap.empty.set "default_fee" (.float (1 / 10000))).set "min_confirmations"
    (.int 6)).set "max_addresses" (.int 1000)).set "backup_interval" (.int 24)).set
    "encrypt_wallets" (.bool true)

/-- `WalletManager.Initialize`. -/
def Initialize (m : WalletManager) : Outcome Unit × WalletManager :=
  if m.initialized then (.err "WalletManager already initialized", m)
  else (.ret (), { m with initialized := true, config := defaultConfig })

/-- `WalletManager.Shutdown`. -/
def Shutdown (m : WalletManager) : Outcome Unit × WalletManager :=
  if !m.initialized then (.err "WalletManager not initialized", m)
  else (.ret (), { m with initialized := false, wallets := GoMap.empty })

/-- `WalletManager.generateWalletID`: 16 random bytes in hexadecimal. -/
def generateWalletID (src : RandSource) : String := hexEncodeToString (randFill 16 src)

/-- `WalletManager.generateAddress`: the address is the first 34 characters of
the hexadecimal text of 32 random bytes, the private key the whole text, the
public key the hash of the bytes. The error result is always nil. -/
def generateAddress (sha256 : List Nat → List Nat) (src : RandSource) : WalletAddress :=
  { Address := String.mk ((hexEncodeToString (randFill 32 src)).toList.take 34)
    PrivateKey := hexEncodeToString (randFill 32 src)
    PublicKey := hexEncodeToString (sha256 (randFill 32 src))
    Balance := 0
    Unconfirmed := 0
    Label := ""
    IsChange := false
    Index := 0 }

/-- `WalletManager.CreateWallet`; `srcID` and `srcAddress` feed the two
`rand.Read` calls, `tCreated` and `tUpdated` are the two `time.Now()`
readings. -/
def CreateWallet (sha256 : List Nat → List Nat) (m : WalletManager) (name password : String)
    (srcID srcAddress : RandSource) (tCreated tUpdated : Int) : Outcome Wallet × WalletManager :=
  if !m.initialized then (.err "WalletManager not initialized", m)
  else if name = "" then (.err "wallet name cannot be empty", m)
  else if m.wallets.values.any (fun wallet => wallet.Name = name) then
    (.err "wallet with this name already exists", m)
  else
    let wallet : Wallet :=
      { ID := generateWalletID srcID
        Name := name
        Addresses := [] ++ [generateAddress sha256 srcAddress]
        Balance := 0
        Unconfirmed := 0
        Created := tCreated
        LastUpdated := tUpdated
        Encrypted := decide (password ≠ "")
        BackupPath := ""
        Config := GoMap.empty }
    (.ret wallet, { m with wallets := m.wallets.set (generateWalletID srcID) wallet })

/-- `WalletManager.DeleteWallet`. -/
def DeleteWallet (m : WalletManager) (walletID password : String) :
    Outcome Unit × WalletManager :=
  if !m.initialized then (.err "WalletManager not initialized", m)
  else if walletID = "" then (.err "wallet ID cannot be empty", m)
  else
    match m.wallets.get? walletID with
    | none => (.err "wallet not found", m)
    | some wallet =>
      if wallet.Encrypted && decide (password = "") then
        (.err "password required for encrypted wallet", m)
      else (.ret (), { m with wallets := m.wallets.del walletID })

/-- `WalletManager.GenerateAddress`; `now` is `time.Now()`. The returned
address is the one appended to the wallet. -/
def GenerateAddress (sha256 : List Nat → List Nat) (m : WalletManager)
    (walletID label : String) (src : RandSource) (now : Int) :
    Outcome WalletAddress × WalletManager :=
  if !m.initialized then (.err "WalletManager not initialized", m)
  else if walletID = "" then (.err "wallet ID cannot be empty", m)
  else
    match m.wallets.get? walletID with
    | none => (.err "wallet not found", m)
    | some wallet =>
      if wallet.Addresses.length ≥ 1000 then (.err "maximum number of addresses reached", m)
      else
        let address : WalletAddress :=
          { generateAddress sha256 src with
            Label := label, Index := wallet.Addresses.length % 2 ^ 32 }
        (.ret address,
          { m with
            wallets := m.wallets.set walletID
              { wallet with Addresses := wallet.Addresses ++ [address], LastUpdated := now } })

/-- `WalletManager.UpdateBalance`; `now` is `time.Now()`. -/
def UpdateBalance (m : WalletManager) (walletID : String) (balance unconfirmed : Rat)
    (now : Int) : Outcome Unit × WalletManager :=
  if !m.initialized then (.err "WalletManager not initialized", m)
  else if walletID = "" then (.err "wallet ID cannot be empty", m)
  else
    match m.wallets.get? walletID with
    | none => (.err "wallet not found", m)
    | some wallet =>
      (.ret (),
        { m with
          wallets := m.wallets.set walletID
            { wallet with Balance := balance, Unconfirmed := unconfirmed, LastUpdated := now } })

/-- `WalletManager.BackupWallet`. -/
def BackupWallet (m : WalletManager) (walletID backupPath : String) :
    Outcome Unit × WalletManager :=
  if !m.initialized then (.err "WalletManager not initialized", m)
  else if walletID = "" then (.err "wallet ID cannot be empty", m)
  else if backupPath = "" then (.err "backup path cannot be empty", m)
  else
    match m.wallets.get? walletID with
    | none => (.err "wallet not found", m)
    | some wallet =>
      (.ret (), { m with wallets := m.wallets.set walletID { wallet with BackupPath := backupPath } })

/-- `WalletManager.RestoreWallet`; the parameters after `password` are as in
`CreateWallet`. -/
def RestoreWallet (sha256 : List Nat → List Nat) (m : WalletManager)
    (backupPath name password : String) (srcID srcAddress : RandSource)
    (tCreated tUpdated : Int) : Outcome Wallet × WalletManager :=
  if !m.initialized then (.err "WalletManager not initialized", m)
  else if backupPath = "" then (.err "backup path cannot be empty", m)
  else if name = "" then (.err "wallet name cannot be empty", m)
  else if m.wallets.values.any (fun wallet => wallet.Name = name) then
    (.err "wallet with this name already exists", m)
  else
    let wallet : Wallet :=
      { ID := generateWalletID srcID
        Name := name
        Addresses := [] ++ [generateAddress sha256 srcAddress]
        Balance := 0
        Unconfirmed := 0
        Created := tCreated
        LastUpdated := tUpdated
        Encrypted := decide (password ≠ "")
        BackupPath := backupPath
        Config := GoMap.empty }
    (.ret wallet, { m with wallets := m.wallets.set (generateWalletID srcID) wallet })

/-- `WalletManager.EncryptWallet`; `now` is `time.Now()`. -/
def EncryptWallet (m : WalletManager) (walletID password : String) (now : Int) :
    Outcome Unit × WalletManager :=
  if !m.initialized then (.err "WalletManager not initialized", m)
  else if walletID = "" then (.err "wallet ID cannot be empty", m)
  else if password = "" then (.err "password cannot be empty", m)
  else
    match m.wallets.get? walletID with
    | none => (.err "wallet not found", m)
    | some wallet =>
      if wallet.Encrypted then (.err "wallet is already encrypted", m)
      else
        (.ret (),
          { m with
            wallets := m.wallets.set walletID
              { wallet with Encrypted := true, LastUpdated := now } })

/-- `WalletManager.DecryptWallet`; `now` is `time.Now()`. -/
def DecryptWallet (m : WalletManager) (walletID password : String) (now : Int) :
    Outcome Unit × WalletManager :=
  if !m.initialized then (.err "WalletManager not initialized", m)
  else if walletID = "" then (.err "wallet ID cannot be empty", m)
  else if password = "" then (.err "password cannot be empty", m)
  else
    match m.wallets.get? walletID with
    | none => (.err "wallet not found", m)
    | some wallet =>
      if !wallet.Encrypted then (.err "wallet is not encrypted", m)
      else
        (.ret (),
          { m with
            wallets := m.wallets.set walletID
              { wallet with Encrypted := false, LastUpdated := now } })

/-- `WalletManager.UpdateConfig`: every entry of `newConfig` is assigned. -/
def UpdateConfig (m : WalletManager) (newConfig : GoMap AnyValue) :
    Outcome Unit × WalletManager :=
  if !m.initialized then (.err "WalletManager not initialized", m)
  else
    (.ret (),
      { m with config := newConfig.entries.foldl (fun c e => c.set e.1 e.2) m.config })

/-- The `Encrypted` flag of the wallet stored under `walletID`. -/
def encryptedFlag (m : WalletManager) (walletID : String) : Option Bool :=
  (m.wallets.get? walletID).map (fun wallet => wallet.Encrypted)

end WalletManager

/-- An initialized manager after `CreateWallet("savings", "secret")`; the
random sources deliver the bytes 7 and 9. -/
def encryptedWalletManager : WalletManager :=
  (WalletManager.CreateWallet stubSha256 WalletManager.NewWalletManager.Initialize.2 "savings"
    "secret" (constSource 7) (constSource 9) 1 2).2

/-- The id of the wallet of `encryptedWalletManager`. -/
def testWalletID : String := WalletManager.generateWalletID (constSource 7)

end Bindings

namespace Bindings

namespace WalletManager

/-- The address bookkeeping of one wallet: between 1 and 1000 addresses, and
the address at position `i` has `Index = i`. -/
def AddressesIndexed (w : Wallet) : Prop :=
  1 ≤ w.Addresses.length ∧ w.Addresses.length ≤ 1000 ∧
    w.Addresses.map (fun a => a.Index) = List.range w.Addresses.length

instance (w : Wallet) : Decidable (AddressesIndexed w) := by
  unfold AddressesIndexed
  infer_instance

/-- The bookkeeping of the wallets: a manager that stores a wallet is
initialized, no wallet is stored under the empty id, the addresses of every
stored wallet are indexed, and no two stored wallets share a `Name`. -/
def WalletsConsistent (m : WalletManager) : Prop :=
  (∀ id w, m.wallets.get? id = some w →
    m.initialized = true ∧ id ≠ "" ∧ AddressesIndexed w) ∧
  ∀ id1 id2 w1 w2, m.wallets.get? id1 = some w1 → m.wallets.get? id2 = some w2 →
    id1 ≠ id2 → w1.Name ≠ w2.Name

/-- The states of a `WalletManager` that calls of its operations can produce,
starting from `NewWalletManager`. The operations that only read are left
out. -/
inductive Reachable (sha256 : List Nat → List Nat) : WalletManager → Prop
  | start : Reachable sha256 NewWalletManager
  | init (m : WalletManager) : Reachable sha256 m → Reachable sha256 m.Initialize.2
  | shut (m : WalletManager) : Reachable sha256 m → Reachable sha256 m.Shutdown.2
  | create (m : WalletManager) (name password : String) (srcID srcAddress : RandSource)
      (tCreated tUpdated : Int) :
      Reachable sha256 m →
      Reachable sha256 (CreateWallet sha256 m name password srcID srcAddress tCreated
        tUpdated).2
  | delete (m : WalletManager) (walletID password : String) :
      Reachable sha256 m → Reachable sha256 (m.DeleteWallet walletID password).2
  | generate (m : WalletManager) (walletID label : String) (src : RandSource) (now : Int) :
      Reachable sha256 m →
      Reachable sha256 (GenerateAddress sha256 m walletID label src now).2
  | updateBalance (m : WalletManager) (walletID : String) (balance unconfirmed : Rat)
      (now : Int) :
      Reachable sha256 m → Reachable sha256 (m.UpdateBalance walletID balance unconfirmed now).2
  | backup (m : WalletManager) (walletID backupPath : String) :
      Reachable sha256 m → Reachable sha256 (m.BackupWallet walletID backupPath).2
  | restore (m : WalletManager) (backupPath name password : String)
      (srcID srcAddress : RandSource) (tCreated tUpdated : Int) :
      Reachable sha256 m →
      Reachable sha256 (RestoreWallet sha256 m backupPath name password srcID srcAddress
        tCreated tUpdated).2
  | encrypt (m : WalletManager) (walletID password : String) (now : Int) :
      Reachable sha256 m → Reachable sha256 (m.EncryptWallet walletID password now).2
  | decrypt (m : WalletManager) (walletID password : String) (now : Int) :
      Reachable sha256 m → Reachable sha256 (m.DecryptWallet walletID password now).2
  | config (m : WalletManager) (newConfig : GoMap AnyValue) :
      Reachable sha256 m → Reachable sha256 (m.UpdateConfig newConfig).2

end WalletManager

/-- The manager `encryptedWalletManager` after `GenerateAddress` for its wallet
with the label "second". -/
def twoAddressManager : WalletManager :=
  (WalletManager.GenerateAddress stubSha256 encryptedWalletManager testWalletID "second"
    (constSource 11) 3).2

end Bindings

/-! ## Mutexes as explicit state

The managers below carry their `sync.RWMutex`. A call runs on one goroutine
while no other goroutine touches the manager; it returns, or it blocks in
`Lock` on a mutex that is held. Every `Unlock` of the managers is the deferred
one of the call that locked, so a mutex held when a call blocks is held by the
blocked goroutine itself and stays held. -/

/-- A `sync.RWMutex`: whether a writer holds it, and how many readers hold
it. -/
structure RWMutex where
  writer : Bool
  readers : Nat
  deriving DecidableEq

namespace RWMutex

/-- The zero value: a free mutex. -/
def free : RWMutex := { writer := false, readers := 0 }

/-- `Lock`: the mutex after the call when nobody holds it, `none` when it is
held and the caller has to wait. The mutex is not reentrant. -/
def Lock (mu : RWMutex) : Option RWMutex :=
  if mu.writer || decide (mu.readers > 0) then none else some { mu with writer := true }

/-- `Unlock`, as run by the `defer` of a call that holds the write lock. -/
def Unlock (mu : RWMutex) : RWMutex := { mu with writer := false }

end RWMutex

/-- What a call does: it returns `v`, or it blocks forever. -/
inductive Run (α : Type) where
  | returns (v : α)
  | blocks
  deriving DecidableEq

/-! ## `nft.NFTManager` of nft/nft.go (backed by IPFS and a blockchain)

The two interfaces are the environment: `ipfsStore` and the `chain...`
functions give the error (`some msg`) or nil (`none`) that the interface
method returns. The definitions live in the namespace `Backed`, package `nft`
declaring a second `NFTManager` in nft_manager.go. -/

namespace Backed

/-- `NFT` of nft/nft.go; a nil map is `none`. -/
structure NFT where
  ID : String
  Name : String
  Description : String
  Metadata : Option (GoMap AnyValue)
  Owner : String
  Collection : String
  Properties : Option (GoMap AnyValue)
  deriving DecidableEq

/-- The fields `nfts` and `mu` of `NFTManager`. -/
structure NFTManager where
  nfts : GoMap NFT
  mu : RWMutex
  deriving DecidableEq

namespace NFTManager

/-- `NewNFTManager`. -/
def NewNFTManager : NFTManager := { nfts := GoMap.empty, mu := RWMutex.free }

/-- `NFTManager.CreateNFT`; `ipfsStore` is `nm.ipfs.Store` (an error or the
CID), `chainCreate` is `nm.blockchain.CreateNFT`. Assigning to the nil
`Metadata` map panics; the deferred `Unlock` runs on every way out. -/
def CreateNFT (ipfsStore : List Nat → String ⊕ String) (chainCreate : NFT → Option String)
    (nm : NFTManager) (nft : NFT) : Run (Outcome Unit × NFTManager) :=
  match nm.mu.Lock with
  | none => .blocks
  | some mu =>
    match nm.nfts.get? nft.ID with
    | some _ => .returns (.err "NFT already exists", { nm with mu := mu.Unlock })
    | none =>
      match ipfsStore (stringBytes nft.Description) with
      | .inl e => .returns (.err e, { nm with mu := mu.Unlock })
      | .inr metadataCID =>
        match nft.Metadata with
        | none =>
          .returns (.panic "assignment to entry in nil map", { nm with mu := mu.Unlock })
        | some metadata =>
          match chainCreate
            { nft with Metadata := some (metadata.set "ipfs_cid" (.str metadataCID)) } with
          | some e => .returns (.err e, { nm with mu := mu.Unlock })
          | none =>
            .returns (.ret (),
              { nfts := nm.nfts.set nft.ID
                  { nft with Metadata := some (metadata.set "ipfs_cid" (.str metadataCID)) }
                mu := mu.Unlock })

/-- `NFTManager.UpdateNFT`; `chainUpdate` is `nm.blockchain.UpdateNFT`. -/
def UpdateNFT (chainUpdate : NFT → Option String) (nm : NFTManager) (nft : NFT) :
    Run (Outcome Unit × NFTManager) :=
  match nm.mu.Lock with
  | none => .blocks
  | some mu =>
    match nm.nfts.get? nft.ID with
    | none => .returns (.err "NFT not found", { nm with mu := mu.Unlock })
    | some _ =>
      match chainUpdate nft with
      | some e => .returns (.err e, { nm with mu := mu.Unlock })
      | none => .returns (.ret (), { nfts := nm.nfts.set nft.ID nft, mu := mu.Unlock })

/-- `NFTManager.UpdateMetadata`: it locks, assigns the metadata through the
stored pointer and calls `nm.UpdateNFT` with the lock still held; its deferred
`Unlock` runs when that call has returned. -/
def UpdateMetadata (chainUpdate : NFT → Option String) (nm : NFTManager) (id : String)
    (metadata : Option (GoMap AnyValue)) : Run (Outcome Unit × NFTManager) :=
  match nm.mu.Lock with
  | none => .blocks
  | some mu =>
    match nm.nfts.get? id with
    | none => .returns (.err "NFT not found", { nm with mu := mu.Unlock })
    | some nft =>
      match UpdateNFT chainUpdate
        { nfts := nm.nfts.set id { nft with Metadata := metadata }, mu := mu }
        { nft with Metadata := metadata } with
      | .blocks => .blocks
      | .returns (out, nm1) => .returns (out, { nm1 with mu := nm1.mu.Unlock })

end NFTManager

/-- An `ipfs.Store` that always answers with the CID "cid". -/
def stubStore (_data : List Nat) : String ⊕ String := .inr "cid"

/-- A blockchain call that always returns nil. -/
def chainAccepts (_nft : NFT) : Option String := none

/-- The NFT "nft-1" of "alice", with an empty metadata map. -/
def testNFT : NFT :=
  { ID := "nft-1", Name := "First", Description := "first token",
    Metadata := some GoMap.empty, Owner := "alice", Collection := "art", Properties := none }

/-- The NFT that the manager stores for `testNFT`: `CreateNFT` has added the
CID to its metadata. -/
def storedNFT : NFT :=
  { testNFT with Metadata := some (GoMap.empty.set "ipfs_cid" (.str "cid")) }

/-- The manager that stores `storedNFT`, its mutex free. -/
def testManager : NFTManager :=
  { nfts := GoMap.empty.set "nft-1" storedNFT, mu := RWMutex.free }

end Backed

namespace Bindings

/-! ### `satox_bindings.DatabaseManager` (satox_bindings/database_manager.go) -/

/-- A `*sql.DB` handle as far as the manager uses it: the errors that its
`Ping` and its `Close` return (`none` for nil). -/
structure SqlDB where
  pingError : Option String
  closeError : Option String
  deriving DecidableEq

/-- The fields of `DatabaseManager` of package `satox_bindings`. -/
structure DatabaseManager where
  initialized : Bool
  connected : Bool
  currentDatabase : String
  databases : GoMap SqlDB
  mu : RWMutex
  deriving DecidableEq

namespace DatabaseManager

/-- `NewDatabaseManager`. -/
def NewDatabaseManager : DatabaseManager :=
  { initialized := false, connected := false, currentDatabase := "",
    databases := GoMap.empty, mu := RWMutex.free }

/-- `DatabaseManager.Initialize`. -/
def Initialize (m : DatabaseManager) : Run (Outcome Unit × DatabaseManager) :=
  match m.mu.Lock with
  | none => .blocks
  | some mu =>
    if m.initialized then
      .returns (.err "DatabaseManager already initialized", { m with mu := mu.Unlock })
    else .returns (.ret (), { m with initialized := true, mu := mu.Unlock })

/-- `DatabaseManager.CreateDatabase`; `mkdirError` is the result of
`os.MkdirAll` and `opened` the result of `sql.Open` (an error or the
handle). -/
def CreateDatabase (m : DatabaseManager) (databaseName : String) (mkdirError : Option String)
    (opened : String ⊕ SqlDB) : Run (Outcome Unit × DatabaseManager) :=
  match m.mu.Lock with
  | none => .blocks
  | some mu =>
    if !m.initialized then
      .returns (.err "DatabaseManager not initialized", { m with mu := mu.Unlock })
    else
      match m.databases.get? databaseName with
      | some _ => .returns (.err "Database already exists", { m with mu := mu.Unlock })
      | none =>
        match mkdirError with
        | some e =>
          .returns (.err ("failed to create database directory: " ++ e),
            { m with mu := mu.Unlock })
        | none =>
          match opened with
          | .inl e =>
            .returns (.err ("failed to create database: " ++ e), { m with mu := mu.Unlock })
          | .inr db =>
            match db.pingError with
            | some e =>
              .returns (.err ("failed to connect to new database: " ++ e),
                { m with mu := mu.Unlock })
            | none =>
              .returns (.ret (),
                { m with databases := m.databases.set databaseName db, mu := mu.Unlock })

/-- `DatabaseManager.Connect`. -/
def Connect (m : DatabaseManager) (databaseName : String) :
    Run (Outcome Unit × DatabaseManager) :=
  match m.mu.Lock with
  | none => .blocks
  | some mu =>
    if !m.initialized then
      .returns (.err "DatabaseManager not initialized", { m with mu := mu.Unlock })
    else if m.connected then
      .returns (.err "Already connected to a database", { m with mu := mu.Unlock })
    else
      match m.databases.get? databaseName with
      | none => .returns (.err "Database does not exist", { m with mu := mu.Unlock })
      | some db =>
        match db.pingError with
        | some e =>
          .returns (.err ("failed to connect to database: " ++ e), { m with mu := mu.Unlock })
        | none =>
          .returns (.ret (),
            { m with currentDatabase := databaseName, connected := true, mu := mu.Unlock })

/-- `DatabaseManager.Disconnect`. -/
def Disconnect (m : DatabaseManager) : Run (Outcome Unit × DatabaseManager) :=
  match m.mu.Lock with
  | none => .blocks
  | some mu =>
    if !m.initialized then
      .returns (.err "DatabaseManager not initialized", { m with mu := mu.Unlock })
    else if !m.connected then
      .returns (.err "Not connected to any database", { m with mu := mu.Unlock })
    else
      .returns (.ret (), { m with connected := false, currentDatabase := "", mu := mu.Unlock })

/-- The loop of `Shutdown` that closes the handles, in the order of the
entries: the first error of a `Close`, with the name of its database. -/
def closeAll : List (String × SqlDB) → Option String
  | [] => none
  | (name, db) :: rest =>
    match db.closeError with
    | some e => some ("failed to close database " ++ name ++ ": " ++ e)
    | none => closeAll rest

/-- `DatabaseManager.Shutdown`: it locks and, when connected, calls
`m.Disconnect` with the lock still held; its deferred `Unlock` runs when the
body has returned. -/
def Shutdown (m : DatabaseManager) : Run (Outcome Unit × DatabaseManager) :=
  match m.mu.Lock with
  | none => .blocks
  | some mu =>
    let closing (m1 : DatabaseManager) : Run (Outcome Unit × DatabaseManager) :=
      match closeAll m1.databases.entries with
      | some e => .returns (.err e, { m1 with mu := m1.mu.Unlock })
      | none =>
        .returns (.ret (),
          { m1 with initialized := false, databases := GoMap.empty, mu := m1.mu.Unlock })
    if m.connected then
      match Disconnect { m with mu := mu } with
      | .blocks => .blocks
      | .returns (.ret (), m1) => closing m1
      | .returns (out, m1) => .returns (out, { m1 with mu := m1.mu.Unlock })
    else closing { m with mu := mu }

end DatabaseManager

/-- A handle whose `Ping` and `Close` return nil. -/
def goodDB : SqlDB := { pingError := none, closeError := none }

/-- An initialized manager that holds the database "main" and is connected to
it, its mutex free. -/
def connectedDatabaseManager : DatabaseManager :=
  { initialized := true, connected := true, currentDatabase := "main",
    databases := GoMap.empty.set "main" goodDB, mu := RWMutex.free }

end Bindings

/-! # Lemmas on maps and `int64` -/

theorem lookupL_setL_self {V : Type} (k : String) (v : V) (l : List (String × V)) :
    lookupL k (setL k v l) = some v := by
  induction l with
  | nil => simp [setL, lookupL]
  | cons e r ih =>
    by_cases h : e.1 = k
    · simp [setL, lookupL, h]
    · simp [setL, lookupL, h, ih]

theorem lookupL_setL_ne {V : Type} (k k' : String) (v : V) (l : List (String × V))
    (hne : k' ≠ k) : lookupL k' (setL k v l) = lookupL k' l := by
  have hne' : ¬ k = k' := fun c => hne c.symm
  induction l with
  | nil => simp [setL, lookupL, hne']
  | cons e r ih =>
    obtain ⟨ek, ev⟩ := e
    by_cases h : ek = k
    · subst h
      simp [setL, lookupL, hne']
    · by_cases h3 : ek = k'
      · subst h3
        simp [setL, lookupL, h]
      · simp [setL, lookupL, h, h3, ih]

theorem lookupL_eq_none_of_not_mem {V : Type} (k : String) (l : List (String × V))
    (h : k ∉ l.map Prod.fst) : lookupL k l = none := by
  induction l with
  | nil => rfl
  | cons e r ih =>
    simp only [List.map_cons, List.mem_cons, not_or] at h
    have h1 : ¬ e.1 = k := fun c => h.1 c.symm
    simp [lookupL, h1, ih h.2]

theorem lookupL_delL_self {V : Type} (k : String) (l : List (String × V))
    (hn : (l.map Prod.fst).Nodup) : lookupL k (delL k l) = none := by
  induction l with
  | nil => rfl
  | cons e r ih =>
    rw [List.map_cons, List.nodup_cons] at hn
    by_cases h : e.1 = k
    · simp only [delL, h, if_true]
      exact lookupL_eq_none_of_not_mem k r (h ▸ hn.1)
    · simp [delL, lookupL, h, ih hn.2]

theorem lookupL_delL_ne {V : Type} (k k' : String) (l : List (String × V))
    (hne : k' ≠ k) : lookupL k' (delL k l) = lookupL k' l := by
  have hne' : ¬ k = k' := fun c => hne c.symm
  induction l with
  | nil => rfl
  | cons e r ih =>
    obtain ⟨ek, ev⟩ := e
    by_cases h : ek = k
    · subst h
      simp [delL, lookupL, hne']
    · by_cases h3 : ek = k'
      · subst h3
        simp [delL, lookupL, h]
      · simp [delL, lookupL, h, h3, ih]

namespace GoMap

variable {V : Type}

theorem get?_set_self (m : GoMap V) (k : String) (v : V) : (m.set k v).get? k = some v :=
  lookupL_setL_self k v m.entries

theorem get?_set_ne (m : GoMap V) (k k' : String) (v : V) (h : k' ≠ k) :
    (m.set k v).get? k' = m.get? k' :=
  lookupL_setL_ne k k' v m.entries h

theorem get?_del_self (m : GoMap V) (k : String) : (m.del k).get? k = none :=
  lookupL_delL_self k m.entries m.nodup

theorem get?_del_ne (m : GoMap V) (k k' : String) (h : k' ≠ k) :
    (m.del k).get? k' = m.get? k' :=
  lookupL_delL_ne k k' m.entries h

theorem get?_empty (k : String) : (empty : GoMap V).get? k = none := rfl

end GoMap

theorem wrapInt64_of_inInt64 (x : Int) (h : InInt64 x) : wrapInt64 x = x := by
  unfold InInt64 at h
  unfold wrapInt64
  omega

theorem wrapInt64_add_wrap (a b : Int) : wrapInt64 (wrapInt64 a + b) = wrapInt64 (a + b) := by
  unfold wrapInt64
  omega

/-! # Theorems about `asset.Manager` -/

theorem foldl_wrapInt64 (l : List (String × Int)) (a : Int) :
    l.foldl (fun acc e => wrapInt64 (acc + e.2)) (wrapInt64 a) =
      wrapInt64 (a + (l.map Prod.snd).sum) := by
  induction l generalizing a with
  | nil => simp
  | cons e r ih =>
    simp only [List.foldl_cons, List.map_cons, List.sum_cons]
    rw [wrapInt64_add_wrap, ih, add_assoc]

theorem sumInt64_eq (m : GoMap Int) :
    Manager.sumInt64 m = wrapInt64 (m.entries.map Prod.snd).sum := by
  have h := foldl_wrapInt64 m.entries 0
  have h0 : wrapInt64 0 = 0 := by decide
  rw [h0, zero_add] at h
  exact h

theorem sum_setL (k : String) (v : Int) (l : List (String × Int)) :
    ((setL k v l).map Prod.snd).sum =
      (l.map Prod.snd).sum - (lookupL k l).getD 0 + v := by
  induction l with
  | nil => simp [setL, lookupL]
  | cons e r ih =>
    by_cases h : e.1 = k
    · simp only [setL, lookupL, h, if_true, List.map_cons, List.sum_cons, Option.getD_some]
      ring
    · simp only [setL, lookupL, h, if_false, List.map_cons, List.sum_cons, ih]
      ring

theorem wrapInt64_congr (a b : Int) (h : (a - b) % 2 ^ 64 = 0) : wrapInt64 a = wrapInt64 b := by
  unfold wrapInt64
  omega

theorem wrapInt64_sub_self_mod (x : Int) : (wrapInt64 x - x) % 2 ^ 64 = 0 := by
  unfold wrapInt64
  omega

/-- A transfer inside one balances map leaves the `int64` sum unchanged. -/
theorem sumInt64_transfer (b : GoMap Int) (f t : String) (amt : Int) :
    Manager.sumInt64
      ((b.set f (wrapInt64 ((b.get? f).getD 0 - amt))).set t
        (wrapInt64 (((b.set f (wrapInt64 ((b.get? f).getD 0 - amt))).get? t).getD 0 + amt))) =
      Manager.sumInt64 b := by
  rw [sumInt64_eq, sumInt64_eq]
  apply wrapInt64_congr
  simp only [GoMap.set, GoMap.get?]
  rw [sum_setL, sum_setL]
  generalize (lookupL f b.entries).getD 0 = x
  generalize (lookupL t (setL f (wrapInt64 (x - amt)) b.entries)).getD 0 = y
  generalize (List.map Prod.snd b.entries).sum = s
  have h1 := wrapInt64_sub_self_mod (x - amt)
  have h2 := wrapInt64_sub_self_mod (y + amt)
  generalize wrapInt64 (x - amt) = p at h1 ⊢
  generalize wrapInt64 (y + amt) = q at h1 h2 ⊢
  omega

/-- C1: whenever `TransferAsset` returns nil on an initialized manager
(`FromAddress = ToAddress` included), the `int64` sum of the address balances
of the transferred asset is the same before and after, the balances of every
other asset are unchanged and so are all asset records. -/
theorem TransferAsset_conserves_supply (am : Manager) (config : TransferConfig)
    (hinit : am.initialized = true)
    (hok : (am.TransferAsset config).1 = Outcome.ret ()) :
    (am.TransferAsset config).2.supply config.AssetID = am.supply config.AssetID ∧
    (∀ id, id ≠ config.AssetID →
      (am.TransferAsset config).2.balances.get? id = am.balances.get? id) ∧
    (am.TransferAsset config).2.assets = am.assets ∧
    (am.TransferAsset config).2.initialized = true := by
  unfold Manager.TransferAsset at hok ⊢
  simp only [Manager.ensureInitialized, hinit] at hok ⊢
  cases ha : am.assets.get? config.AssetID with
  | none => simp [ha] at hok
  | some a =>
    cases hb : am.balances.get? config.AssetID with
    | none => simp [ha, hb] at hok
    | some b =>
      cases hf : b.get? config.FromAddress with
      | none => simp [ha, hb, hf] at hok
      | some fb =>
        by_cases hlt : fb < config.Amount
        · simp [ha, hb, hf, hlt] at hok
        · have hs := sumInt64_transfer b config.FromAddress config.ToAddress config.Amount
          simp only [hf, Option.getD_some] at hs
          simp only [ha, hb, hf, hlt, Manager.supply, GoMap.get?_set_self, Option.map_some',
            Option.getD_some, Bool.not_true, Bool.false_eq_true, if_false, hinit]
          refine ⟨by rw [hs], ?_, trivial, trivial⟩
          intro id hid
          exact GoMap.get?_set_ne _ _ _ _ hid

theorem TransferAsset_conserves_supply_witness :
    (testManager.TransferAsset testTransfer).2.supply "TEST" = some 1000000 ∧
    (testManager.TransferAsset testTransfer).2.supply testTransfer.AssetID =
      testManager.supply testTransfer.AssetID :=
  ⟨by decide, (TransferAsset_conserves_supply testManager testTransfer (by decide) (by decide)).1⟩

/-- C2: on an initialized manager with the asset stored, `from ≠ to` and a
balance entry of `from` that is at least `Amount`, `TransferAsset` returns nil;
afterwards the balance of `from` is the old balance minus `Amount` and the
balance of `to` is its old balance (0 without an entry) plus `Amount`, both as
Go computes them in `int64` (and exactly so whenever the result fits in an
`int64`), and the entry of every other address is unchanged. -/
theorem TransferAsset_success (am : Manager) (config : TransferConfig) (a : Asset)
    (b : GoMap Int) (fb : Int)
    (hinit : am.initialized = true)
    (ha : am.assets.get? config.AssetID = some a)
    (hb : am.balances.get? config.AssetID = some b)
    (hf : b.get? config.FromAddress = some fb)
    (hge : config.Amount ≤ fb)
    (hne : config.FromAddress ≠ config.ToAddress) :
    (am.TransferAsset config).1 = Outcome.ret () ∧
    ((am.TransferAsset config).2.GetAssetBalance config.AssetID config.FromAddress).1 =
      Outcome.ret (wrapInt64 (fb - config.Amount)) ∧
    ((am.TransferAsset config).2.GetAssetBalance config.AssetID config.ToAddress).1 =
      Outcome.ret (wrapInt64 ((b.get? config.ToAddress).getD 0 + config.Amount)) ∧
    (InInt64 (fb - config.Amount) →
      (am.TransferAsset config).2.balanceEntry config.AssetID config.FromAddress =
        some (fb - config.Amount)) ∧
    (InInt64 ((b.get? config.ToAddress).getD 0 + config.Amount) →
      (am.TransferAsset config).2.balanceEntry config.AssetID config.ToAddress =
        some ((b.get? config.ToAddress).getD 0 + config.Amount)) ∧
    (∀ addr, addr ≠ config.FromAddress → addr ≠ config.ToAddress →
      (am.TransferAsset config).2.balanceEntry config.AssetID addr = b.get? addr) := by
  have hlt : ¬ fb < config.Amount := not_lt.mpr hge
  have hne' : config.ToAddress ≠ config.FromAddress := fun c => hne c.symm
  have hrun : am.TransferAsset config =
      (Outcome.ret (), { am with balances := (am.balances.set config.AssetID
        ((b.set config.FromAddress (wrapInt64 (fb - config.Amount))).set config.ToAddress
          (wrapInt64 ((b.get? config.ToAddress).getD 0 + config.Amount)))) }) := by
    unfold Manager.TransferAsset
    simp only [Manager.ensureInitialized, hinit, ha, hb, hf, hlt, Bool.not_true,
      Bool.false_eq_true, if_false, Option.getD_some, GoMap.get?_set_ne _ _ _ _ hne']
  rw [hrun]
  refine ⟨rfl, ?_, ?_, ?_, ?_, ?_⟩
  · simp only [Manager.GetAssetBalance, Manager.ensureInitialized, hinit, ha,
      GoMap.get?_set_self, GoMap.get?_set_ne _ _ _ _ hne, Bool.not_true, Bool.false_eq_true,
      if_false]
  · simp only [Manager.GetAssetBalance, Manager.ensureInitialized, hinit, ha,
      GoMap.get?_set_self, Bool.not_true, Bool.false_eq_true, if_false]
  · intro hr
    simp only [Manager.balanceEntry, GoMap.get?_set_self, Option.some_bind,
      GoMap.get?_set_ne _ _ _ _ hne, wrapInt64_of_inInt64 _ hr]
  · intro hr
    simp only [Manager.balanceEntry, GoMap.get?_set_self, Option.some_bind,
      wrapInt64_of_inInt64 _ hr]
  · intro addr h1 h2
    simp only [Manager.balanceEntry, GoMap.get?_set_self, Option.some_bind,
      GoMap.get?_set_ne _ _ _ _ h1, GoMap.get?_set_ne _ _ _ _ h2]

theorem TransferAsset_success_witness :
    (testManager.TransferAsset testTransfer).1 = Outcome.ret () ∧
    ((testManager.TransferAsset testTransfer).2.GetAssetBalance "TEST" "owner1").1 =
      Outcome.ret 500000 ∧
    ((testManager.TransferAsset testTransfer).2.GetAssetBalance "TEST" "owner2").1 =
      Outcome.ret 500000 :=
  have h := TransferAsset_success testManager testTransfer
    { ID := "TEST", Name := "Test Asset", Symbol := "TEST", Description := "Test Description",
      Decimals := 8, TotalSupply := 1000000, Owner := "owner1", CreatedAt := 0, UpdatedAt := 0 }
    (GoMap.empty.set "owner1" 1000000) 1000000
    (by decide) (by decide) (by decide) (by decide) (by decide) (by decide)
  ⟨h.1, h.2.1, h.2.2.1⟩

theorem GoMap.isSome_get?_set {V : Type} (m : GoMap V) (k k' : String) (v : V) :
    ((m.set k v).get? k').isSome = (decide (k' = k) || (m.get? k').isSome) := by
  by_cases h : k' = k
  · subst h
    simp [GoMap.get?_set_self]
  · simp [GoMap.get?_set_ne _ _ _ _ h, h]

theorem GoMap.isSome_get?_del {V : Type} (m : GoMap V) (k k' : String) :
    ((m.del k).get? k').isSome = (!decide (k' = k) && (m.get? k').isSome) := by
  by_cases h : k' = k
  · subst h
    simp [GoMap.get?_del_self]
  · simp [GoMap.get?_del_ne _ _ _ h, h]

theorem Manager.reachable_assetsHaveBalances (am : Manager) (h : Manager.Reachable am) :
    am.AssetsHaveBalances := by
  induction h with
  | start => intro id hid; simp [Manager.NewManager, GoMap.get?_empty] at hid
  | init am _ ih =>
    unfold Manager.Initialize
    split <;> exact ih
  | shut am _ ih =>
    unfold Manager.Shutdown
    split <;> exact ih
  | create am config now _ ih =>
    unfold Manager.CreateAsset
    split
    · exact ih
    · split
      · exact ih
      · intro id hid
        simp only [GoMap.isSome_get?_set] at hid ⊢
        simp only [Bool.or_eq_true, decide_eq_true_eq] at hid ⊢
        rcases hid with h | h
        · exact Or.inl h
        · exact Or.inr (Or.inr (ih id h))
  | update am uid config now _ ih =>
    unfold Manager.UpdateAsset
    split
    · exact ih
    · split
      · exact ih
      · rename_i asset hasset
        intro id hid
        simp only [GoMap.isSome_get?_set, Bool.or_eq_true, decide_eq_true_eq] at hid
        rcases hid with h | h
        · subst h
          exact ih id (by simp [hasset])
        · exact ih id h
  | delete am did _ ih =>
    unfold Manager.DeleteAsset
    split
    · exact ih
    · split
      · exact ih
      · intro id hid
        simp only [GoMap.isSome_get?_del, Bool.and_eq_true, Bool.not_eq_true',
          decide_eq_false_iff_not] at hid ⊢
        exact ⟨hid.1, ih id hid.2⟩
  | transfer am config _ ih =>
    unfold Manager.TransferAsset
    split
    · exact ih
    · split
      · exact ih
      · split
        · exact ih
        · split
          · exact ih
          · split
            · exact ih
            · intro id hid
              simp only [GoMap.isSome_get?_set, Bool.or_eq_true, decide_eq_true_eq]
              exact Or.inr (ih id hid)

/-- Whenever `TransferAsset` returns an error, the manager is left as it was. -/
theorem Manager.TransferAsset_err_unchanged (am : Manager) (config : TransferConfig)
    (msg : String) (h : (am.TransferAsset config).1 = Outcome.err msg) :
    (am.TransferAsset config).2 = am := by
  unfold Manager.TransferAsset at h ⊢
  cases hi : am.ensureInitialized with
  | some m => simp only [hi]
  | none =>
    cases ha : am.assets.get? config.AssetID with
    | none => simp only [hi, ha]
    | some a =>
      cases hb : am.balances.get? config.AssetID with
      | none => simp only [hi, ha, hb]
      | some b =>
        cases hf : b.get? config.FromAddress with
        | none => simp only [hi, ha, hb, hf]
        | some fb =>
          by_cases hlt : fb < config.Amount
          · simp only [hi, ha, hb, hf, hlt, if_true]
          · simp [hi, ha, hb, hf, hlt] at h

/-- C3: on an initialized manager (in a state the public operations can
reach) with the asset stored, `TransferAsset` returns the error
"insufficient balance" exactly when the sender has no balance entry or its
balance is less than `Amount`; and whenever `TransferAsset` returns an error,
whichever it is, the manager (assets and balances maps) is unchanged. -/
theorem TransferAsset_insufficient_atomic (am : Manager) (config : TransferConfig)
    (hr : Manager.Reachable am) (hinit : am.initialized = true) :
    ((am.assets.get? config.AssetID).isSome = true →
      ((am.TransferAsset config).1 = Outcome.err "insufficient balance" ↔
        (am.balanceEntry config.AssetID config.FromAddress = none ∨
          ∃ fb, am.balanceEntry config.AssetID config.FromAddress = some fb ∧
            fb < config.Amount))) ∧
    (∀ msg, (am.TransferAsset config).1 = Outcome.err msg →
      (am.TransferAsset config).2.assets = am.assets ∧
      (am.TransferAsset config).2.balances = am.balances) := by
  refine ⟨?_, ?_⟩
  · intro ha
    have hb := Manager.reachable_assetsHaveBalances am hr config.AssetID ha
    obtain ⟨a, ha⟩ := Option.isSome_iff_exists.mp ha
    obtain ⟨b, hb⟩ := Option.isSome_iff_exists.mp hb
    unfold Manager.TransferAsset
    simp only [Manager.ensureInitialized, hinit, ha, hb, Manager.balanceEntry, Bool.not_true,
      Bool.false_eq_true, if_false, Option.some_bind]
    cases hf : b.get? config.FromAddress with
    | none => simp
    | some fb =>
      by_cases hlt : fb < config.Amount
      · simp [hlt]
      · simp [hlt]
  · intro msg hmsg
    rw [Manager.TransferAsset_err_unchanged am config msg hmsg]
    exact ⟨rfl, rfl⟩

theorem TransferAsset_insufficient_atomic_witness :
    (testManager.TransferAsset { testTransfer with Amount := 1000001 }).1 =
      Outcome.err "insufficient balance" ∧
    (testManager.TransferAsset { testTransfer with Amount := 1000001 }).2.balances =
      testManager.balances :=
  have hr : Manager.Reachable testManager :=
    Manager.Reachable.create _ _ _
      (Manager.Reachable.init _ Manager.Reachable.start)
  have h := TransferAsset_insufficient_atomic testManager
    { testTransfer with Amount := 1000001 } hr (by decide)
  ⟨(h.1 (by decide)).2 (Or.inr ⟨1000000, by decide, by decide⟩),
    (h.2 "insufficient balance" (by decide)).2⟩

/-- C4, evaluated at the failing input: in `testManager` every balance of
"TEST" is non-negative, the transfer of `-5` from "owner1" to "owner2" returns
nil, and afterwards the balance of "owner2" is `-5` (and "owner1" holds more
than the total supply). -/
theorem TransferAsset_negative_amount_breaks_nonneg :
    (∀ b, testManager.balances.get? "TEST" = some b → ∀ e ∈ b.entries, 0 ≤ e.2) ∧
    (testManager.TransferAsset negativeTransfer).1 = Outcome.ret () ∧
    ((testManager.TransferAsset negativeTransfer).2.GetAssetBalance "TEST" "owner2").1 =
      Outcome.ret (-5) ∧
    ((testManager.TransferAsset negativeTransfer).2.GetAssetBalance "TEST" "owner1").1 =
      Outcome.ret 1000005 := by
  refine ⟨?_, by decide, by decide, by decide⟩
  intro b hb
  have h : testManager.balances.get? "TEST" = some (GoMap.empty.set "owner1" 1000000) := by
    decide
  rw [h] at hb
  cases hb
  decide

/-- C5: on an initialized manager that holds no asset with `config.Symbol`,
`CreateAsset` returns an asset whose ID and Symbol are `config.Symbol` and
whose Name, Description, Decimals, TotalSupply and Owner are the config's;
afterwards `GetAsset(config.Symbol)` returns that asset,
`GetAssetBalance(config.Symbol, config.Owner)` returns `config.TotalSupply`,
and `GetAssetBalance(config.Symbol, a)` returns 0 without error for every
other address `a`. -/
theorem CreateAsset_postcondition (am : Manager) (config : AssetConfig) (now : Int)
    (hinit : am.initialized = true) (hnew : am.assets.get? config.Symbol = none) :
    ∃ asset : Asset,
      (am.CreateAsset config now).1 = Outcome.ret asset ∧
      asset.ID = config.Symbol ∧ asset.Symbol = config.Symbol ∧
      asset.Name = config.Name ∧ asset.Description = config.Description ∧
      asset.Decimals = config.Decimals ∧ asset.TotalSupply = config.TotalSupply ∧
      asset.Owner = config.Owner ∧
      ((am.CreateAsset config now).2.GetAsset config.Symbol).1 = Outcome.ret asset ∧
      ((am.CreateAsset config now).2.GetAssetBalance config.Symbol config.Owner).1 =
        Outcome.ret config.TotalSupply ∧
      (∀ a, a ≠ config.Owner →
        ((am.CreateAsset config now).2.GetAssetBalance config.Symbol a).1 = Outcome.ret 0) := by
  refine ⟨{ ID := config.Symbol, Name := config.Name, Symbol := config.Symbol,
            Description := config.Description, Decimals := config.Decimals,
            TotalSupply := config.TotalSupply, Owner := config.Owner, CreatedAt := now,
            UpdatedAt := now }, ?_, rfl, rfl, rfl, rfl, rfl, rfl, rfl, ?_, ?_, ?_⟩
  · simp only [Manager.CreateAsset, Manager.ensureInitialized, hinit, hnew, Bool.not_true,
      Bool.false_eq_true, if_false]
  · simp only [Manager.CreateAsset, Manager.GetAsset, Manager.ensureInitialized, hinit, hnew,
      Bool.not_true, Bool.false_eq_true, if_false, GoMap.get?_set_self]
  · simp only [Manager.CreateAsset, Manager.GetAssetBalance, Manager.ensureInitialized, hinit,
      hnew, Bool.not_true, Bool.false_eq_true, if_false, GoMap.get?_set_self,
      Option.getD_some]
  · intro a ha
    simp only [Manager.CreateAsset, Manager.GetAssetBalance, Manager.ensureInitialized, hinit,
      hnew, Bool.not_true, Bool.false_eq_true, if_false, GoMap.get?_set_self,
      Option.getD_some, GoMap.get?_set_ne _ _ _ _ ha, GoMap.get?_empty]

theorem CreateAsset_postcondition_witness :
    ∃ asset : Asset,
      (Manager.NewManager.Initialize.2.CreateAsset testConfig 7).1 = Outcome.ret asset ∧
      asset.ID = "TEST" ∧
      ((Manager.NewManager.Initialize.2.CreateAsset testConfig 7).2.GetAssetBalance
        "TEST" "owner1").1 = Outcome.ret 1000000 :=
  have ⟨asset, h⟩ := CreateAsset_postcondition Manager.NewManager.Initialize.2 testConfig 7
    (by decide) (by decide)
  ⟨asset, h.1, h.2.1, h.2.2.2.2.2.2.2.2.2.1⟩

/-- C6: on an initialized manager that already holds an asset with ID
`config.Symbol`, `CreateAsset` returns no asset and the error
"asset already exists", and the manager is unchanged: the stored asset record
and all balances stay as they were. -/
theorem CreateAsset_duplicate_rejected (am : Manager) (config : AssetConfig) (now : Int)
    (hinit : am.initialized = true)
    (hdup : (am.assets.get? config.Symbol).isSome = true) :
    (am.CreateAsset config now).1 = Outcome.err "asset already exists" ∧
    (am.CreateAsset config now).2 = am := by
  obtain ⟨a, ha⟩ := Option.isSome_iff_exists.mp hdup
  simp only [Manager.CreateAsset, Manager.ensureInitialized, hinit, ha, Bool.not_true,
    Bool.false_eq_true, if_false, and_self]

theorem CreateAsset_duplicate_rejected_witness :
    ((testManager.TransferAsset testTransfer).2.CreateAsset testConfig 9).1 =
      Outcome.err "asset already exists" ∧
    (((testManager.TransferAsset testTransfer).2.CreateAsset testConfig 9).2.GetAssetBalance
      "TEST" "owner1").1 = Outcome.ret 500000 :=
  have h := CreateAsset_duplicate_rejected (testManager.TransferAsset testTransfer).2
    testConfig 9 (by decide) (by decide)
  ⟨h.1, by rw [h.2]; decide⟩

/-- C7 fails as stated: on a manager that was never initialized, `GetAsset`
does not return an error to its caller; the call panics. -/
theorem GetAsset_uninitialized_is_not_an_error :
    (Manager.NewManager.GetAsset "TEST").1 = Outcome.panic "asset manager not initialized" ∧
    ¬ ∃ msg, (Manager.NewManager.GetAsset "TEST").1 = Outcome.err msg := by
  refine ⟨by decide, ?_⟩
  rintro ⟨msg, h⟩
  have h' : (Manager.NewManager.GetAsset "TEST").1 =
      Outcome.panic "asset manager not initialized" := by decide
  rw [h'] at h
  cases h

/-- C7 (amended): on a manager whose `initialized` flag is false (never
initialized, or shut down: `Shutdown` always leaves the flag false), each of
`CreateAsset`, `GetAsset`, `UpdateAsset`, `DeleteAsset`, `GetAssetBalance` and
`TransferAsset` panics with "asset manager not initialized" and leaves the
manager, hence the assets and balances maps, unchanged. -/
theorem uninitialized_operations_panic (am : Manager) (hinit : am.initialized = false)
    (config : AssetConfig) (now : Int) (id address : String) (update : AssetUpdateConfig)
    (transfer : TransferConfig) :
    am.Shutdown.2.initialized = false ∧
    am.CreateAsset config now = (Outcome.panic "asset manager not initialized", am) ∧
    am.GetAsset id = (Outcome.panic "asset manager not initialized", am) ∧
    am.UpdateAsset id update now = (Outcome.panic "asset manager not initialized", am) ∧
    am.DeleteAsset id = (Outcome.panic "asset manager not initialized", am) ∧
    am.GetAssetBalance id address = (Outcome.panic "asset manager not initialized", am) ∧
    am.TransferAsset transfer = (Outcome.panic "asset manager not initialized", am) := by
  refine ⟨?_, ?_, ?_, ?_, ?_, ?_, ?_⟩
  · simp [Manager.Shutdown, hinit]
  all_goals
    simp only [Manager.CreateAsset, Manager.GetAsset, Manager.UpdateAsset, Manager.DeleteAsset,
      Manager.GetAssetBalance, Manager.TransferAsset, Manager.ensureInitialized, hinit,
      Bool.not_false, if_true]

theorem uninitialized_operations_panic_witness :
    testManager.Shutdown.2.initialized = false ∧
    testManager.Shutdown.2.TransferAsset testTransfer =
      (Outcome.panic "asset manager not initialized", testManager.Shutdown.2) :=
  ⟨by decide,
    (uninitialized_operations_panic testManager.Shutdown.2 (by decide) testConfig 0 "TEST"
      "owner1" { Name := "n", Description := "d", TotalSupply := 1 } testTransfer).2.2.2.2.2.2⟩

/-! # Theorems about `nft.NFTManager` -/


/-- C8, evaluated at the failing input: `testNFTManager` holds the NFT
"0x123_Test NFT"; the second `CreateNFT` with the same contract address and
metadata returns the id and no error, replaces the stored NFT (its `TokenID`
goes from 1 to 2) and appends the id once more to the owner, contract and
creator indices. -/
theorem CreateNFT_duplicate_not_rejected :
    (testNFTManager.nfts.get? "0x123_Test NFT").map (fun n => n.TokenID) = some 1 ∧
    testNFTManager.ownerNFTs.get? "creator" = some ["0x123_Test NFT"] ∧
    (testNFTManager.CreateNFT "0x123" testMetadata "creator" true true "royaltyRecipient" 500
      1 1).1 = Outcome.ret "0x123_Test NFT" ∧
    (duplicateNFTManager.nfts.get? "0x123_Test NFT").map (fun n => n.TokenID) = some 2 ∧
    duplicateNFTManager.ownerNFTs.get? "creator" =
      some ["0x123_Test NFT", "0x123_Test NFT"] ∧
    duplicateNFTManager.contractNFTs.get? "0x123" =
      some ["0x123_Test NFT", "0x123_Test NFT"] ∧
    duplicateNFTManager.creatorNFTs.get? "creator" =
      some ["0x123_Test NFT", "0x123_Test NFT"] := by
  decide

/-- C9, evaluated at the failing input: after `Initialize` and two identical
`CreateNFT` calls one NFT is stored and its `Owner` is "creator", yet
`GetNFTsByOwner("creator")` returns it twice. -/
theorem GetNFTsByOwner_lists_duplicate_twice :
    ∃ nft : NFT,
      duplicateNFTManager.storedOwnedBy "creator" = [nft] ∧
      (duplicateNFTManager.GetNFTsByOwner "creator").1 = Outcome.ret [nft, nft] :=
  ⟨{ ID := "0x123_Test NFT", ContractAddress := "0x123", Owner := "creator",
     Creator := "creator", Metadata := testMetadata, TokenID := 2,
     TokenURI := "https://example.com/nft", IsTransferable := true, IsBurnable := true,
     RoyaltyRecipient := "royaltyRecipient", RoyaltyBasisPoints := 500, CreatedAt := 1,
     UpdatedAt := 1 }, by decide, by decide⟩

theorem NFTManager.removeFromOwnerNFTs_nfts (nm : NFTManager) (owner nftID : String) :
    (nm.removeFromOwnerNFTs owner nftID).nfts = nm.nfts ∧
    (nm.removeFromOwnerNFTs owner nftID).contractNFTs = nm.contractNFTs ∧
    (nm.removeFromOwnerNFTs owner nftID).creatorNFTs = nm.creatorNFTs ∧
    (nm.removeFromOwnerNFTs owner nftID).initialized = nm.initialized := by
  unfold NFTManager.removeFromOwnerNFTs
  split <;> exact ⟨rfl, rfl, rfl, rfl⟩

theorem NFTManager.TransferNFT_not_found (nm : NFTManager) (nftID from' to' : String)
    (now : Int) (hinit : nm.initialized = true) (hn : nm.nfts.get? nftID = none) :
    nm.TransferNFT nftID from' to' now = (Outcome.err "NFT not found", nm) := by
  simp [NFTManager.TransferNFT, hinit, hn]

theorem NFTManager.TransferNFT_not_transferable (nm : NFTManager) (nftID from' to' : String)
    (now : Int) (nft : NFT) (hinit : nm.initialized = true)
    (hn : nm.nfts.get? nftID = some nft) (ht : nft.IsTransferable = false) :
    nm.TransferNFT nftID from' to' now = (Outcome.err "NFT is not transferable", nm) := by
  simp [NFTManager.TransferNFT, hinit, hn, ht]

theorem NFTManager.TransferNFT_not_owner (nm : NFTManager) (nftID from' to' : String)
    (now : Int) (nft : NFT) (hinit : nm.initialized = true)
    (hn : nm.nfts.get? nftID = some nft) (ht : nft.IsTransferable = true)
    (ho : nft.Owner ≠ from') :
    nm.TransferNFT nftID from' to' now = (Outcome.err "Sender is not the owner", nm) := by
  simp [NFTManager.TransferNFT, hinit, hn, ht, ho]

theorem NFTManager.TransferNFT_success (nm : NFTManager) (nftID from' to' : String)
    (now : Int) (nft : NFT) (hinit : nm.initialized = true)
    (hn : nm.nfts.get? nftID = some nft) (ht : nft.IsTransferable = true)
    (ho : nft.Owner = from') :
    (nm.TransferNFT nftID from' to' now).1 = Outcome.ret () ∧
    (nm.TransferNFT nftID from' to' now).2.nfts =
      nm.nfts.set nftID { nft with Owner := to', UpdatedAt := now } := by
  simp [NFTManager.TransferNFT, hinit, hn, ht, ho, NFTManager.removeFromOwnerNFTs_nfts]

/-- C10: on an initialized manager `TransferNFT(id, from, to)` returns nil if
and only if an NFT with that id is stored, its `IsTransferable` flag is true
and its `Owner` equals `from`. On success the stored NFT is the old record
with `Owner` set to `to` (and `UpdatedAt` to the clock), so its ID, Creator,
ContractAddress, Metadata, TokenID and flags are unchanged, and no other NFT
changes. On every error return the manager (the nfts map and all indices) is
unchanged. -/
theorem TransferNFT_spec (nm : NFTManager) (nftID from' to' : String) (now : Int)
    (hinit : nm.initialized = true) :
    ((nm.TransferNFT nftID from' to' now).1 = Outcome.ret () ↔
      ∃ nft, nm.nfts.get? nftID = some nft ∧ nft.IsTransferable = true ∧ nft.Owner = from') ∧
    ((nm.TransferNFT nftID from' to' now).1 = Outcome.ret () →
      (∀ nft, nm.nfts.get? nftID = some nft →
        ∃ nft', (nm.TransferNFT nftID from' to' now).2.nfts.get? nftID = some nft' ∧
          nft' = { nft with Owner := to', UpdatedAt := now } ∧
          nft'.Owner = to' ∧ nft'.ID = nft.ID ∧ nft'.Creator = nft.Creator ∧
          nft'.ContractAddress = nft.ContractAddress ∧ nft'.Metadata = nft.Metadata ∧
          nft'.TokenID = nft.TokenID ∧ nft'.IsTransferable = nft.IsTransferable ∧
          nft'.IsBurnable = nft.IsBurnable) ∧
      (∀ other, other ≠ nftID →
        (nm.TransferNFT nftID from' to' now).2.nfts.get? other = nm.nfts.get? other)) ∧
    (∀ msg, (nm.TransferNFT nftID from' to' now).1 = Outcome.err msg →
      (nm.TransferNFT nftID from' to' now).2 = nm) := by
  cases hn : nm.nfts.get? nftID with
  | none =>
    rw [NFTManager.TransferNFT_not_found nm nftID from' to' now hinit hn]
    simp
  | some nft =>
    cases ht : nft.IsTransferable with
    | false =>
      rw [NFTManager.TransferNFT_not_transferable nm nftID from' to' now nft hinit hn ht]
      simp [ht]
    | true =>
      by_cases ho : nft.Owner = from'
      · obtain ⟨h1, h2⟩ := NFTManager.TransferNFT_success nm nftID from' to' now nft hinit hn ht ho
        refine ⟨⟨fun _ => ⟨nft, rfl, ht, ho⟩, fun _ => h1⟩, fun _ => ⟨?_, ?_⟩, ?_⟩
        · intro nft0 hnft0
          cases hnft0
          refine ⟨_, ?_, rfl, rfl, rfl, rfl, rfl, rfl, rfl, rfl, rfl⟩
          rw [h2]
          exact GoMap.get?_set_self _ _ _
        · intro other hother
          rw [h2]
          exact GoMap.get?_set_ne _ _ _ _ hother
        · intro msg hmsg
          rw [h1] at hmsg
          cases hmsg
      · rw [NFTManager.TransferNFT_not_owner nm nftID from' to' now nft hinit hn ht ho]
        simp [ht, ho]

theorem TransferNFT_spec_witness :
    (testNFTManager.TransferNFT "0x123_Test NFT" "creator" "receiver" 5).1 = Outcome.ret () ∧
    ((testNFTManager.TransferNFT "0x123_Test NFT" "creator" "receiver" 5).2.GetNFT
      "0x123_Test NFT").1 = Outcome.ret { testNFT with Owner := "receiver", UpdatedAt := 5 } :=
  have h := TransferNFT_spec testNFTManager "0x123_Test NFT" "creator" "receiver" 5 (by decide)
  ⟨h.1.2 ⟨testNFT, by decide, by decide, by decide⟩, by decide⟩

/-- C11, evaluated at the failing input: after `Initialize` and two identical
`CreateNFT` calls, `BurnNFT("0x123_Test NFT", "creator")` returns nil and
`GetNFT` then answers "NFT not found", yet the id still occurs in the owner,
contract and creator indices: each `removeFrom...` drops one occurrence only. -/
theorem BurnNFT_leaves_duplicate_index_entries :
    (duplicateNFTManager.BurnNFT "0x123_Test NFT" "creator").1 = Outcome.ret () ∧
    ((duplicateNFTManager.BurnNFT "0x123_Test NFT" "creator").2.GetNFT "0x123_Test NFT").1 =
      Outcome.err "NFT not found" ∧
    (duplicateNFTManager.BurnNFT "0x123_Test NFT" "creator").2.ownerNFTs.get? "creator" =
      some ["0x123_Test NFT"] ∧
    (duplicateNFTManager.BurnNFT "0x123_Test NFT" "creator").2.contractNFTs.get? "0x123" =
      some ["0x123_Test NFT"] ∧
    (duplicateNFTManager.BurnNFT "0x123_Test NFT" "creator").2.creatorNFTs.get? "creator" =
      some ["0x123_Test NFT"] := by
  refine ⟨?_, ?_, ?_, ?_, ?_⟩ <;> decide

/-- C12, evaluated at the failing input: of the five serialized calls
`TransferNFT(id, "creator", "receiver")` of `TestConcurrentOperations`, only
the first returns nil; the other four return "Sender is not the owner", where
the test requires nil of every call. -/
theorem TransferNFT_repeated_not_all_succeed :
    (testNFTManager.transferRepeatedly "0x123_Test NFT" "creator" "receiver"
      [1, 2, 3, 4, 5]).1 =
      [Outcome.ret (), Outcome.err "Sender is not the owner",
        Outcome.err "Sender is not the owner", Outcome.err "Sender is not the owner",
        Outcome.err "Sender is not the owner"] ∧
    ¬ ∀ o ∈ (testNFTManager.transferRepeatedly "0x123_Test NFT" "creator" "receiver"
      [1, 2, 3, 4, 5]).1, o = Outcome.ret () := by
  refine ⟨by decide, by decide⟩

theorem NFTManager.TransferNFT_initialized (nm : NFTManager) (nftID from' to' : String)
    (now : Int) : (nm.TransferNFT nftID from' to' now).2.initialized = nm.initialized := by
  unfold NFTManager.TransferNFT
  split
  · rfl
  · split
    · rfl
    · split
      · rfl
      · split
        · rfl
        · exact (NFTManager.removeFromOwnerNFTs_nfts _ _ _).2.2.2

/-- Once the NFT is owned by somebody else than `from`, every further call
`TransferNFT(nftID, from, to)` fails with "Sender is not the owner" and changes
nothing. -/
theorem NFTManager.transferRepeatedly_not_owner (nm : NFTManager) (nftID from' to' : String)
    (nft : NFT) (hinit : nm.initialized = true) (hn : nm.nfts.get? nftID = some nft)
    (ht : nft.IsTransferable = true) (ho : nft.Owner ≠ from') (times : List Int) :
    nm.transferRepeatedly nftID from' to' times =
      (List.replicate times.length (Outcome.err "Sender is not the owner"), nm) := by
  induction times with
  | nil => rfl
  | cons now rest ih =>
    simp only [NFTManager.transferRepeatedly,
      NFTManager.TransferNFT_not_owner nm nftID from' to' now nft hinit hn ht ho, ih,
      List.length_cons, List.replicate_succ]

/-- The behaviour of the ownership guard under repetition: for a stored
transferable NFT owned by `creator`, on an initialized manager and with
`creator ≠ receiver`, when
`TransferNFT(id, creator, receiver)` is invoked one or more times in a row,
the first invocation returns nil, every later invocation returns the error
"Sender is not the owner", and the final `Owner` is `receiver`. -/
theorem TransferNFT_repeated (nm : NFTManager) (nftID creator receiver : String) (nft : NFT)
    (now : Int) (later : List Int)
    (hinit : nm.initialized = true) (hn : nm.nfts.get? nftID = some nft)
    (ht : nft.IsTransferable = true) (ho : nft.Owner = creator) (hne : creator ≠ receiver) :
    (nm.transferRepeatedly nftID creator receiver (now :: later)).1 =
      Outcome.ret () :: List.replicate later.length (Outcome.err "Sender is not the owner") ∧
    (nm.transferRepeatedly nftID creator receiver (now :: later)).2.nfts.get? nftID =
      some { nft with Owner := receiver, UpdatedAt := now } := by
  obtain ⟨h1, h2⟩ := NFTManager.TransferNFT_success nm nftID creator receiver now nft hinit hn
    ht ho
  have hinit' : (nm.TransferNFT nftID creator receiver now).2.initialized = true := by
    rw [NFTManager.TransferNFT_initialized, hinit]
  have hn' : (nm.TransferNFT nftID creator receiver now).2.nfts.get? nftID =
      some { nft with Owner := receiver, UpdatedAt := now } := by
    rw [h2]
    exact GoMap.get?_set_self _ _ _
  have hrest := NFTManager.transferRepeatedly_not_owner
    (nm.TransferNFT nftID creator receiver now).2 nftID creator receiver
    { nft with Owner := receiver, UpdatedAt := now } hinit' hn' ht (fun c => hne c.symm) later
  simp only [NFTManager.transferRepeatedly, hrest, h1, hn', and_self]

theorem TransferNFT_repeated_witness :
    (testNFTManager.transferRepeatedly "0x123_Test NFT" "creator" "receiver"
      [1, 2, 3, 4, 5]).2.nfts.get? "0x123_Test NFT" =
      some { testNFT with Owner := "receiver", UpdatedAt := 1 } :=
  (TransferNFT_repeated testNFTManager "0x123_Test NFT" "creator" "receiver" testNFT 1
    [2, 3, 4, 5] (by decide) (by decide) (by decide) (by decide) (by decide)).2

/-- C13: on an initialized manager, whenever `metadata.Name`,
`metadata.Description` or `metadata.Image` is the empty string, `CreateNFT`
returns the empty id with an error and leaves the manager (the nfts map and
the three indices) unchanged; when all three are non-empty and no NFT with
the generated id is stored, it returns
`contractAddress + "_" + metadata.Name` and stores under that id an NFT with
`Owner = Creator = creator` and `TokenURI = metadata.ExternalURL`. -/
theorem CreateNFT_validates_metadata (nm : NFTManager) (contractAddress : String)
    (metadata : NFTMetadata) (creator : String) (isTransferable isBurnable : Bool)
    (royaltyRecipient : String) (royaltyBasisPoints : Nat) (tCreated tUpdated : Int)
    (hinit : nm.initialized = true) :
    ((metadata.Name = "" ∨ metadata.Description = "" ∨ metadata.Image = "") →
      (∃ msg, (nm.CreateNFT contractAddress metadata creator isTransferable isBurnable
        royaltyRecipient royaltyBasisPoints tCreated tUpdated).1 = Outcome.err msg) ∧
      (nm.CreateNFT contractAddress metadata creator isTransferable isBurnable
        royaltyRecipient royaltyBasisPoints tCreated tUpdated).2 = nm) ∧
    (metadata.Name ≠ "" → metadata.Description ≠ "" → metadata.Image ≠ "" →
      nm.nfts.get? (contractAddress ++ "_" ++ metadata.Name) = none →
      (nm.CreateNFT contractAddress metadata creator isTransferable isBurnable
        royaltyRecipient royaltyBasisPoints tCreated tUpdated).1 =
          Outcome.ret (contractAddress ++ "_" ++ metadata.Name) ∧
      ∃ nft, (nm.CreateNFT contractAddress metadata creator isTransferable isBurnable
          royaltyRecipient royaltyBasisPoints tCreated tUpdated).2.nfts.get?
            (contractAddress ++ "_" ++ metadata.Name) = some nft ∧
        nft.Owner = creator ∧ nft.Creator = creator ∧
        nft.TokenURI = metadata.ExternalURL) := by
  refine ⟨?_, ?_⟩
  · intro hempty
    have hv : ∃ msg, NFTManager.validateMetadata metadata = some msg := by
      unfold NFTManager.validateMetadata
      by_cases h1 : metadata.Name = ""
      · exact ⟨"NFT name cannot be empty", by simp only [h1, if_true]⟩
      · by_cases h2 : metadata.Description = ""
        · exact ⟨"NFT description cannot be empty", by simp only [h1, h2, if_true, if_false]⟩
        · by_cases h3 : metadata.Image = ""
          · exact ⟨"NFT image cannot be empty", by simp only [h1, h2, h3, if_true, if_false]⟩
          · rcases hempty with h | h | h
            · exact absurd h h1
            · exact absurd h h2
            · exact absurd h h3
    obtain ⟨msg, hmsg⟩ := hv
    simp only [NFTManager.CreateNFT, hinit, hmsg, Bool.not_true, Bool.false_eq_true, if_false,
      Outcome.err.injEq, exists_eq', and_self]
  · intro h1 h2 h3 _
    have hv : NFTManager.validateMetadata metadata = none := by
      simp only [NFTManager.validateMetadata, h1, h2, h3, if_false]
    simp only [NFTManager.CreateNFT, hinit, hv, Bool.not_true, Bool.false_eq_true, if_false,
      NFTManager.generateNFTID, true_and]
    exact ⟨_, GoMap.get?_set_self _ _ _, rfl, rfl, rfl⟩

theorem CreateNFT_validates_metadata_witness :
    (NFTManager.NewNFTManager.Initialize.2.CreateNFT "0x123" testMetadata "creator" true true
      "royaltyRecipient" 500 0 0).1 = Outcome.ret "0x123_Test NFT" ∧
    (∃ msg, (testNFTManager.CreateNFT "0x123" { testMetadata with Name := "" } "creator" true
      true "royaltyRecipient" 500 3 3).1 = Outcome.err msg) :=
  ⟨((CreateNFT_validates_metadata NFTManager.NewNFTManager.Initialize.2 "0x123" testMetadata
      "creator" true true "royaltyRecipient" 500 0 0 (by decide)).2
      (by decide) (by decide) (by decide) (by decide)).1,
    ((CreateNFT_validates_metadata testNFTManager "0x123" { testMetadata with Name := "" }
      "creator" true true "royaltyRecipient" 500 3 3 (by decide)).1 (Or.inl rfl)).1⟩

/-! # Theorems about the placeholder cryptography -/

/-- C14, evaluated at the failing input: `GenerateKeyPair` returns the private
key of 32 bytes 0 and the public key of 32 bytes 1 when the random source
delivers them, and decrypting with that private key what was encrypted with
that public key turns "Hello, World!" into "Idmmn-!Vnsme " instead of giving it
back, in `SecurityManager` and in `QuantumManager` alike. -/
theorem generated_key_pair_does_not_round_trip :
    SecurityManager.GenerateKeyPair (constSource 0) (constSource 1) =
      Outcome.ret (List.replicate 32 0, List.replicate 32 1) ∧
    QuantumManager.GenerateKeyPair (constSource 0) (constSource 1) =
      Outcome.ret { PublicKey := List.replicate 32 1, PrivateKey := List.replicate 32 0 } ∧
    decryptAfterEncrypt SecurityManager.Encrypt SecurityManager.Decrypt
      (List.replicate 32 0) (List.replicate 32 1) helloWorld =
      Outcome.ret [73, 100, 109, 109, 110, 45, 33, 86, 110, 115, 109, 101, 32] ∧
    decryptAfterEncrypt QuantumManager.Encrypt QuantumManager.Decrypt
      (List.replicate 32 0) (List.replicate 32 1) helloWorld =
      Outcome.ret [73, 100, 109, 109, 110, 45, 33, 86, 110, 115, 109, 101, 32] ∧
    decryptAfterEncrypt SecurityManager.Encrypt SecurityManager.Decrypt
      (List.replicate 32 0) (List.replicate 32 1) helloWorld ≠ Outcome.ret helloWorld ∧
    decryptAfterEncrypt QuantumManager.Encrypt QuantumManager.Decrypt
      (List.replicate 32 0) (List.replicate 32 1) helloWorld ≠ Outcome.ret helloWorld := by
  refine ⟨?_, ?_, ?_, ?_, ?_, ?_⟩ <;> decide

theorem range_map_getD (d : List Nat) : (List.range d.length).map (fun i => d.getD i 0) = d := by
  apply List.ext_getElem
  · simp
  · intro n h1 h2
    simp [List.getD_eq_getElem?_getD, List.getElem?_eq_getElem h2]

theorem xorWithKey_of_key_ne_nil (key data : List Nat) (hk : key ≠ []) :
    xorWithKey key data = Outcome.ret ((List.range data.length).map
      (fun i => data.getD i 0 ^^^ key.getD (i % key.length) 0)) := by
  unfold xorWithKey
  have hk' : ¬ key.length = 0 := fun c => hk (List.length_eq_zero.mp c)
  by_cases hd : data.length = 0
  · simp [hd]
  · simp [hd, hk']

theorem xorWithKey_length (key data out : List Nat) (h : xorWithKey key data = Outcome.ret out) :
    out.length = data.length := by
  unfold xorWithKey at h
  split at h
  · rename_i hd
    cases h
    simp [hd]
  · split at h
    · cases h
    · cases h
      simp

theorem getD_range_map (n i : Nat) (f : Nat → Nat) (hi : i < n) :
    ((List.range n).map f).getD i 0 = f i := by
  simp [List.getD_eq_getElem?_getD, List.getElem?_map, List.getElem?_range hi]

/-- Decrypting under `key'` what was encrypted under `key` gives the data back
only if the two keys supply the same byte at every index of the data. -/
theorem xorWithKey_round_trip_keys_agree (key key' data : List Nat) (hk : key ≠ [])
    (h : decryptAfterEncrypt xorWithKey xorWithKey key' key data = Outcome.ret data) :
    ∀ i, i < data.length → key.getD (i % key.length) 0 = key'.getD (i % key'.length) 0 := by
  intro i hi
  have hne : ¬ data.length = 0 := by omega
  unfold decryptAfterEncrypt at h
  rw [xorWithKey_of_key_ne_nil key data hk] at h
  simp only at h
  by_cases hk' : key' = []
  · subst hk'
    simp [xorWithKey, hne] at h
  · rw [xorWithKey_of_key_ne_nil key' _ hk'] at h
    simp only [Outcome.ret.injEq, List.length_map, List.length_range] at h
    have hi' := congrArg (fun l => l.getD i 0) h
    simp only [getD_range_map _ _ _ hi] at hi'
    rw [Nat.xor_assoc] at hi'
    have h0 : data.getD i 0 ^^^ (key.getD (i % key.length) 0 ^^^ key'.getD (i % key'.length) 0) =
        data.getD i 0 ^^^ 0 := by rw [hi', Nat.xor_zero]
    have h1 := Nat.xor_right_inj.mp h0
    exact Nat.xor_eq_zero.mp h1

/-- C15: the placeholder cipher (`Encrypt` and `Decrypt` of `SecurityManager`
and of `QuantumManager`) is a repeating-key XOR. For every non-empty key `k`
and all bytes `d`, `Encrypt(k, d)` returns a result of the length of `d` whose
byte `i` is `d[i] XOR k[i mod len(k)]`, and `Decrypt(k, ·)` turns it back into
`d`. Moreover, if `Decrypt(k', Encrypt(k, d)) = d` for all `d` of length `n`,
then `k[i mod len(k)] = k'[i mod len(k')]` for every index `i < n`. -/
theorem placeholder_cipher_is_repeating_xor (k : List Nat) (hk : k ≠ []) (d : List Nat) :
    (∃ e, SecurityManager.Encrypt k d = Outcome.ret e ∧ QuantumManager.Encrypt k d = Outcome.ret e ∧
      e.length = d.length ∧
      (∀ i, i < d.length → e.getD i 0 = d.getD i 0 ^^^ k.getD (i % k.length) 0) ∧
      SecurityManager.Decrypt k e = Outcome.ret d ∧ QuantumManager.Decrypt k e = Outcome.ret d) ∧
    (∀ (k' : List Nat) (n : Nat),
      (∀ d' : List Nat, d'.length = n →
        decryptAfterEncrypt SecurityManager.Encrypt SecurityManager.Decrypt k' k d' =
          Outcome.ret d') →
      ∀ i, i < n → k.getD (i % k.length) 0 = k'.getD (i % k'.length) 0) ∧
    (∀ (k' : List Nat) (n : Nat),
      (∀ d' : List Nat, d'.length = n →
        decryptAfterEncrypt QuantumManager.Encrypt QuantumManager.Decrypt k' k d' =
          Outcome.ret d') →
      ∀ i, i < n → k.getD (i % k.length) 0 = k'.getD (i % k'.length) 0) := by
  have honly : ∀ (k' : List Nat) (n : Nat),
      (∀ d' : List Nat, d'.length = n →
        decryptAfterEncrypt xorWithKey xorWithKey k' k d' = Outcome.ret d') →
      ∀ i, i < n → k.getD (i % k.length) 0 = k'.getD (i % k'.length) 0 := by
    intro k' n hall i hi
    have h := xorWithKey_round_trip_keys_agree k k' (List.replicate n 0) hk
      (hall _ (List.length_replicate n 0)) i
    rw [List.length_replicate] at h
    exact h hi
  refine ⟨⟨_, xorWithKey_of_key_ne_nil k d hk, xorWithKey_of_key_ne_nil k d hk, by simp, ?_,
    ?_, ?_⟩, honly, honly⟩
  · intro i hi
    exact getD_range_map _ _ _ hi
  all_goals
    simp only [SecurityManager.Decrypt, QuantumManager.Decrypt]
    rw [xorWithKey_of_key_ne_nil k _ hk]
    simp only [List.length_map, List.length_range, Outcome.ret.injEq]
    conv_rhs => rw [← range_map_getD d]
    apply List.map_congr_left
    intro i hi
    rw [List.mem_range] at hi
    rw [getD_range_map _ _ _ hi, Nat.xor_cancel_right]

theorem placeholder_cipher_is_repeating_xor_witness :
    ∃ e, SecurityManager.Encrypt [1, 2, 3] helloWorld = Outcome.ret e ∧
      QuantumManager.Encrypt [1, 2, 3] helloWorld = Outcome.ret e ∧
      e.length = helloWorld.length ∧
      SecurityManager.Decrypt [1, 2, 3] e = Outcome.ret helloWorld :=
  have ⟨e, h1, h2, h3, _, h5, _⟩ :=
    (placeholder_cipher_is_repeating_xor [1, 2, 3] (by decide) helloWorld).1
  ⟨e, h1, h2, h3, h5⟩

/-- C16, evaluated at the failing input: with the empty key and the data
"test", `QuantumManager.Encrypt` and `QuantumManager.Decrypt` return no error;
the index `i % len(key)` divides by zero and the call panics. -/
theorem empty_key_panics :
    QuantumManager.Encrypt [] testBytes = Outcome.panic "runtime error: integer divide by zero" ∧
    QuantumManager.Decrypt [] testBytes = Outcome.panic "runtime error: integer divide by zero" := by
  refine ⟨?_, ?_⟩ <;> decide

/-- C17, evaluated at the failing input: `QuantumManager.Sign` on empty data
returns a 64-byte signature and no error (the random source delivering the
byte 7), and `QuantumManager.Verify` on the empty signature returns true and
no error. -/
theorem empty_inputs_are_signed_and_verified :
    QuantumManager.Sign testBytes [] (constSource 7) = Outcome.ret (List.replicate 64 7) ∧
    QuantumManager.Verify testBytes testBytes [] = Outcome.ret true := by
  refine ⟨?_, ?_⟩ <;> decide

/-! # Theorems about `wallet.WalletManager` -/


/-- C18: `VerifySignature(address, message, signature)` returns `(true, nil)`
for every message and every signature whenever a wallet is stored under
`address`, returns `(false, error)` exactly when none is stored, never changes
the manager, and its result does not depend on the message or the signature. -/
theorem VerifySignature_ignores_signature (m : WalletManager) (address : String)
    (message signature : List Nat) :
    ((m.wallets.get? address).isSome = true →
      m.VerifySignature address message signature = (Outcome.ret true, m)) ∧
    ((∃ msg, (m.VerifySignature address message signature).1 = Outcome.err msg) ↔
      m.wallets.get? address = none) ∧
    (m.wallets.get? address = none →
      m.VerifySignature address message signature =
        (Outcome.err ("wallet not found: " ++ address), m)) ∧
    (∀ message' signature' : List Nat,
      m.VerifySignature address message' signature' =
        m.VerifySignature address message signature) := by
  unfold WalletManager.VerifySignature
  cases h : m.wallets.get? address with
  | none => simp
  | some w => simp

theorem VerifySignature_ignores_signature_witness :
    testWalletManager.VerifySignature "abababababababababababababababababababab" helloWorld
      (List.replicate 64 0) = (Outcome.ret true, testWalletManager) :=
  (VerifySignature_ignores_signature testWalletManager
    "abababababababababababababababababababab" helloWorld (List.replicate 64 0)).1 (by decide)

theorem randRead_length (n : Nat) (stream out : List Nat)
    (h : randRead n (RandSource.bytes stream) = Sum.inr out) : out.length = n := by
  simp only [randRead, Sum.inr.injEq] at h
  subst h
  simp

theorem WalletManager.ImportWallet_ok (m : WalletManager) (privateKey stream : List Nat)
    (tCreated tUpdated : Int) (hlen : privateKey.length = 32) :
    ∃ w : Wallet,
      m.ImportWallet privateKey (RandSource.bytes stream) tCreated tUpdated =
        (Outcome.ret w, WalletManager.mk (m.wallets.set w.Address w)) ∧
      w.PrivateKey = privateKey ∧ w.PublicKey.length = 32 ∧
      w.Address = hexEncodeToString (w.PublicKey.take 20) ∧ w.Balance = 0 ∧ w.Nonce = 0 := by
  refine ⟨{ Address := hexEncodeToString
              (((List.range 32).map (fun i => stream.getD i 0 % 256)).take 20),
            PrivateKey := privateKey,
            PublicKey := (List.range 32).map (fun i => stream.getD i 0 % 256),
            CreatedAt := tCreated, UpdatedAt := tUpdated, Balance := 0, Nonce := 0 },
    ?_, rfl, by simp, rfl, rfl, rfl⟩
  simp only [WalletManager.ImportWallet, hlen, ne_eq, not_true_eq_false, if_false, randRead]

/-- C19: with a random source that does not fail, `ImportWallet(privateKey)`
returns an error and leaves the wallets map unchanged if and only if
`len(privateKey) != 32`. When the length is 32 it returns a wallet that is
stored under its `Address`, whose `PrivateKey` is the input, whose `PublicKey`
has 32 bytes, whose `Address` is the lowercase hex encoding of the first 20
public-key bytes, and whose `Balance` and `Nonce` are 0. -/
theorem ImportWallet_accepts_exactly_32_bytes (m : WalletManager) (privateKey : List Nat)
    (stream : List Nat) (tCreated tUpdated : Int) :
    (((∃ msg, (m.ImportWallet privateKey (RandSource.bytes stream) tCreated tUpdated).1 =
          Outcome.err msg) ∧
        (m.ImportWallet privateKey (RandSource.bytes stream) tCreated tUpdated).2.wallets =
          m.wallets) ↔ privateKey.length ≠ 32) ∧
    (privateKey.length = 32 →
      ∃ w, (m.ImportWallet privateKey (RandSource.bytes stream) tCreated tUpdated).1 =
          Outcome.ret w ∧
        (m.ImportWallet privateKey (RandSource.bytes stream) tCreated tUpdated).2.wallets.get?
          w.Address = some w ∧
        w.PrivateKey = privateKey ∧ w.PublicKey.length = 32 ∧
        w.Address = hexEncodeToString (w.PublicKey.take 20) ∧
        w.Balance = 0 ∧ w.Nonce = 0) := by
  by_cases hlen : privateKey.length = 32
  · obtain ⟨w, hrun, h1, h2, h3, h4, h5⟩ :=
      WalletManager.ImportWallet_ok m privateKey stream tCreated tUpdated hlen
    rw [hrun]
    refine ⟨?_, ?_⟩
    · simp [hlen]
    · intro _
      exact ⟨w, rfl, GoMap.get?_set_self _ _ _, h1, h2, h3, h4, h5⟩
  · have hrun : m.ImportWallet privateKey (RandSource.bytes stream) tCreated tUpdated =
        (Outcome.err ("invalid private key length: " ++ toString privateKey.length), m) := by
      simp only [WalletManager.ImportWallet, hlen, ne_eq, not_false_eq_true, if_true]
    rw [hrun]
    refine ⟨?_, fun h => absurd h hlen⟩
    simp [hlen]

theorem ImportWallet_accepts_exactly_32_bytes_witness :
    ∃ w, (testWalletManager.ImportWallet (List.replicate 32 9) (constSource 205) 20 21).1 =
        Outcome.ret w ∧
      w.PrivateKey = List.replicate 32 9 ∧
      w.Address = hexEncodeToString (w.PublicKey.take 20) :=
  have ⟨w, h1, _, h3, _, h5, _⟩ :=
    (ImportWallet_accepts_exactly_32_bytes testWalletManager (List.replicate 32 9)
      (List.replicate 64 205) 20 21).2 (by decide)
  ⟨w, h1, h3, h5⟩

/-- C20: for every 32-byte `privateKey` and every manager state, if
`ImportWallet(privateKey)` returns the wallet `w`, then `ExportWallet(w.Address)`
on the resulting manager returns exactly `privateKey`; and if `CreateWallet`
returns the wallet `w`, then `ExportWallet(w.Address)` returns `w.PrivateKey`,
which has 32 bytes. -/
theorem ExportWallet_undoes_import (m : WalletManager) (privateKey : List Nat)
    (srcPrivate srcPublic : RandSource) (tCreated tUpdated : Int) (w : Wallet) :
    (privateKey.length = 32 →
      (m.ImportWallet privateKey srcPublic tCreated tUpdated).1 = Outcome.ret w →
      ((m.ImportWallet privateKey srcPublic tCreated tUpdated).2.ExportWallet w.Address).1 =
        Outcome.ret privateKey) ∧
    ((m.CreateWallet srcPrivate srcPublic tCreated tUpdated).1 = Outcome.ret w →
      ((m.CreateWallet srcPrivate srcPublic tCreated tUpdated).2.ExportWallet w.Address).1 =
        Outcome.ret w.PrivateKey ∧
      w.PrivateKey.length = 32) := by
  refine ⟨?_, ?_⟩
  · intro hlen hret
    unfold WalletManager.ImportWallet at hret ⊢
    simp only [hlen, ne_eq, not_true_eq_false, if_false] at hret ⊢
    cases hr : randRead 32 srcPublic with
    | inl e => simp [hr] at hret
    | inr publicKey =>
      simp only [hr, Outcome.ret.injEq] at hret ⊢
      subst hret
      simp only [WalletManager.ExportWallet, GoMap.get?_set_self]
  · intro hret
    unfold WalletManager.CreateWallet at hret ⊢
    cases hp : randRead 32 srcPrivate with
    | inl e => simp [hp] at hret
    | inr privKey =>
      cases hr : randRead 32 srcPublic with
      | inl e => simp [hp, hr] at hret
      | inr publicKey =>
        simp only [hp, hr, Outcome.ret.injEq] at hret ⊢
        subst hret
        simp only [WalletManager.ExportWallet, GoMap.get?_set_self, true_and]
        cases srcPrivate with
        | fails msg => simp [randRead] at hp
        | bytes stream => exact randRead_length 32 stream privKey hp

theorem ExportWallet_undoes_import_witness :
    ((testWalletManager.ImportWallet (List.replicate 32 9) (constSource 205) 20 21).2.ExportWallet
      "cdcdcdcdcdcdcdcdcdcdcdcdcdcdcdcdcdcdcdcd").1 = Outcome.ret (List.replicate 32 9) :=
  (ExportWallet_undoes_import testWalletManager (List.replicate 32 9) (constSource 0)
    (constSource 205) 20 21
    { Address := "cdcdcdcdcdcdcdcdcdcdcdcdcdcdcdcdcdcdcdcd", PrivateKey := List.replicate 32 9,
      PublicKey := List.replicate 32 205, CreatedAt := 20, UpdatedAt := 21, Balance := 0,
      Nonce := 0 }).1 (by decide) (by decide)

/-! # Theorems about the initialization guards and `database.DatabaseManager` -/

/-- C21: `NFTManager.Initialize` returns nil and sets `initialized` on a
manager that is not initialized (the fresh one of `NewNFTManager` included),
and returns the error "NFTManager already initialized" if and only if the
manager is already initialized, in which case the manager (stored NFTs and
indices) is unchanged. `DatabaseManager.Initialize` behaves the same way with
"DatabaseManager already initialized": on success it stores the config and on
the failing call the stored config is not replaced. -/
theorem Initialize_guards_double_initialization (nm : NFTManager) (d : DatabaseManager)
    (config : Option DatabaseConfig) :
    NFTManager.NewNFTManager.Initialize =
      (Outcome.ret (), { NFTManager.NewNFTManager with initialized := true }) ∧
    (nm.initialized = false →
      nm.Initialize = (Outcome.ret (), { nm with initialized := true })) ∧
    (nm.Initialize.1 = Outcome.err "NFTManager already initialized" ↔
      nm.initialized = true) ∧
    (nm.initialized = true → nm.Initialize.2 = nm) ∧
    (DatabaseManager.NewDatabaseManager.Initialize config).1 = Outcome.ret () ∧
    (d.initialized = false →
      d.Initialize config =
        (Outcome.ret (), { d with config := config, initialized := true })) ∧
    ((d.Initialize config).1 = Outcome.err "DatabaseManager already initialized" ↔
      d.initialized = true) ∧
    (d.initialized = true → (d.Initialize config).2 = d) := by
  refine ⟨rfl, ?_, ?_, ?_, rfl, ?_, ?_, ?_⟩
  · intro h
    simp [NFTManager.Initialize, h]
  · cases h : nm.initialized <;> simp [NFTManager.Initialize, h]
  · intro h
    simp [NFTManager.Initialize, h]
  · intro h
    simp [DatabaseManager.Initialize, h]
  · cases h : d.initialized <;> simp [DatabaseManager.Initialize, h]
  · intro h
    simp [DatabaseManager.Initialize, h]

/-- C23, evaluated at the failing inputs: an initialized, not yet connected
manager configured with one of the declared types "aws", "azure" or
"google_cloud" answers `Connect` with "Unsupported database type: ..." and
stays disconnected. Of the ten declared types exactly the other seven
connect. -/
theorem Connect_rejects_declared_cloud_types :
    (initializedDatabase DatabaseTypeAWS).Connect =
      (Outcome.err "Unsupported database type: aws", initializedDatabase DatabaseTypeAWS) ∧
    (initializedDatabase DatabaseTypeAzure).Connect =
      (Outcome.err "Unsupported database type: azure", initializedDatabase DatabaseTypeAzure) ∧
    (initializedDatabase DatabaseTypeGoogleCloud).Connect =
      (Outcome.err "Unsupported database type: google_cloud",
        initializedDatabase DatabaseTypeGoogleCloud) ∧
    (initializedDatabase DatabaseTypeAWS).Connect.2.IsConnected = false ∧
    declaredDatabaseTypes.filter
        (fun t => (initializedDatabase t).Connect.1 = Outcome.ret () ∧
          (initializedDatabase t).Connect.2.IsConnected = true) =
      [DatabaseTypeSQLite, DatabaseTypePostgreSQL, DatabaseTypeMySQL, DatabaseTypeRedis,
        DatabaseTypeMongoDB, DatabaseTypeSupabase, DatabaseTypeFirebase] := by
  refine ⟨?_, ?_, ?_, ?_, ?_⟩ <;> decide

/-! # Theorems about the audit log of `security.SecurityManager` -/


theorem getD_append_singleton_left {α : Type} (l : List α) (x d : α) (i : Nat)
    (h : i < l.length) : (l ++ [x]).getD i d = l.getD i d := by
  simp [List.getD_eq_getElem?_getD, List.getElem?_append_left h]

theorem getD_append_singleton_length {α : Type} (l : List α) (x d : α) :
    (l ++ [x]).getD l.length d = x := by
  simp [List.getD_eq_getElem?_getD]

theorem getD_set_self {α : Type} (l : List α) (x d : α) (i : Nat) (h : i < l.length) :
    (l.set i x).getD i d = x := by
  simp [List.getD_eq_getElem?_getD, List.getElem?_set_self, h]

theorem getD_set_ne {α : Type} (l : List α) (x d : α) (i j : Nat) (h : i ≠ j) :
    (l.set i x).getD j d = l.getD j d := by
  simp [List.getD_eq_getElem?_getD, List.getElem?_set_ne h]

theorem EventSlice.read_congr (heap heap' : EventArrays) (s s' : EventSlice)
    (hlen : s'.len = s.len) (h : heap'.getD s'.array [] = heap.getD s.array []) :
    EventSlice.read heap' s' = EventSlice.read heap s := by
  simp only [EventSlice.read, hlen, h]

theorem EventSlice.read_length (heap : EventArrays) (s : EventSlice) :
    (EventSlice.read heap s).length = s.len := by
  simp [EventSlice.read]

theorem range_map_getD_option {α : Type} (l : List (Option α)) :
    (List.range l.length).map (fun i => l.getD i none) = l := by
  apply List.ext_getElem
  · simp
  · intro n h1 h2
    simp [List.getD_eq_getElem?_getD, List.getElem?_eq_getElem h2]

/-- Appending one event adds it after the elements the slice had. -/
theorem EventSlice.read_append (grow : Nat → Nat) (heap : EventArrays) (s : EventSlice)
    (e : AuditEvent) (h1 : s.array < heap.length) :
    EventSlice.read (EventSlice.append grow heap s e).1 (EventSlice.append grow heap s e).2 =
      EventSlice.read heap s ++ [some e] := by
  unfold EventSlice.append
  by_cases hroom : s.len < (heap.getD s.array []).length
  · simp only [hroom, if_true, EventSlice.read, List.range_succ, List.map_append, List.map_cons,
      List.map_nil, getD_set_self heap _ [] s.array h1]
    congr 1
    · apply List.map_congr_left
      intro i hi
      rw [List.mem_range] at hi
      exact getD_set_ne _ _ _ _ _ (by omega)
    · rw [getD_set_self _ _ _ _ hroom]
  · simp only [hroom, if_false, EventSlice.read, List.range_succ, List.map_append, List.map_cons,
      List.map_nil, getD_append_singleton_length]
    congr 1
    · apply List.map_congr_left
      intro i hi
      rw [List.mem_range] at hi
      simp [List.getD_eq_getElem?_getD, List.getElem?_append_left, hi, List.getElem?_range]
    · generalize hL : (List.range s.len).map
        (fun i => (heap.getD s.array []).getD i none) = L
      have hlen : L.length = s.len := by rw [← hL]; simp
      rw [← hlen, List.append_assoc, List.getD_eq_getElem?_getD,
        List.getElem?_append_right (le_refl _), Nat.sub_self]
      simp

/-- Appending keeps the slice inside an allocated array. -/
theorem EventSlice.append_wellFormed (grow : Nat → Nat) (heap : EventArrays) (s : EventSlice)
    (e : AuditEvent) (h1 : s.array < heap.length) :
    (EventSlice.append grow heap s e).2.array < (EventSlice.append grow heap s e).1.length ∧
    (EventSlice.append grow heap s e).2.len ≤
      ((EventSlice.append grow heap s e).1.getD (EventSlice.append grow heap s e).2.array
        []).length := by
  unfold EventSlice.append
  by_cases hroom : s.len < (heap.getD s.array []).length
  · simp only [hroom, if_true, List.length_set, getD_set_self heap _ [] s.array h1]
    exact ⟨h1, hroom⟩
  · simp only [hroom, if_false, getD_append_singleton_length, List.length_append,
      List.length_singleton, List.length_map, List.length_range, List.length_replicate]
    omega

theorem SecurityManager.logAll_read (grow : Nat → Nat) (calls : List LogCall) :
    ∀ (heap : EventArrays) (m : SecurityManager), m.WellFormed heap →
      (SecurityManager.logAll grow heap m calls).2.WellFormed
        (SecurityManager.logAll grow heap m calls).1 ∧
      EventSlice.read (SecurityManager.logAll grow heap m calls).1
          (SecurityManager.logAll grow heap m calls).2.auditLog =
        EventSlice.read heap m.auditLog ++ calls.map (fun c => some c.event) := by
  induction calls with
  | nil =>
    intro heap m h
    exact ⟨h, by simp [SecurityManager.logAll]⟩
  | cons c rest ih =>
    intro heap m h
    have hwf := EventSlice.append_wellFormed grow heap m.auditLog c.event h.1
    have hread := EventSlice.read_append grow heap m.auditLog c.event h.1
    have hstep := ih
      (SecurityManager.LogAuditEvent grow heap m c.eventType c.message c.data c.idSource
        c.now).2.1
      (SecurityManager.LogAuditEvent grow heap m c.eventType c.message c.data c.idSource
        c.now).2.2 hwf
    refine ⟨hstep.1, ?_⟩
    simp only [SecurityManager.logAll]
    rw [hstep.2]
    simp only [LogCall.event] at hread
    simp only [SecurityManager.LogAuditEvent, List.map_cons, hread, LogCall.event]
    simp

theorem loggedState_read (grow : Nat → Nat) (heap : EventArrays) (calls : List LogCall) :
    (loggedState grow heap calls).2.WellFormed (loggedState grow heap calls).1 ∧
    EventSlice.read (loggedState grow heap calls).1 (loggedState grow heap calls).2.auditLog =
      calls.map (fun c => some c.event) := by
  have hwf : (SecurityManager.NewSecurityManager heap).2.WellFormed
      (SecurityManager.NewSecurityManager heap).1 := by
    simp [SecurityManager.NewSecurityManager, SecurityManager.WellFormed]
  have h := SecurityManager.logAll_read grow calls _ _ hwf
  refine ⟨h.1, ?_⟩
  unfold loggedState
  rw [h.2]
  simp [SecurityManager.NewSecurityManager, EventSlice.read]

/-- What `GetAuditLog` returns holds the elements of the audit log. -/
theorem SecurityManager.GetAuditLog_read (heap : EventArrays) (m : SecurityManager) :
    EventSlice.read (m.GetAuditLog heap).2 (m.GetAuditLog heap).1 =
      EventSlice.read heap m.auditLog := by
  simp only [SecurityManager.GetAuditLog, EventSlice.read, getD_append_singleton_length]
  have h := range_map_getD_option
    ((List.range m.auditLog.len).map (fun i => (heap.getD m.auditLog.array []).getD i none))
  simp only [List.length_map, List.length_range] at h
  exact h

/-- C22: after `NewSecurityManager` and any `LogAuditEvent` calls,
`LogAuditEvent(type, message, data)` returns nil and appends exactly one event
carrying those three values at the end of the log; `GetAuditLog` returns all
logged events in logging order, as many as there were `LogAuditEvent` calls,
and leaves the log as it was; and whatever the caller then writes into the
array of the returned slice, a later `GetAuditLog` returns the same events. -/
theorem audit_log_is_append_only_snapshot (grow : Nat → Nat) (heap : EventArrays)
    (calls : List LogCall) (c : LogCall) (cells : List (Option AuditEvent)) :
    (SecurityManager.LogAuditEvent grow (loggedState grow heap calls).1
      (loggedState grow heap calls).2 c.eventType c.message c.data c.idSource c.now).1 =
        Outcome.ret () ∧
    EventSlice.read
        (SecurityManager.LogAuditEvent grow (loggedState grow heap calls).1
          (loggedState grow heap calls).2 c.eventType c.message c.data c.idSource c.now).2.1
        (SecurityManager.LogAuditEvent grow (loggedState grow heap calls).1
          (loggedState grow heap calls).2 c.eventType c.message c.data c.idSource
          c.now).2.2.auditLog =
      EventSlice.read (loggedState grow heap calls).1 (loggedState grow heap calls).2.auditLog ++
        [some c.event] ∧
    (c.event.Type' = c.eventType ∧ c.event.Message = c.message ∧ c.event.Data = c.data) ∧
    EventSlice.read ((loggedState grow heap calls).2.GetAuditLog (loggedState grow heap calls).1).2
        ((loggedState grow heap calls).2.GetAuditLog (loggedState grow heap calls).1).1 =
      calls.map (fun call => some call.event) ∧
    ((loggedState grow heap calls).2.GetAuditLog (loggedState grow heap calls).1).1.len =
      calls.length ∧
    EventSlice.read
        ((loggedState grow heap calls).2.GetAuditLog (loggedState grow heap calls).1).2
        (loggedState grow heap calls).2.auditLog =
      calls.map (fun call => some call.event) ∧
    EventSlice.read
        ((loggedState grow heap calls).2.GetAuditLog
          (callerOverwrites
            ((loggedState grow heap calls).2.GetAuditLog (loggedState grow heap calls).1).2
            ((loggedState grow heap calls).2.GetAuditLog (loggedState grow heap calls).1).1
            cells)).2
        ((loggedState grow heap calls).2.GetAuditLog
          (callerOverwrites
            ((loggedState grow heap calls).2.GetAuditLog (loggedState grow heap calls).1).2
            ((loggedState grow heap calls).2.GetAuditLog (loggedState grow heap calls).1).1
            cells)).1 =
      calls.map (fun call => some call.event) := by
  obtain ⟨hwf, hlog⟩ := loggedState_read grow heap calls
  generalize loggedState grow heap calls = st at hwf hlog ⊢
  obtain ⟨h, m⟩ := st
  simp only at hwf hlog ⊢
  have hkeep : EventSlice.read (m.GetAuditLog h).2 m.auditLog = EventSlice.read h m.auditLog :=
    EventSlice.read_congr _ _ _ _ rfl (getD_append_singleton_left _ _ _ _ hwf.1)
  refine ⟨rfl, ?_, ⟨rfl, rfl, rfl⟩, ?_, ?_, ?_, ?_⟩
  · exact EventSlice.read_append grow h m.auditLog c.event hwf.1
  · rw [SecurityManager.GetAuditLog_read, hlog]
  · have hl := EventSlice.read_length h m.auditLog
    rw [hlog, List.length_map] at hl
    exact hl.symm
  · rw [hkeep, hlog]
  · rw [SecurityManager.GetAuditLog_read, ← hlog, ← hkeep]
    apply EventSlice.read_congr _ _ _ _ rfl
    simp only [callerOverwrites, SecurityManager.GetAuditLog]
    exact getD_set_ne _ _ _ _ _ (by have := hwf.1; omega)

/-! # Theorems about `satox_bindings.AssetManager` -/

namespace Bindings

theorem AssetManager.CreateAsset_refused (sha256 : List Nat → List Nat) (m : AssetManager)
    (name symbol description owner : String) (totalSupply decimals : Nat)
    (metadata : Option (GoMap String)) (tCreated tUpdated : Int)
    (hinit : m.initialized = true)
    (h : AssetManager.Refused sha256 m name symbol description owner totalSupply decimals) :
    (∃ msg, (AssetManager.CreateAsset sha256 m name symbol description owner totalSupply
      decimals metadata tCreated tUpdated).1 = Outcome.err msg) ∧
    (AssetManager.CreateAsset sha256 m name symbol description owner totalSupply decimals
      metadata tCreated tUpdated).2 = m := by
  unfold AssetManager.CreateAsset
  simp only [hinit, Bool.not_true, Bool.false_eq_true, if_false]
  split
  · exact ⟨⟨_, rfl⟩, rfl⟩
  split
  · exact ⟨⟨_, rfl⟩, rfl⟩
  split
  · exact ⟨⟨_, rfl⟩, rfl⟩
  split
  · exact ⟨⟨_, rfl⟩, rfl⟩
  split
  · exact ⟨⟨_, rfl⟩, rfl⟩
  split
  · exact ⟨⟨_, rfl⟩, rfl⟩
  split
  · exact ⟨⟨_, rfl⟩, rfl⟩
  split
  · exact ⟨⟨_, rfl⟩, rfl⟩
  split
  · exact ⟨⟨_, rfl⟩, rfl⟩
  · rename_i h1 h2 h3 h4 h5 h6 h7 h8 _ h9
    unfold AssetManager.Refused at h
    rw [h9] at h
    simp only [Option.isSome_none, Bool.false_eq_true, or_false] at h
    rcases h with h | h | h | h | h | h | h | h
    · exact absurd h h1
    · exact absurd h h2
    · exact absurd h h3
    · exact absurd h h4
    · exact absurd h h5
    · exact absurd h h6
    · exact absurd h h7
    · exact absurd h h8

theorem AssetManager.CreateAsset_accepted (sha256 : List Nat → List Nat) (m : AssetManager)
    (name symbol description owner : String) (totalSupply decimals : Nat)
    (metadata : Option (GoMap String)) (tCreated tUpdated : Int)
    (hinit : m.initialized = true)
    (h : ¬ AssetManager.Refused sha256 m name symbol description owner totalSupply decimals) :
    AssetManager.CreateAsset sha256 m name symbol description owner totalSupply decimals
        metadata tCreated tUpdated =
      (Outcome.ret
        { AssetID := AssetManager.generateAssetID sha256 name symbol owner, Name := name,
          Symbol := symbol, Description := description, TotalSupply := totalSupply,
          Decimals := decimals, Owner := owner, Created := tCreated, LastUpdated := tUpdated,
          Metadata := metadata, Transferable := true, Divisible := decide (decimals > 0),
          Reissuable := false, IPFSHash := "", BlockHeight := 0, TransactionID := "" },
        AssetManager.mk m.initialized
          (m.assets.set (AssetManager.generateAssetID sha256 name symbol owner)
            { AssetID := AssetManager.generateAssetID sha256 name symbol owner, Name := name,
              Symbol := symbol, Description := description, TotalSupply := totalSupply,
              Decimals := decimals, Owner := owner, Created := tCreated,
              LastUpdated := tUpdated, Metadata := metadata, Transferable := true,
              Divisible := decide (decimals > 0), Reissuable := false, IPFSHash := "",
              BlockHeight := 0, TransactionID := "" })
          m.config) := by
  unfold AssetManager.Refused at h
  simp only [not_or] at h
  obtain ⟨h1, h2, h3, h4, h5, h6, h7, h8, h9⟩ := h
  have h9' : m.assets.get? (AssetManager.generateAssetID sha256 name symbol owner) = none := by
    cases hg : m.assets.get? (AssetManager.generateAssetID sha256 name symbol owner) with
    | none => rfl
    | some a => simp [hg] at h9
  simp only [AssetManager.CreateAsset, hinit, Bool.not_true, Bool.false_eq_true, if_false, h1,
    h2, h3, h4, h5, h6, h7, h8, h9']

end Bindings

/-- C24: on an initialized `satox_bindings.AssetManager`, `CreateAsset`
returns an error without changing the assets map if and only if name, symbol
or owner is empty, totalSupply is 0, `len(name) > 32`, `len(symbol) > 5`,
`len(description) > 1000`, `decimals > 18`, or an asset with the id generated
from (name, symbol, owner) is already stored. Otherwise it returns an asset
with the given fields, `Transferable = true`, `Reissuable = false` and
`Divisible = (decimals > 0)`, stored under its id. -/
theorem CreateAsset_validation_is_exact (sha256 : List Nat → List Nat)
    (m : Bindings.AssetManager) (name symbol description owner : String)
    (totalSupply decimals : Nat) (metadata : Option (GoMap String)) (tCreated tUpdated : Int)
    (hinit : m.initialized = true) :
    (((∃ msg, (Bindings.AssetManager.CreateAsset sha256 m name symbol description owner
          totalSupply decimals metadata tCreated tUpdated).1 = Outcome.err msg) ∧
        (Bindings.AssetManager.CreateAsset sha256 m name symbol description owner totalSupply
          decimals metadata tCreated tUpdated).2.assets = m.assets) ↔
      Bindings.AssetManager.Refused sha256 m name symbol description owner totalSupply
        decimals) ∧
    (¬ Bindings.AssetManager.Refused sha256 m name symbol description owner totalSupply
        decimals →
      ∃ a, (Bindings.AssetManager.CreateAsset sha256 m name symbol description owner
          totalSupply decimals metadata tCreated tUpdated).1 = Outcome.ret a ∧
        (Bindings.AssetManager.CreateAsset sha256 m name symbol description owner totalSupply
          decimals metadata tCreated tUpdated).2.assets.get? a.AssetID = some a ∧
        a.AssetID = Bindings.AssetManager.generateAssetID sha256 name symbol owner ∧
        a.Name = name ∧ a.Symbol = symbol ∧ a.Description = description ∧ a.Owner = owner ∧
        a.TotalSupply = totalSupply ∧ a.Decimals = decimals ∧ a.Metadata = metadata ∧
        a.Transferable = true ∧ a.Reissuable = false ∧
        a.Divisible = decide (decimals > 0)) := by
  by_cases h : Bindings.AssetManager.Refused sha256 m name symbol description owner totalSupply
      decimals
  · obtain ⟨h1, h2⟩ := Bindings.AssetManager.CreateAsset_refused sha256 m name symbol
      description owner totalSupply decimals metadata tCreated tUpdated hinit h
    exact ⟨⟨fun _ => h, fun _ => ⟨h1, by rw [h2]⟩⟩, fun c => absurd h c⟩
  · have hrun := Bindings.AssetManager.CreateAsset_accepted sha256 m name symbol description
      owner totalSupply decimals metadata tCreated tUpdated hinit h
    rw [hrun]
    refine ⟨⟨?_, fun c => absurd c h⟩, fun _ => ?_⟩
    · rintro ⟨⟨msg, hmsg⟩, _⟩
      cases hmsg
    · exact ⟨_, rfl, GoMap.get?_set_self _ _ _, rfl, rfl, rfl, rfl, rfl, rfl, rfl, rfl, rfl,
        rfl, rfl⟩

theorem CreateAsset_validation_is_exact_witness :
    ∃ a, (Bindings.AssetManager.CreateAsset stubSha256
        Bindings.AssetManager.NewAssetManager.Initialize.2 "Gold" "GLD" "a test asset" "alice"
        1000 8 none 1 2).1 = Outcome.ret a ∧
      a.Name = "Gold" ∧ a.Reissuable = false ∧ a.Divisible = true :=
  have ⟨a, h1, _, _, h4, _, _, _, _, _, _, _, h12, h13⟩ :=
    (CreateAsset_validation_is_exact stubSha256
      Bindings.AssetManager.NewAssetManager.Initialize.2 "Gold" "GLD" "a test asset" "alice"
      1000 8 none 1 2 (by decide)).2 (by decide)
  ⟨a, h1, h4, h12, h13⟩

theorem GoMap.get?_set_cases {V : Type} (m : GoMap V) (k k' : String) (v a : V)
    (h : (m.set k v).get? k' = some a) : (k' = k ∧ a = v) ∨ (k' ≠ k ∧ m.get? k' = some a) := by
  by_cases hk : k' = k
  · subst hk
    rw [GoMap.get?_set_self] at h
    exact Or.inl ⟨rfl, (Option.some.inj h).symm⟩
  · rw [GoMap.get?_set_ne _ _ _ _ hk] at h
    exact Or.inr ⟨hk, h⟩

/-- No stored asset of a reachable `satox_bindings.AssetManager` is
reissuable. -/
theorem Bindings.AssetManager.reachable_not_reissuable (sha256 : List Nat → List Nat)
    (m : Bindings.AssetManager) (hr : Bindings.AssetManager.Reachable sha256 m) :
    ∀ id a, m.assets.get? id = some a → a.Reissuable = false := by
  induction hr with
  | start =>
    intro id a h
    simp [Bindings.AssetManager.NewAssetManager, GoMap.get?_empty] at h
  | init m _ ih =>
    unfold Bindings.AssetManager.Initialize
    split <;> exact ih
  | shut m _ ih =>
    unfold Bindings.AssetManager.Shutdown
    split
    · exact ih
    · intro id a h
      simp [GoMap.get?_empty] at h
  | create m name symbol description owner totalSupply decimals metadata tCreated tUpdated _ ih =>
    by_cases hinit : m.initialized = true
    · by_cases hrf : Bindings.AssetManager.Refused sha256 m name symbol description owner
          totalSupply decimals
      · rw [(Bindings.AssetManager.CreateAsset_refused sha256 m name symbol description owner
          totalSupply decimals metadata tCreated tUpdated hinit hrf).2]
        exact ih
      · rw [Bindings.AssetManager.CreateAsset_accepted sha256 m name symbol description owner
          totalSupply decimals metadata tCreated tUpdated hinit hrf]
        intro id a h
        rcases GoMap.get?_set_cases _ _ _ _ _ h with ⟨_, ha⟩ | ⟨_, ha⟩
        · rw [ha]
        · exact ih id a ha
    · have hrun : (Bindings.AssetManager.CreateAsset sha256 m name symbol description owner
          totalSupply decimals metadata tCreated tUpdated).2 = m := by
        simp [Bindings.AssetManager.CreateAsset, hinit]
      rw [hrun]
      exact ih
  | update m assetID description metadata now _ ih =>
    unfold Bindings.AssetManager.UpdateAsset
    split
    · exact ih
    split
    · exact ih
    split
    · exact ih
    · rename_i asset hasset
      split
      · exact ih
      · intro id a h
        rcases GoMap.get?_set_cases _ _ _ _ _ h with ⟨_, ha⟩ | ⟨_, ha⟩
        · rw [ha]
          exact ih assetID asset hasset
        · exact ih id a ha
  | reissue m assetID owner additionalSupply now _ ih =>
    unfold Bindings.AssetManager.ReissueAsset
    split
    · exact ih
    split
    · exact ih
    split
    · exact ih
    split
    · exact ih
    split
    · exact ih
    · rename_i asset hasset
      split
      · exact ih
      split
      · exact ih
      · intro id a h
        rcases GoMap.get?_set_cases _ _ _ _ _ h with ⟨_, ha⟩ | ⟨_, ha⟩
        · rw [ha]
          exact ih assetID asset hasset
        · exact ih id a ha
  | burn m assetID owner amount now _ ih =>
    unfold Bindings.AssetManager.BurnAsset
    split
    · exact ih
    split
    · exact ih
    split
    · exact ih
    split
    · exact ih
    split
    · exact ih
    · rename_i asset hasset
      split
      · exact ih
      split
      · exact ih
      · intro id a h
        rcases GoMap.get?_set_cases _ _ _ _ _ h with ⟨_, ha⟩ | ⟨_, ha⟩
        · rw [ha]
          exact ih assetID asset hasset
        · exact ih id a ha
  | config m newConfig _ ih =>
    unfold Bindings.AssetManager.UpdateConfig
    split <;> exact ih

/-- C25 fails as stated: for the asset "Gold" that `CreateAsset` stored for
"alice" with a total supply of 1000, `ReissueAsset(id, "alice", 5)` returns
"asset is not reissuable" and the total supply stays 1000. -/
theorem ReissueAsset_refuses_created_asset :
    (Bindings.testAssetManager.assets.get? Bindings.testAssetID).map
      (fun a => (a.Owner, a.TotalSupply)) = some ("alice", 1000) ∧
    (Bindings.testAssetManager.ReissueAsset Bindings.testAssetID "alice" 5 9).1 =
      Outcome.err "asset is not reissuable" ∧
    (Bindings.testAssetManager.ReissueAsset Bindings.testAssetID "alice" 5 9).1 ≠
      Outcome.ret () ∧
    ((Bindings.testAssetManager.ReissueAsset Bindings.testAssetID "alice" 5
      9).2.assets.get? Bindings.testAssetID).map (fun a => a.TotalSupply) = some 1000 := by
  refine ⟨?_, ?_, ?_, ?_⟩ <;> decide

/-- C25 (amended): `CreateAsset` stores every asset with `Reissuable = false`
and no operation sets the flag, so in every state that the public operations
of `satox_bindings.AssetManager` can reach `ReissueAsset` never returns nil
and never changes the manager; called on an initialized manager for a stored
asset with the asset's owner and `additionalSupply > 0`, it returns the error
"asset is not reissuable". -/
theorem ReissueAsset_never_increases_supply (sha256 : List Nat → List Nat)
    (m : Bindings.AssetManager) (hr : Bindings.AssetManager.Reachable sha256 m)
    (assetID owner : String) (additionalSupply : Nat) (now : Int) :
    (m.ReissueAsset assetID owner additionalSupply now).1 ≠ Outcome.ret () ∧
    (m.ReissueAsset assetID owner additionalSupply now).2 = m ∧
    (m.initialized = true → assetID ≠ "" → owner ≠ "" → additionalSupply > 0 →
      ∀ a, m.assets.get? assetID = some a → a.Owner = owner →
        (m.ReissueAsset assetID owner additionalSupply now).1 =
          Outcome.err "asset is not reissuable") := by
  have hinv := Bindings.AssetManager.reachable_not_reissuable sha256 m hr
  refine ⟨?_, ?_, ?_⟩
  · unfold Bindings.AssetManager.ReissueAsset
    split
    · simp
    split
    · simp
    split
    · simp
    split
    · simp
    split
    · simp
    · rename_i asset hasset
      simp only [hinv assetID asset hasset, Bool.not_false, if_true]
      split <;> simp
  · unfold Bindings.AssetManager.ReissueAsset
    split
    · rfl
    split
    · rfl
    split
    · rfl
    split
    · rfl
    split
    · rfl
    · rename_i asset hasset
      simp only [hinv assetID asset hasset, Bool.not_false, if_true]
      split <;> rfl
  · intro hinit hid hown hadd a ha hao
    have hadd' : ¬ additionalSupply = 0 := by omega
    simp [Bindings.AssetManager.ReissueAsset, hinit, hid, hown, hadd', ha, hao,
      hinv assetID a ha]

theorem ReissueAsset_never_increases_supply_witness :
    (Bindings.testAssetManager.ReissueAsset Bindings.testAssetID "alice" 5 9).2 =
      Bindings.testAssetManager :=
  (ReissueAsset_never_increases_supply stubSha256 Bindings.testAssetManager
    (Bindings.AssetManager.Reachable.create _ _ _ _ _ _ _ _ _ _
      (Bindings.AssetManager.Reachable.init _ Bindings.AssetManager.Reachable.start))
    Bindings.testAssetID "alice" 5 9).2.1

theorem subUInt64_of_le (a b : Nat) (hb : b ≤ a) (ha : a < 2 ^ 64) : subUInt64 a b = a - b := by
  unfold subUInt64
  have h1 : b % 2 ^ 64 = b := Nat.mod_eq_of_lt (by omega)
  rw [h1]
  omega

/-- C26: on an initialized `satox_bindings.AssetManager`,
`BurnAsset(assetID, owner, amount)` returns nil if and only if assetID and
owner are non-empty, `amount > 0`, the asset is stored, its `Owner` equals
owner and `amount <= TotalSupply`. On success the stored asset is the old one
with `LastUpdated` set to the clock and `TotalSupply` lowered by amount as a
natural number (the `uint64` subtraction does not wrap for a `uint64` supply),
and no other asset changes; on every error the manager is unchanged. -/
theorem BurnAsset_never_underflows (m : Bindings.AssetManager) (assetID owner : String)
    (amount : Nat) (now : Int) (hinit : m.initialized = true) :
    ((m.BurnAsset assetID owner amount now).1 = Outcome.ret () ↔
      assetID ≠ "" ∧ owner ≠ "" ∧ amount > 0 ∧
        ∃ a, m.assets.get? assetID = some a ∧ a.Owner = owner ∧ amount ≤ a.TotalSupply) ∧
    ((m.BurnAsset assetID owner amount now).1 = Outcome.ret () →
      (∀ a, m.assets.get? assetID = some a → a.TotalSupply < 2 ^ 64 →
        (m.BurnAsset assetID owner amount now).2.assets.get? assetID =
          some { a with TotalSupply := a.TotalSupply - amount, LastUpdated := now }) ∧
      (∀ other, other ≠ assetID →
        (m.BurnAsset assetID owner amount now).2.assets.get? other = m.assets.get? other)) ∧
    (∀ msg, (m.BurnAsset assetID owner amount now).1 = Outcome.err msg →
      (m.BurnAsset assetID owner amount now).2 = m) := by
  unfold Bindings.AssetManager.BurnAsset
  simp only [hinit, Bool.not_true, Bool.false_eq_true, if_false]
  by_cases h1 : assetID = ""
  · simp [h1]
  by_cases h2 : owner = ""
  · simp [h1, h2]
  by_cases h3 : amount = 0
  · simp [h1, h2, h3]
  cases ha : m.assets.get? assetID with
  | none => simp [h1, h2, h3]
  | some a =>
    by_cases h4 : a.Owner = owner
    · subst h4
      by_cases h5 : amount > a.TotalSupply
      · simp [h1, h2, h3, h5]
      · have h5' : amount ≤ a.TotalSupply := by omega
        simp only [h1, h2, h3, h5, if_false, ne_eq, not_true_eq_false, not_false_eq_true,
          true_and, Option.some.injEq, exists_eq_left', h5', and_true, true_iff,
          forall_true_left, reduceCtorEq, false_imp_iff, implies_true, gt_iff_lt,
          Nat.pos_of_ne_zero h3]
        refine ⟨?_, ?_⟩
        · intro a' ha' hlt
          subst ha'
          rw [GoMap.get?_set_self, subUInt64_of_le _ _ h5' hlt]
        · intro other hother
          exact GoMap.get?_set_ne _ _ _ _ hother
    · simp [h1, h2, h3, h4]

theorem BurnAsset_never_underflows_witness :
    (Bindings.testAssetManager.BurnAsset Bindings.testAssetID "alice" 400 7).1 =
      Outcome.ret () ∧
    ((Bindings.testAssetManager.BurnAsset Bindings.testAssetID "alice" 400
      7).2.assets.get? Bindings.testAssetID).map (fun a => a.TotalSupply) = some 600 :=
  ⟨(BurnAsset_never_underflows Bindings.testAssetManager Bindings.testAssetID "alice" 400 7
      (by decide)).1.2 (by decide), by decide⟩

/-! # Theorems about `satox_bindings.SecurityManager` and `NetworkManager` -/

/-- C27, evaluated at the failing inputs: `Shutdown` of an initialized
`SecurityManager` with encryption enabled returns nil but leaves the manager
initialized, so that `HashData` and `GenerateKey` afterwards return a result
instead of "SecurityManager not initialized"; `Shutdown` of an initialized,
connected `NetworkManager` returns nil but leaves it initialized, so that
`Connect("mainnet", 60777)` afterwards returns nil. Without encryption,
respectively without a connection, `Shutdown` does clear the flag. -/
theorem Shutdown_leaves_manager_initialized :
    Bindings.encryptingSecurityManager.initialized = true ∧
    Bindings.encryptingSecurityManager.encryptionEnabled = true ∧
    Bindings.encryptingSecurityManager.Shutdown.1 = Outcome.ret () ∧
    Bindings.encryptingSecurityManager.Shutdown.2.initialized = true ∧
    Bindings.SecurityManager.HashData stubSha256 Bindings.encryptingSecurityManager.Shutdown.2
      testBytes = Outcome.ret (stubSha256 testBytes) ∧
    Bindings.encryptingSecurityManager.Shutdown.2.GenerateKey (constSource 3) =
      Outcome.ret (List.replicate 32 3) ∧
    Bindings.connectedNetworkManager.initialized = true ∧
    Bindings.connectedNetworkManager.connected = true ∧
    Bindings.connectedNetworkManager.Shutdown.1 = Outcome.ret () ∧
    Bindings.connectedNetworkManager.Shutdown.2.initialized = true ∧
    (Bindings.connectedNetworkManager.Shutdown.2.Connect "mainnet" 60777).1 = Outcome.ret () ∧
    Bindings.SecurityManager.NewSecurityManager.Initialize.2.Shutdown.2.initialized = false ∧
    Bindings.NetworkManager.NewNetworkManager.Initialize.2.Shutdown.2.initialized = false := by
  refine ⟨?_, ?_, ?_, ?_, ?_, ?_, ?_, ?_, ?_, ?_, ?_, ?_, ?_⟩ <;> decide

/-! # Theorems about `satox_bindings.IPFSManager` -/

/-- C28 fails as stated: after "Hello, World!" was uploaded as "hello.txt" to
an initialized manager, `DownloadFile` of the returned hash gives thirteen
zero bytes, not the data. -/
theorem DownloadFile_returns_zero_bytes :
    ∃ f, (Bindings.IPFSManager.UploadFile stubSha256 Bindings.stubFormatFloat
        Bindings.testIPFSManager "hello.txt" helloWorld "text/plain" none 1 2).1 =
        Outcome.ret f ∧
      ((Bindings.IPFSManager.UploadFile stubSha256 Bindings.stubFormatFloat
        Bindings.testIPFSManager "hello.txt" helloWorld "text/plain" none 1
        2).2.DownloadFile f.Hash 3).1 = Outcome.ret (List.replicate 13 0) ∧
      ((Bindings.IPFSManager.UploadFile stubSha256 Bindings.stubFormatFloat
        Bindings.testIPFSManager "hello.txt" helloWorld "text/plain" none 1
        2).2.DownloadFile f.Hash 3).1 ≠ Outcome.ret helloWorld :=
  ⟨{ Hash := Bindings.IPFSManager.generateIPFSHash stubSha256 helloWorld, Name := "hello.txt",
     Size := 13, Type' := "file", ContentType := "text/plain", Uploaded := 1, LastAccessed := 2,
     Metadata := none, Pinned := false, Replicas := 0,
     GatewayURL := "https://ipfs.io/ipfs/" ++
       Bindings.IPFSManager.generateIPFSHash stubSha256 helloWorld },
    by decide, by decide, by decide⟩

theorem String.append_ne_empty_of_left (a b : String) (ha : a ≠ "") : a ++ b ≠ "" := by
  intro h
  have hl := congrArg String.length h
  rw [String.length_append] at hl
  have h0 : a.length = 0 := by
    have : ("" : String).length = 0 := rfl
    omega
  apply ha
  cases a with
  | mk data =>
    have hd : data = [] := List.length_eq_zero.mp h0
    subst hd
    rfl

/-- C28 (amended): if `UploadFile(name, data, ...)` returns a file `f`, then
`DownloadFile(f.Hash)` on the resulting manager returns a byte string of the
length of `data` whose bytes are all 0; the manager keeps the size of an
uploaded file, not its contents. -/
theorem DownloadFile_returns_zeros_of_upload_length (sha256 : List Nat → List Nat)
    (formatFloat : Rat → String) (m : Bindings.IPFSManager) (name : String) (data : List Nat)
    (contentType : String) (metadata : Option (GoMap String)) (tUploaded tAccessed now : Int)
    (f : Bindings.IPFSFile) (hlen : data.length < 2 ^ 64)
    (hup : (Bindings.IPFSManager.UploadFile sha256 formatFloat m name data contentType metadata
      tUploaded tAccessed).1 = Outcome.ret f) :
    ((Bindings.IPFSManager.UploadFile sha256 formatFloat m name data contentType metadata
      tUploaded tAccessed).2.DownloadFile f.Hash now).1 =
        Outcome.ret (List.replicate data.length 0) := by
  unfold Bindings.IPFSManager.UploadFile at hup ⊢
  by_cases hinit : m.initialized = true
  swap
  · simp [hinit] at hup
  by_cases h1 : name = ""
  · simp [hinit, h1] at hup
  by_cases h2 : data.length = 0
  · simp [hinit, h1, h2] at hup
  simp only [hinit, h1, h2, Bool.not_true, Bool.false_eq_true, if_false] at hup ⊢
  cases hc : m.config.get? "max_file_size" with
  | none => simp [hc] at hup
  | some v =>
    cases v with
    | float x => simp [hc] at hup
    | str x => simp [hc] at hup
    | bool x => simp [hc] at hup
    | int maxSize =>
      simp only [hc] at hup ⊢
      by_cases h3 : (data.length : Int) > maxSize
      · simp [h3] at hup
      · simp only [h3, if_false] at hup ⊢
        cases hf : m.files.get? (Bindings.IPFSManager.generateIPFSHash sha256 data) with
        | some old => simp [hf] at hup
        | none =>
          simp only [hf, Outcome.ret.injEq] at hup ⊢
          subst hup
          have hne : Bindings.IPFSManager.generateIPFSHash sha256 data ≠ "" :=
            String.append_ne_empty_of_left _ _ (by decide)
          simp only [Bindings.IPFSManager.DownloadFile, hinit, hne, Bool.not_true,
            Bool.false_eq_true, if_false, GoMap.get?_set_self, wrapUInt64,
            Nat.mod_eq_of_lt hlen]

theorem DownloadFile_returns_zeros_of_upload_length_witness :
    ((Bindings.IPFSManager.UploadFile stubSha256 Bindings.stubFormatFloat
      Bindings.testIPFSManager "hello.txt" helloWorld "text/plain" none 1
      2).2.DownloadFile (Bindings.IPFSManager.generateIPFSHash stubSha256 helloWorld) 3).1 =
      Outcome.ret (List.replicate helloWorld.length 0) :=
  DownloadFile_returns_zeros_of_upload_length stubSha256 Bindings.stubFormatFloat
    Bindings.testIPFSManager "hello.txt" helloWorld "text/plain" none 1 2 3
    { Hash := Bindings.IPFSManager.generateIPFSHash stubSha256 helloWorld, Name := "hello.txt",
      Size := 13, Type' := "file", ContentType := "text/plain", Uploaded := 1, LastAccessed := 2,
      Metadata := none, Pinned := false, Replicas := 0,
      GatewayURL := "https://ipfs.io/ipfs/" ++
        Bindings.IPFSManager.generateIPFSHash stubSha256 helloWorld }
    (by decide) (by decide)

/-! # Theorems about `SatoxSDK` -/

/-- Either every manager initializes, or there is a first one, in the order of
the facade, that fails. -/
theorem ManagerKind.first_failure (r : ManagerKind → Option String) :
    (∀ k, r k = none) ∨
      ∃ k e, r k = some e ∧ ∀ j : ManagerKind, j.order < k.order → r j = none := by
  cases h0 : r .core with
  | some e => exact Or.inr ⟨.core, e, h0, fun j hj => by cases j <;> simp [ManagerKind.order] at hj⟩
  | none =>
  cases h1 : r .wallet with
  | some e =>
    exact Or.inr ⟨.wallet, e, h1, fun j hj => by
      cases j <;> simp [ManagerKind.order] at hj
      assumption⟩
  | none =>
  cases h2 : r .security with
  | some e =>
    exact Or.inr ⟨.security, e, h2, fun j hj => by
      cases j <;> simp [ManagerKind.order] at hj <;> assumption⟩
  | none =>
  cases h3 : r .asset with
  | some e =>
    exact Or.inr ⟨.asset, e, h3, fun j hj => by
      cases j <;> simp [ManagerKind.order] at hj <;> assumption⟩
  | none =>
  cases h4 : r .nft with
  | some e =>
    exact Or.inr ⟨.nft, e, h4, fun j hj => by
      cases j <;> simp [ManagerKind.order] at hj <;> assumption⟩
  | none =>
  cases h5 : r .blockchain with
  | some e =>
    exact Or.inr ⟨.blockchain, e, h5, fun j hj => by
      cases j <;> simp [ManagerKind.order] at hj <;> assumption⟩
  | none =>
  cases h6 : r .ipfs with
  | some e =>
    exact Or.inr ⟨.ipfs, e, h6, fun j hj => by
      cases j <;> simp [ManagerKind.order] at hj <;> assumption⟩
  | none =>
  cases h7 : r .network with
  | some e =>
    exact Or.inr ⟨.network, e, h7, fun j hj => by
      cases j <;> simp [ManagerKind.order] at hj <;> assumption⟩
  | none =>
  cases h8 : r .database with
  | some e =>
    exact Or.inr ⟨.database, e, h8, fun j hj => by
      cases j <;> simp [ManagerKind.order] at hj <;> assumption⟩
  | none => exact Or.inl (fun k => by cases k <;> assumption)

theorem SatoxSDK.Initialize_all_succeed (sdk : SatoxSDK) (config : Option Config)
    (r : ManagerKind → Option String) (hrun : sdk.isRunning = false)
    (hall : ∀ k, r k = none) :
    (sdk.Initialize config r).1 = Outcome.ret () ∧
    (sdk.Initialize config r).2.isRunning = true ∧
    ∀ k, (sdk.Initialize config r).2.manager k = SatoxSDK.created := by
  refine ⟨?_, ?_, ?_⟩
  · simp [SatoxSDK.Initialize, hrun, hall]
  · simp [SatoxSDK.Initialize, hrun, hall]
  · intro k
    cases k <;> simp [SatoxSDK.Initialize, hrun, hall, SatoxSDK.manager]

theorem SatoxSDK.Initialize_first_failure (sdk : SatoxSDK) (config : Option Config)
    (r : ManagerKind → Option String) (hrun : sdk.isRunning = false) (k : ManagerKind)
    (e : String) (hk : r k = some e)
    (hprev : ∀ j : ManagerKind, j.order < k.order → r j = none) :
    (sdk.Initialize config r).1 =
      Outcome.err ("failed to initialize " ++ k.label ++ " manager: " ++ e) ∧
    (sdk.Initialize config r).2.isRunning = false ∧
    (∀ j : ManagerKind, j.order ≤ k.order →
      (sdk.Initialize config r).2.manager j = SatoxSDK.created) ∧
    (∀ j : ManagerKind, k.order < j.order →
      (sdk.Initialize config r).2.manager j = sdk.manager j) := by
  have h0 := hprev .core
  have h1 := hprev .wallet
  have h2 := hprev .security
  have h3 := hprev .asset
  have h4 := hprev .nft
  have h5 := hprev .blockchain
  have h6 := hprev .ipfs
  have h7 := hprev .network
  clear hprev
  cases config <;> cases k <;> simp [ManagerKind.order] at h0 h1 h2 h3 h4 h5 h6 h7 <;>
    simp [*, SatoxSDK.Initialize, ManagerKind.label] <;>
    refine ⟨?_, ?_⟩ <;> intro j hj <;> cases j <;>
    simp [ManagerKind.order, SatoxSDK.manager] at hj ⊢

theorem failed_to_start_ne (prefix' e : String)
    (hp : prefix'.data.head? = some 'f') : prefix' ++ e ≠ "SDK is not initialized" := by
  intro h
  have h' := congrArg (fun s => s.data.head?) h
  simp only [String.data_append] at h'
  cases hd : prefix'.data with
  | nil => simp [hd] at hp
  | cons c rest =>
    rw [hd] at hp h'
    simp only [List.cons_append, List.head?_cons, Option.some.injEq] at hp h'
    rw [hp] at h'
    revert h'
    decide

/-- `Start` of a running SDK never answers "SDK is not initialized". -/
theorem SatoxSDK.Start_running (sdk : SatoxSDK) (r : ManagerKind → Option String)
    (hrun : sdk.isRunning = true) :
    (sdk.Start r).1 ≠ Outcome.err "SDK is not initialized" := by
  unfold SatoxSDK.Start
  simp only [hrun, Bool.not_true, Bool.false_eq_true, if_false]
  cases h0 : r .core with
  | some e => simpa using failed_to_start_ne "failed to start core manager: " e (by decide)
  | none =>
  cases h1 : r .wallet with
  | some e => simpa using failed_to_start_ne "failed to start wallet manager: " e (by decide)
  | none =>
  cases h2 : r .security with
  | some e => simpa using failed_to_start_ne "failed to start security manager: " e (by decide)
  | none =>
  cases h3 : r .asset with
  | some e => simpa using failed_to_start_ne "failed to start asset manager: " e (by decide)
  | none =>
  cases h4 : r .nft with
  | some e => simpa using failed_to_start_ne "failed to start NFT manager: " e (by decide)
  | none =>
  cases h5 : r .blockchain with
  | some e =>
    simpa using failed_to_start_ne "failed to start blockchain manager: " e (by decide)
  | none =>
  cases h6 : r .ipfs with
  | some e => simpa using failed_to_start_ne "failed to start IPFS manager: " e (by decide)
  | none =>
  cases h7 : r .network with
  | some e => simpa using failed_to_start_ne "failed to start network manager: " e (by decide)
  | none =>
  cases h8 : r .database with
  | some e => simpa using failed_to_start_ne "failed to start database manager: " e (by decide)
  | none => simp

/-- C29: with every manager abstract (the environment decides what its
`Initialize` and `Start` return), `Initialize` on an SDK whose `isRunning` is
true returns "SDK is already running" and changes no field. Otherwise it
goes through the managers in the order core, wallet, security, asset, NFT,
blockchain, IPFS, network, database: when a manager is the first to fail, the
call returns "failed to initialize <name> manager: <error>" with `isRunning`
still false, the managers up to and including that one were created and
initialized and the later ones were not touched; `isRunning` becomes true if
and only if all nine succeed, in which case nil is returned. `Start` returns
"SDK is not initialized" exactly when `isRunning` is false. `Stop` returns nil
and leaves `isRunning` false from every state. -/
theorem SatoxSDK_lifecycle (sdk : SatoxSDK) (config : Option Config)
    (initResult startResult : ManagerKind → Option String) :
    (sdk.isRunning = true →
      sdk.Initialize config initResult = (Outcome.err "SDK is already running", sdk)) ∧
    (sdk.isRunning = false →
      (∀ (k : ManagerKind) (e : String), initResult k = some e →
        (∀ j : ManagerKind, j.order < k.order → initResult j = none) →
        (sdk.Initialize config initResult).1 =
          Outcome.err ("failed to initialize " ++ k.label ++ " manager: " ++ e) ∧
        (sdk.Initialize config initResult).2.isRunning = false ∧
        (∀ j : ManagerKind, j.order ≤ k.order →
          (sdk.Initialize config initResult).2.manager j = SatoxSDK.created) ∧
        (∀ j : ManagerKind, k.order < j.order →
          (sdk.Initialize config initResult).2.manager j = sdk.manager j)) ∧
      ((sdk.Initialize config initResult).2.isRunning = true ↔
        ∀ k, initResult k = none) ∧
      ((sdk.Initialize config initResult).1 = Outcome.ret () ↔ ∀ k, initResult k = none)) ∧
    ((sdk.Start startResult).1 = Outcome.err "SDK is not initialized" ↔
      sdk.isRunning = false) ∧
    (sdk.Stop.1 = Outcome.ret () ∧ sdk.Stop.2.isRunning = false) := by
  refine ⟨?_, ?_, ?_, ?_⟩
  · intro hrun
    simp [SatoxSDK.Initialize, hrun]
  · intro hrun
    refine ⟨fun k e hk hprev =>
      SatoxSDK.Initialize_first_failure sdk config initResult hrun k e hk hprev, ?_, ?_⟩
    · rcases ManagerKind.first_failure initResult with hall | ⟨k, e, hk, hprev⟩
      · exact ⟨fun _ => hall,
          fun _ => (SatoxSDK.Initialize_all_succeed sdk config initResult hrun hall).2.1⟩
      · have hf := SatoxSDK.Initialize_first_failure sdk config initResult hrun k e hk hprev
        constructor
        · intro h
          rw [hf.2.1] at h
          cases h
        · intro hall
          rw [hall k] at hk
          cases hk
    · rcases ManagerKind.first_failure initResult with hall | ⟨k, e, hk, hprev⟩
      · exact ⟨fun _ => hall,
          fun _ => (SatoxSDK.Initialize_all_succeed sdk config initResult hrun hall).1⟩
      · have hf := SatoxSDK.Initialize_first_failure sdk config initResult hrun k e hk hprev
        constructor
        · intro h
          rw [hf.1] at h
          cases h
        · intro hall
          rw [hall k] at hk
          cases hk
  · constructor
    · intro h
      cases hrun : sdk.isRunning with
      | false => rfl
      | true => exact absurd h (SatoxSDK.Start_running sdk startResult hrun)
    · intro hrun
      simp [SatoxSDK.Start, hrun]
  · cases hrun : sdk.isRunning <;> simp [SatoxSDK.Stop, hrun]

theorem SatoxSDK_lifecycle_witness :
    (SatoxSDK.NewSatoxSDK.Initialize none assetInitFails).1 =
      Outcome.err "failed to initialize asset manager: disk full" ∧
    (SatoxSDK.NewSatoxSDK.Initialize none assetInitFails).2.isRunning = false :=
  have h := ((SatoxSDK_lifecycle SatoxSDK.NewSatoxSDK none assetInitFails assetInitFails).2.1
    rfl).1 ManagerKind.asset "disk full" rfl (fun j hj => by cases j <;> first | rfl | exact absurd hj (by decide))
  ⟨h.1, h.2.1⟩

/-! # The ledger of `asset.Manager` -/

/-- C30 fails as stated: the manager of `TestUpdateAsset` after `Initialize`,
`CreateAsset` (total supply 1000000) and `UpdateAsset` (total supply 2000000)
is reachable, its asset "TEST" has `TotalSupply` 2000000, and the balances of
"TEST" sum to 1000000. -/
theorem UpdateAsset_breaks_ledger :
    Manager.Reachable updatedManager ∧
    (updatedManager.assets.get? "TEST").map (fun a => a.TotalSupply) = some 2000000 ∧
    updatedManager.supply "TEST" = some 1000000 ∧
    ¬ updatedManager.LedgerConsistent := by
  refine ⟨?_, by decide, by decide, ?_⟩
  · exact Manager.Reachable.update _ _ _ _
      (Manager.Reachable.create _ _ _ (Manager.Reachable.init _ Manager.Reachable.start))
  · intro h
    have h1 := h "TEST"
      { ID := "TEST", Name := "Updated Asset", Symbol := "TEST",
        Description := "Updated Description", Decimals := 8, TotalSupply := 2000000,
        Owner := "owner1", CreatedAt := 0, UpdatedAt := 5 } (by decide)
    revert h1
    decide

theorem sumInt64_single (address : String) (v : Int) (hv : InInt64 v) :
    Manager.sumInt64 ((GoMap.empty : GoMap Int).set address v) = v := by
  rw [sumInt64_eq]
  simp only [GoMap.set, GoMap.empty, setL, List.map_cons, List.map_nil, List.sum_cons,
    List.sum_nil, add_zero]
  exact wrapInt64_of_inInt64 v hv

/-- C30 (amended): in every state reachable from `NewManager` through
`Initialize`, `Shutdown`, `CreateAsset`, `DeleteAsset`, `TransferAsset` and
those `UpdateAsset` calls that leave `TotalSupply` as it is, for every stored
asset the `int64` sum of all its address balances equals the asset's
`TotalSupply` field. -/
theorem ledger_consistent_without_supply_updates (am : Manager)
    (hr : Manager.ReachableKeepingSupply am) : am.LedgerConsistent := by
  induction hr with
  | start =>
    intro id a h
    simp [Manager.NewManager, GoMap.get?_empty] at h
  | init am _ ih =>
    unfold Manager.Initialize
    split <;> exact ih
  | shut am _ ih =>
    unfold Manager.Shutdown
    split <;> exact ih
  | create am config now hsupply _ ih =>
    unfold Manager.CreateAsset
    split
    · exact ih
    split
    · exact ih
    · intro id a h
      by_cases hid : id = config.Symbol
      · subst hid
        simp only [GoMap.get?_set_self, Option.some.injEq] at h
        subst h
        simp only [Manager.supply, GoMap.get?_set_self, Option.getD_some, Option.map_some',
          sumInt64_single _ _ hsupply]
      · simp only [GoMap.get?_set_ne _ _ _ _ hid] at h
        simp only [Manager.supply, GoMap.get?_set_ne _ _ _ _ hid]
        exact ih id a h
  | update am uid config now hkeep _ ih =>
    unfold Manager.UpdateAsset
    split
    · exact ih
    split
    · exact ih
    · rename_i asset hasset
      intro id a h
      by_cases hid : id = uid
      · subst hid
        simp only [GoMap.get?_set_self, Option.some.injEq] at h
        subst h
        have := ih id asset hasset
        simp only [Manager.supply] at this ⊢
        rw [this, hkeep asset hasset]
      · simp only [GoMap.get?_set_ne _ _ _ _ hid] at h
        exact ih id a h
  | delete am did _ ih =>
    unfold Manager.DeleteAsset
    split
    · exact ih
    split
    · exact ih
    · intro id a h
      by_cases hid : id = did
      · subst hid
        simp [GoMap.get?_del_self] at h
      · simp only [GoMap.get?_del_ne _ _ _ hid] at h
        simp only [Manager.supply, GoMap.get?_del_ne _ _ _ hid]
        exact ih id a h
  | transfer am config _ ih =>
    unfold Manager.TransferAsset
    split
    · exact ih
    split
    · exact ih
    split
    · exact ih
    · rename_i hasset _ b hb
      split
      · exact ih
      · rename_i fb hf
        split
        · exact ih
        · intro id a h
          simp only at h
          by_cases hid : id = config.AssetID
          · rw [hid] at h ⊢
            have h0 := ih config.AssetID a h
            simp only [Manager.supply, hb, Option.map_some', Option.some.injEq] at h0
            simp only [Manager.supply, GoMap.get?_set_self, Option.map_some', hf,
              Option.getD_some]
            have hs := sumInt64_transfer b config.FromAddress config.ToAddress config.Amount
            simp only [hf, Option.getD_some] at hs
            rw [hs, h0]
          · simp only [Manager.supply, GoMap.get?_set_ne _ _ _ _ hid]
            exact ih id a h

theorem ledger_consistent_without_supply_updates_witness :
    (testManager.TransferAsset testTransfer).2.LedgerConsistent :=
  ledger_consistent_without_supply_updates _
    (Manager.ReachableKeepingSupply.transfer _ _
      (Manager.ReachableKeepingSupply.create _ _ _ (by decide)
        (Manager.ReachableKeepingSupply.init _ Manager.ReachableKeepingSupply.start)))

/-! # Token ids of `nft.NFTManager` -/

/-- C31, evaluated at the failing input: after `Initialize`, `CreateNFT` for
"A" and for "B", `BurnNFT("0x123_A", "creator")` and `CreateNFT` for "C", a
state the four operations reach, every call has returned nil and the NFTs
"0x123_B" and "0x123_C" are both stored with `TokenID` 2: the third `CreateNFT`
computes `len(nm.nfts) + 1` from a map that the burn has shrunk to one entry. -/
theorem CreateNFT_reuses_token_id_after_burn :
    NFTManager.Reachable tokenClashManager ∧
    (((NFTManager.NewNFTManager.Initialize.2.CreateNFT "0x123" (namedMetadata "A") "creator"
      true true "royaltyRecipient" 500 1 1).2.CreateNFT "0x123" (namedMetadata "B") "creator"
      true true "royaltyRecipient" 500 2 2).2.BurnNFT "0x123_A" "creator").1 = Outcome.ret () ∧
    (tokenClashManager.nfts.get? "0x123_B").map (fun n => n.TokenID) = some 2 ∧
    (tokenClashManager.nfts.get? "0x123_C").map (fun n => n.TokenID) = some 2 ∧
    tokenClashManager.nfts.len = 2 ∧
    ¬ tokenClashManager.TokenIDsUnique := by
  refine ⟨?_, by decide, by decide, by decide, by decide, by decide⟩
  exact .create _ _ _ _ _ _ _ _ _ _ (.burn _ _ _ (.create _ _ _ _ _ _ _ _ _ _
    (.create _ _ _ _ _ _ _ _ _ _ (.init _ .start))))

/-! # Validity of the assets stored by `satox_bindings.AssetManager` -/

theorem hexEncodeToString_ne_empty (src : List Nat) (h : src ≠ []) :
    hexEncodeToString src ≠ "" := by
  cases src with
  | nil => exact absurd rfl h
  | cons b r =>
    intro c
    have := congrArg String.data c
    simp [hexEncodeToString] at this

theorem Bindings.AssetManager.generateAssetID_ne_empty (sha256 : List Nat → List Nat)
    (hsha : ∀ d, (sha256 d).length = 32) (name symbol owner : String) :
    Bindings.AssetManager.generateAssetID sha256 name symbol owner ≠ "" := by
  unfold Bindings.AssetManager.generateAssetID
  apply hexEncodeToString_ne_empty
  intro c
  have := congrArg List.length c
  simp [hsha] at this

/-- C32 fails as stated: burning the whole supply of the asset "Gold" is
accepted (`BurnAsset` only refuses `amount > TotalSupply`), the state is
reachable, and the stored asset then has `TotalSupply` 0, which `ValidateAsset`
rejects. -/
theorem BurnAsset_of_whole_supply_leaves_invalid_asset :
    Bindings.AssetManager.Reachable stubSha256 Bindings.burntAssetManager ∧
    (Bindings.testAssetManager.BurnAsset Bindings.testAssetID "alice" 1000 3).1 =
      Outcome.ret () ∧
    ∃ a, Bindings.burntAssetManager.assets.get? Bindings.testAssetID = some a ∧
      a.TotalSupply = 0 ∧
      (Bindings.burntAssetManager.ValidateAsset (some a)).1 =
        Outcome.err "total supply must be greater than 0" := by
  refine ⟨?_, by decide, ?_⟩
  · exact .burn _ _ _ _ _ (.create _ _ _ _ _ _ _ _ _ _ (.init _ .start))
  · cases h : Bindings.burntAssetManager.assets.get? Bindings.testAssetID with
    | none => exact absurd h (by decide)
    | some a =>
      refine ⟨a, rfl, ?_, ?_⟩
      · have : (Bindings.burntAssetManager.assets.get? Bindings.testAssetID).map
            (fun a => a.TotalSupply) = some 0 := by decide
        rw [h] at this
        exact Option.some.inj this
      · have : ((Bindings.burntAssetManager.assets.get? Bindings.testAssetID).map
            (fun a => (Bindings.burntAssetManager.ValidateAsset (some a)).1)) =
            some (Outcome.err "total supply must be greater than 0") := by decide
        rw [h] at this
        exact Option.some.inj this

/-- Every asset stored in a reachable `satox_bindings.AssetManager` passes the
checks of `ValidateAsset` other than the one on `TotalSupply`, and a manager
that stores an asset is initialized. -/
theorem Bindings.AssetManager.reachable_validUpToSupply (sha256 : List Nat → List Nat)
    (hsha : ∀ d, (sha256 d).length = 32)
    (m : Bindings.AssetManager) (hr : Bindings.AssetManager.Reachable sha256 m) :
    ∀ id a, m.assets.get? id = some a → m.initialized = true ∧ a.ValidUpToSupply := by
  induction hr with
  | start =>
    intro id a h
    simp [Bindings.AssetManager.NewAssetManager, GoMap.get?_empty] at h
  | init m _ ih =>
    unfold Bindings.AssetManager.Initialize
    split
    · exact ih
    · intro id a h
      exact ⟨rfl, (ih id a h).2⟩
  | shut m _ ih =>
    unfold Bindings.AssetManager.Shutdown
    split
    · exact ih
    · intro id a h
      simp [GoMap.get?_empty] at h
  | create m name symbol description owner totalSupply decimals metadata tCreated tUpdated _ ih =>
    by_cases hinit : m.initialized = true
    · by_cases hrf : Bindings.AssetManager.Refused sha256 m name symbol description owner
          totalSupply decimals
      · rw [(Bindings.AssetManager.CreateAsset_refused sha256 m name symbol description owner
          totalSupply decimals metadata tCreated tUpdated hinit hrf).2]
        exact ih
      · rw [Bindings.AssetManager.CreateAsset_accepted sha256 m name symbol description owner
          totalSupply decimals metadata tCreated tUpdated hinit hrf]
        intro id a h
        rcases GoMap.get?_set_cases _ _ _ _ _ h with ⟨_, ha⟩ | ⟨_, ha⟩
        · refine ⟨hinit, ?_⟩
          rw [ha]
          unfold Bindings.AssetManager.Refused at hrf
          simp only [not_or] at hrf
          obtain ⟨h1, h2, h3, _, h5, h6, h7, h8, _⟩ := hrf
          exact ⟨Bindings.AssetManager.generateAssetID_ne_empty sha256 hsha name symbol owner,
            h1, h2, h3, Nat.not_lt.mp h5, Nat.not_lt.mp h6, Nat.not_lt.mp h7, Nat.not_lt.mp h8⟩
        · exact ⟨hinit, (ih id a ha).2⟩
    · have hrun : (Bindings.AssetManager.CreateAsset sha256 m name symbol description owner
          totalSupply decimals metadata tCreated tUpdated).2 = m := by
        simp [Bindings.AssetManager.CreateAsset, hinit]
      rw [hrun]
      exact ih
  | update m assetID description metadata now _ ih =>
    unfold Bindings.AssetManager.UpdateAsset
    split
    · exact ih
    split
    · exact ih
    split
    · exact ih
    · rename_i asset hasset
      split
      · exact ih
      · rename_i hlen
        intro id a h
        rcases GoMap.get?_set_cases _ _ _ _ _ h with ⟨_, ha⟩ | ⟨_, ha⟩
        · obtain ⟨hi, h1, h2, h3, h4, h5, h6, _, h8⟩ := ih assetID asset hasset
          rw [ha]
          exact ⟨hi, h1, h2, h3, h4, h5, h6, by simpa using hlen, h8⟩
        · exact ih id a ha
  | reissue m assetID owner additionalSupply now _ ih =>
    unfold Bindings.AssetManager.ReissueAsset
    split
    · exact ih
    split
    · exact ih
    split
    · exact ih
    split
    · exact ih
    split
    · exact ih
    · rename_i asset hasset
      split
      · exact ih
      split
      · exact ih
      · intro id a h
        rcases GoMap.get?_set_cases _ _ _ _ _ h with ⟨_, ha⟩ | ⟨_, ha⟩
        · rw [ha]
          exact ih assetID asset hasset
        · exact ih id a ha
  | burn m assetID owner amount now _ ih =>
    unfold Bindings.AssetManager.BurnAsset
    split
    · exact ih
    split
    · exact ih
    split
    · exact ih
    split
    · exact ih
    split
    · exact ih
    · rename_i asset hasset
      split
      · exact ih
      split
      · exact ih
      · intro id a h
        rcases GoMap.get?_set_cases _ _ _ _ _ h with ⟨_, ha⟩ | ⟨_, ha⟩
        · rw [ha]
          exact ih assetID asset hasset
        · exact ih id a ha
  | config m newConfig _ ih =>
    unfold Bindings.AssetManager.UpdateConfig
    split <;> exact ih

/-- C32, amended: when `sha256` returns 32 bytes, every asset stored in a state
that `Initialize`, `Shutdown`, `CreateAsset`, `UpdateAsset`, `ReissueAsset`,
`BurnAsset` and `UpdateConfig` reach (`TransferAsset` changes no state) has a
non-empty id, name, symbol and owner, a name of at most 32 bytes, a symbol of
at most 5, a description of at most 1000 and at most 18 decimals; `ValidateAsset`
returns nil for it when its `TotalSupply` is not 0 and the error
"total supply must be greater than 0" when it is 0. -/
theorem stored_assets_valid_up_to_supply (sha256 : List Nat → List Nat)
    (hsha : ∀ d, (sha256 d).length = 32)
    (m : Bindings.AssetManager) (hr : Bindings.AssetManager.Reachable sha256 m)
    (id : String) (a : Bindings.Asset) (ha : m.assets.get? id = some a) :
    a.ValidUpToSupply ∧
    (a.TotalSupply ≠ 0 → m.ValidateAsset (some a) = (Outcome.ret (), m)) ∧
    (a.TotalSupply = 0 →
      m.ValidateAsset (some a) = (Outcome.err "total supply must be greater than 0", m)) ∧
    ∀ fromAddress toAddress amount fee now,
      (Bindings.AssetManager.TransferAsset sha256 m id fromAddress toAddress amount fee now).2 =
        m := by
  obtain ⟨hi, hv⟩ := Bindings.AssetManager.reachable_validUpToSupply sha256 hsha m hr id a ha
  refine ⟨hv, ?_, ?_, ?_⟩
  · obtain ⟨h1, h2, h3, h4, h5, h6, h7, h8⟩ := hv
    intro hs
    simp [Bindings.AssetManager.ValidateAsset, hi, h1, h2, h3, h4, hs, Nat.not_lt.mpr h5,
      Nat.not_lt.mpr h6, Nat.not_lt.mpr h7, Nat.not_lt.mpr h8]
  · obtain ⟨h1, h2, h3, h4, _⟩ := hv
    intro hs
    simp [Bindings.AssetManager.ValidateAsset, hi, h1, h2, h3, h4, hs]
  · intro fromAddress toAddress amount fee now
    unfold Bindings.AssetManager.TransferAsset
    repeat (first | rfl | split)

theorem stored_assets_valid_up_to_supply_witness :
    Bindings.burntAssetManager.ValidateAsset
        (Bindings.burntAssetManager.assets.get? Bindings.testAssetID) =
      (Outcome.err "total supply must be greater than 0", Bindings.burntAssetManager) := by
  cases h : Bindings.burntAssetManager.assets.get? Bindings.testAssetID with
  | none => exact absurd h (by decide)
  | some a =>
    have hs : a.TotalSupply = 0 := by
      have : (Bindings.burntAssetManager.assets.get? Bindings.testAssetID).map
          (fun a => a.TotalSupply) = some 0 := by decide
      rw [h] at this
      exact Option.some.inj this
    exact (stored_assets_valid_up_to_supply stubSha256 (by intro d; simp [stubSha256])
      Bindings.burntAssetManager
      (.burn _ _ _ _ _ (.create _ _ _ _ _ _ _ _ _ _ (.init _ .start)))
      Bindings.testAssetID a h).2.2.1 hs

/-! # Collections of `satox_bindings.NFTManager` -/

theorem setL_of_lookupL_none {V : Type} (k : String) (v : V) (l : List (String × V))
    (h : lookupL k l = none) : setL k v l = l ++ [(k, v)] := by
  induction l with
  | nil => rfl
  | cons e r ih =>
    by_cases he : e.1 = k
    · simp [lookupL, he] at h
    · simp only [lookupL, he, if_false] at h
      simp [setL, he, ih h]

theorem mem_values_of_lookupL {V : Type} (k : String) (v : V) (l : List (String × V))
    (h : lookupL k l = some v) : v ∈ l.map Prod.snd := by
  induction l with
  | nil => simp [lookupL] at h
  | cons e r ih =>
    by_cases he : e.1 = k
    · simp only [lookupL, he, if_true, Option.some.injEq] at h
      simp [h]
    · simp only [lookupL, he, if_false] at h
      simp [ih h]

theorem mem_values_setL {V : Type} (k : String) (v x : V) (l : List (String × V))
    (h : x ∈ (setL k v l).map Prod.snd) : x = v ∨ x ∈ l.map Prod.snd := by
  induction l with
  | nil => simpa [setL] using h
  | cons e r ih =>
    by_cases he : e.1 = k
    · simp only [setL, he, if_true, List.map_cons, List.mem_cons] at h
      rcases h with h | h
      · exact Or.inl h
      · exact Or.inr (by simp [h])
    · simp only [setL, he, if_false, List.map_cons, List.mem_cons] at h
      rcases h with h | h
      · exact Or.inr (by simp [h])
      · rcases ih h with h | h
        · exact Or.inl h
        · exact Or.inr (by simp [h])

theorem filter_values_setL_length {V : Type} (p : V → Bool) (k : String) (v old : V)
    (l : List (String × V)) (h : lookupL k l = some old) (hp : p v = p old) :
    (((setL k v l).map Prod.snd).filter p).length = ((l.map Prod.snd).filter p).length := by
  induction l with
  | nil => simp [lookupL] at h
  | cons e r ih =>
    by_cases he : e.1 = k
    · simp only [lookupL, he, if_true, Option.some.injEq] at h
      simp only [setL, he, if_true, List.map_cons, List.filter_cons, hp, h]
      split <;> simp
    · simp only [lookupL, he, if_false] at h
      simp only [setL, he, if_false, List.map_cons, List.filter_cons]
      split <;> simp [ih h]

theorem GoMap.values_set_of_none {V : Type} (m : GoMap V) (k : String) (v : V)
    (h : m.get? k = none) : (m.set k v).values = m.values ++ [v] := by
  unfold GoMap.values GoMap.set
  simp only
  rw [setL_of_lookupL_none k v m.entries h]
  simp

theorem GoMap.mem_values_of_get? {V : Type} (m : GoMap V) (k : String) (v : V)
    (h : m.get? k = some v) : v ∈ m.values :=
  mem_values_of_lookupL k v m.entries h

theorem GoMap.mem_values_set {V : Type} (m : GoMap V) (k : String) (v x : V)
    (h : x ∈ (m.set k v).values) : x = v ∨ x ∈ m.values :=
  mem_values_setL k v x m.entries h

theorem GoMap.filter_values_set_length {V : Type} (m : GoMap V) (p : V → Bool) (k : String)
    (v old : V) (h : m.get? k = some old) (hp : p v = p old) :
    ((m.set k v).values.filter p).length = (m.values.filter p).length :=
  filter_values_setL_length p k v old m.entries h hp

namespace Bindings

/-- Replacing a stored NFT by one of the same collection keeps the bookkeeping
of the collections. -/
theorem NFTManager.consistent_of_nft_update (m : NFTManager) (tokenID : String)
    (nft nft' : NFT) (h : m.nfts.get? tokenID = some nft)
    (hc : nft'.CollectionID = nft.CollectionID) (hI : m.CollectionsConsistent) :
    NFTManager.CollectionsConsistent { m with nfts := m.nfts.set tokenID nft' } := by
  obtain ⟨h1, h2⟩ := hI
  refine ⟨?_, ?_⟩
  · intro cid c hcol
    obtain ⟨a1, a2, a3, a4, a5, a6⟩ := h1 cid c hcol
    refine ⟨a1, a2, a3, a4, a5, ?_⟩
    rw [a6]
    unfold NFTManager.mintedIn
    exact (GoMap.filter_values_set_length m.nfts _ tokenID nft' nft h (by simp [hc])).symm
  · intro x hx
    rcases GoMap.mem_values_set _ _ _ _ hx with hx | hx
    · rw [hx, hc]
      exact h2 nft (GoMap.mem_values_of_get? _ _ _ h)
    · exact h2 x hx

/-- The bookkeeping of the collections holds in every reachable state. -/
theorem NFTManager.reachable_collectionsConsistent (sha256 : List Nat → List Nat) (m : NFTManager)
    (hr : NFTManager.Reachable sha256 m) : m.CollectionsConsistent := by
  induction hr with
  | start =>
    refine ⟨?_, ?_⟩
    · intro cid c h
      simp [NFTManager.NewNFTManager, GoMap.get?_empty] at h
    · intro x hx
      simp [NFTManager.NewNFTManager, GoMap.values, GoMap.empty] at hx
  | init m _ ih =>
    unfold NFTManager.Initialize
    split
    · exact ih
    · obtain ⟨h1, h2⟩ := ih
      refine ⟨?_, h2⟩
      intro cid c hcol
      obtain ⟨_, a2, a3, a4, a5, a6⟩ := h1 cid c hcol
      exact ⟨rfl, a2, a3, a4, a5, a6⟩
  | shut m _ ih =>
    unfold NFTManager.Shutdown
    split
    · exact ih
    · refine ⟨?_, ?_⟩
      · intro cid c h
        simp [GoMap.get?_empty] at h
      · intro x hx
        simp [GoMap.values, GoMap.empty] at hx
  | createCollection m name description creator totalSupply metadata tCreated tUpdated _ ih =>
    unfold NFTManager.CreateCollection
    split
    · exact ih
    rename_i hinit
    split
    · exact ih
    split
    · exact ih
    split
    · exact ih
    rename_i hts
    split
    · exact ih
    split
    · exact ih
    split
    · exact ih
    rename_i hmax
    split
    · exact ih
    · rename_i hnew
      obtain ⟨h1, h2⟩ := ih
      have hinit' : m.initialized = true := by simpa using hinit
      refine ⟨?_, ?_⟩
      · intro cid c hcol
        rcases GoMap.get?_set_cases _ _ _ _ _ hcol with ⟨hk, hv⟩ | ⟨_, hv⟩
        · subst hv
          refine ⟨hinit', hk.symm, by simp only; omega, by simp only; omega, by simp, ?_⟩
          show 0 = NFTManager.mintedIn _ cid
          unfold NFTManager.mintedIn
          simp only
          rw [eq_comm, List.length_eq_zero, List.filter_eq_nil_iff]
          intro x hx hxc
          have := h2 x hx
          simp only [decide_eq_true_eq] at hxc
          rw [hxc, hk, hnew] at this
          simp at this
        · exact h1 cid c hv
      · intro x hx
        rw [GoMap.isSome_get?_set]
        simp [h2 x hx]
  | mint m collectionID name description owner metadata attributes tCreated tUpdated
      tCollection _ ih =>
    unfold NFTManager.MintNFT
    split
    · exact ih
    rename_i hinit
    split
    · exact ih
    split
    · exact ih
    split
    · exact ih
    split
    · exact ih
    split
    · exact ih
    split
    · exact ih
    split
    · exact ih
    rename_i collection hcoll
    split
    · exact ih
    rename_i hfull
    split
    · exact ih
    · rename_i hnew
      obtain ⟨h1, h2⟩ := ih
      obtain ⟨b1, b2, b3, b4, b5, b6⟩ := h1 collectionID collection hcoll
      have hlt : collection.MintedCount < collection.TotalSupply := by omega
      have hwrap : wrapUInt64 (collection.MintedCount + 1) = collection.MintedCount + 1 := by
        unfold wrapUInt64
        exact Nat.mod_eq_of_lt (by omega)
      refine ⟨?_, ?_⟩
      · intro cid c hcol
        unfold NFTManager.mintedIn
        simp only
        rw [GoMap.values_set_of_none _ _ _ hnew, List.filter_append]
        rcases GoMap.get?_set_cases _ _ _ _ _ hcol with ⟨hk, hv⟩ | ⟨hk, hv⟩
        · subst hv
          subst hk
          refine ⟨b1, b2, b3, b4, by simp only [hwrap]; omega, ?_⟩
          simp only [hwrap, List.length_append]
          rw [b6]
          simp [NFTManager.mintedIn]
        · obtain ⟨a1, a2, a3, a4, a5, a6⟩ := h1 cid c hv
          refine ⟨a1, a2, a3, a4, a5, ?_⟩
          rw [a6]
          have hne : ¬ collectionID = cid := fun c => hk c.symm
          simp [NFTManager.mintedIn, hne]
      · intro x hx
        simp only at hx
        rw [GoMap.values_set_of_none _ _ _ hnew] at hx
        simp only
        rw [GoMap.isSome_get?_set]
        simp only [List.mem_append, List.mem_singleton] at hx
        rcases hx with hx | hx
        · simp [h2 x hx]
        · simp [hx]
  | transfer m tokenID fromAddress toAddress fee tStamp tUpdated _ ih =>
    unfold NFTManager.TransferNFT
    split
    · exact ih
    split
    · exact ih
    split
    · exact ih
    split
    · exact ih
    split
    · exact ih
    split
    · exact ih
    rename_i nft hnft
    split
    · exact ih
    split
    · exact ih
    · exact NFTManager.consistent_of_nft_update m tokenID nft _ hnft rfl ih
  | updateMetadata m tokenID metadata now _ ih =>
    unfold NFTManager.UpdateNFTMetadata
    split
    · exact ih
    split
    · exact ih
    split
    · exact ih
    · rename_i nft hnft
      exact NFTManager.consistent_of_nft_update m tokenID nft _ hnft rfl ih
  | updateImage m tokenID imageURL ipfsHash now _ ih =>
    unfold NFTManager.UpdateNFTImage
    split
    · exact ih
    split
    · exact ih
    split
    · exact ih
    · rename_i nft hnft
      exact NFTManager.consistent_of_nft_update m tokenID nft _ hnft rfl ih
  | config m newConfig _ ih =>
    unfold NFTManager.UpdateConfig
    split
    · exact ih
    · exact ih

end Bindings

/-- C33: in every state that `Initialize`, `Shutdown`, `CreateCollection`,
`MintNFT`, `TransferNFT`, `UpdateNFTMetadata`, `UpdateNFTImage` and
`UpdateConfig` reach from `NewNFTManager`, a stored collection has
`1 <= TotalSupply <= 10000` and `MintedCount <= TotalSupply`, is stored under
its `CollectionID`, and its `MintedCount` is the number of stored NFTs with
that `CollectionID`; `MintNFT` for the collection, with a non-empty collection
id, name and owner, a name of at most 64 bytes, a description of at most 2000
and at most 50 attributes, returns "collection is full" exactly when
`MintedCount = TotalSupply`. -/
theorem collection_capacity_invariant (sha256 : List Nat → List Nat)
    (m : Bindings.NFTManager) (hr : Bindings.NFTManager.Reachable sha256 m) (cid : String)
    (c : Bindings.NFTCollection) (hc : m.collections.get? cid = some c) :
    1 ≤ c.TotalSupply ∧ c.TotalSupply ≤ 10000 ∧ c.MintedCount ≤ c.TotalSupply ∧
    c.CollectionID = cid ∧
    c.MintedCount = (m.nfts.values.filter (fun nft => nft.CollectionID = cid)).length ∧
    ∀ (name description owner : String) (metadata : Option (GoMap String))
      (attributes : List Bindings.NFTAttribute) (tCreated tUpdated tCollection : Int),
      cid ≠ "" → name ≠ "" → owner ≠ "" → name.utf8ByteSize ≤ 64 →
      description.utf8ByteSize ≤ 2000 → attributes.length ≤ 50 →
      ((Bindings.NFTManager.MintNFT sha256 m cid name description owner metadata attributes
          tCreated tUpdated tCollection).1 = Outcome.err "collection is full" ↔
        c.MintedCount = c.TotalSupply) := by
  obtain ⟨a1, a2, a3, a4, a5, a6⟩ :=
    (Bindings.NFTManager.reachable_collectionsConsistent sha256 m hr).1 cid c hc
  refine ⟨a3, a4, a5, a2, a6, ?_⟩
  intro name description owner metadata attributes tCreated tUpdated tCollection h1 h2 h3 h4 h5
    h6
  unfold Bindings.NFTManager.MintNFT
  simp only [a1, Bool.not_true, Bool.false_eq_true, if_false, h1, h2, h3, Nat.not_lt.mpr h4,
    Nat.not_lt.mpr h5, Nat.not_lt.mpr h6, hc]
  by_cases hfull : c.MintedCount ≥ c.TotalSupply
  · simp only [hfull, if_true, true_iff]
    omega
  · simp only [hfull, if_false]
    constructor
    · intro h
      split at h <;> simp at h
    · intro h
      omega

theorem collection_capacity_invariant_witness :
    (Bindings.NFTManager.MintNFT stubSha256 Bindings.fullCollectionManager
      Bindings.testCollectionID "two" "" "dave" none [] 6 7 8).1 =
      Outcome.err "collection is full" := by
  cases h : Bindings.fullCollectionManager.collections.get? Bindings.testCollectionID with
  | none => exact absurd h (by decide)
  | some c =>
    have hs : c.MintedCount = c.TotalSupply := by
      have : (Bindings.fullCollectionManager.collections.get? Bindings.testCollectionID).map
          (fun c => decide (c.MintedCount = c.TotalSupply)) = some true := by decide
      rw [h] at this
      simpa using this
    exact ((collection_capacity_invariant stubSha256 Bindings.fullCollectionManager
      (.mint _ _ _ _ _ _ _ _ _ _ (.createCollection _ _ _ _ _ _ _ _ (.init _ .start)))
      Bindings.testCollectionID c h).2.2.2.2.2 "two" "" "dave" none [] 6 7 8 (by decide)
      (by decide) (by decide) (by decide) (by decide) (by decide)).mpr hs

/-! # `GetTransactionHistory` of `satox_bindings.TransactionManager` -/

theorem Bindings.CreateTransaction_change :
    Bindings.TransactionManager.CreateTransaction stubSha256 Bindings.stubRender
        Bindings.TransactionManager.NewTransactionManager.Initialize.2 [Bindings.aliceInput]
        [Bindings.aliceChange] 0 1 2 =
      (Outcome.ret Bindings.changeTransaction,
        { initialized := true,
          transactions := GoMap.empty.set Bindings.changeTransaction.Txid
            Bindings.changeTransaction,
          config := Bindings.TransactionManager.defaultConfig }) := by
  have hsize : wrapUInt64 ((Bindings.TransactionManager.generateTxid stubSha256
      Bindings.stubRender [Bindings.aliceInput] [Bindings.aliceChange] 0).utf8ByteSize * 2) =
      128 := by decide
  have hraw : Bindings.TransactionManager.generateRawTx 2 = "raw_tx_2" := by decide
  unfold Bindings.TransactionManager.CreateTransaction
  simp only [Bindings.TransactionManager.Initialize,
    Bindings.TransactionManager.NewTransactionManager, hsize, hraw]
  norm_num [Bindings.aliceInput, Bindings.aliceChange, Bindings.changeTransaction]

/-- C34, evaluated at the failing input: after `Initialize` and
`CreateTransaction` with one input of "alice" and one output paid back to
"alice", the manager stores the one transaction `changeTransaction`, and
`GetTransactionHistory("alice", 1)` returns it twice: the transaction is
appended once for its input and once more for its output, and the length is
compared with the limit only after both appends. The result has two entries
for a limit of 1 and repeats a transaction. -/
theorem GetTransactionHistory_repeats_transaction_beyond_limit :
    (Bindings.TransactionManager.CreateTransaction stubSha256 Bindings.stubRender
      Bindings.TransactionManager.NewTransactionManager.Initialize.2 [Bindings.aliceInput]
      [Bindings.aliceChange] 0 1 2).1 = Outcome.ret Bindings.changeTransaction ∧
    Bindings.changeTransactionManager.initialized = true ∧
    Bindings.changeTransactionManager.transactions.values = [Bindings.changeTransaction] ∧
    (Bindings.changeTransactionManager.GetTransactionHistory [Bindings.changeTransaction]
      "alice" 1).1 = Outcome.ret [Bindings.changeTransaction, Bindings.changeTransaction] ∧
    ¬ [Bindings.changeTransaction, Bindings.changeTransaction].length ≤ 1 ∧
    ¬ [Bindings.changeTransaction, Bindings.changeTransaction].Nodup := by
  have h := Bindings.CreateTransaction_change
  refine ⟨by rw [h], ?_, ?_, ?_, by decide, by simp⟩
  · unfold Bindings.changeTransactionManager
    rw [h]
  · unfold Bindings.changeTransactionManager
    rw [h]
    rfl
  · unfold Bindings.changeTransactionManager
    rw [h]
    rfl

/-! # Passwords of `satox_bindings.WalletManager` -/

theorem randFill_length (n : Nat) (src : RandSource) : (randFill n src).length = n := by
  cases src with
  | fails msg => simp [randFill, randRead]
  | bytes stream => simp [randFill, randRead]

theorem Bindings.WalletManager.generateWalletID_ne_empty (src : RandSource) :
    Bindings.WalletManager.generateWalletID src ≠ "" := by
  unfold Bindings.WalletManager.generateWalletID
  apply hexEncodeToString_ne_empty
  intro c
  have := congrArg List.length c
  simp [randFill_length] at this

/-- `DecryptWallet` with a non-empty password on a stored, encrypted wallet. -/
theorem Bindings.WalletManager.DecryptWallet_encrypted (m : Bindings.WalletManager)
    (walletID password : String) (now : Int) (w : Bindings.Wallet)
    (hinit : m.initialized = true) (hid : walletID ≠ "") (hp : password ≠ "")
    (hw : m.wallets.get? walletID = some w) (he : w.Encrypted = true) :
    m.DecryptWallet walletID password now =
      (Outcome.ret (),
        { m with
          wallets := m.wallets.set walletID { w with Encrypted := false, LastUpdated := now } }) := by
  simp [Bindings.WalletManager.DecryptWallet, hinit, hid, hp, hw, he]

/-- `DeleteWallet` with a non-empty password on a stored wallet. -/
theorem Bindings.WalletManager.DeleteWallet_with_password (m : Bindings.WalletManager)
    (walletID password : String) (w : Bindings.Wallet)
    (hinit : m.initialized = true) (hid : walletID ≠ "") (hp : password ≠ "")
    (hw : m.wallets.get? walletID = some w) :
    m.DeleteWallet walletID password =
      (Outcome.ret (), { m with wallets := m.wallets.del walletID }) := by
  simp [Bindings.WalletManager.DeleteWallet, hinit, hid, hp, hw]

/-- A stored, encrypted wallet is decrypted and deleted by any non-empty
password. -/
theorem Bindings.WalletManager.any_password_opens (m : Bindings.WalletManager)
    (walletID q : String) (now : Int) (w : Bindings.Wallet)
    (hinit : m.initialized = true) (hid : walletID ≠ "") (hq : q ≠ "")
    (he : w.Encrypted = true) :
    ((Bindings.WalletManager.mk m.initialized (m.wallets.set walletID w)
      m.config).DecryptWallet walletID q now).1 = Outcome.ret () ∧
    ((Bindings.WalletManager.mk m.initialized (m.wallets.set walletID w)
      m.config).DecryptWallet walletID q now).2.encryptedFlag walletID = some false ∧
    ((Bindings.WalletManager.mk m.initialized (m.wallets.set walletID w)
      m.config).DeleteWallet walletID q).1 = Outcome.ret () ∧
    ((Bindings.WalletManager.mk m.initialized (m.wallets.set walletID w)
      m.config).DeleteWallet walletID q).2.wallets.get? walletID = none := by
  rw [Bindings.WalletManager.DecryptWallet_encrypted
      (Bindings.WalletManager.mk m.initialized (m.wallets.set walletID w) m.config) walletID q
      now w hinit hid hq (GoMap.get?_set_self _ _ _) he,
    Bindings.WalletManager.DeleteWallet_with_password
      (Bindings.WalletManager.mk m.initialized (m.wallets.set walletID w) m.config) walletID q
      w hinit hid hq (GoMap.get?_set_self _ _ _)]
  refine ⟨rfl, ?_, rfl, ?_⟩
  · simp [Bindings.WalletManager.encryptedFlag, GoMap.get?_set_self]
  · simp [GoMap.get?_del_self]

/-- C35: for every state, wallet id and non-empty passwords `p` and `q`,
`DecryptWallet(id, p)` and `DecryptWallet(id, q)` give the same result and the
same state (so the same `Encrypted` flag), and so do `DeleteWallet(id, p)` and
`DeleteWallet(id, q)`. A wallet that `CreateWallet` returned for the password
`p`, or that `EncryptWallet(id, p)` encrypted, is decrypted by
`DecryptWallet` with `q` (nil, `Encrypted` false afterwards) and removed by
`DeleteWallet` with `q` (nil, no wallet under the id afterwards). -/
theorem passwords_are_never_checked (sha256 : List Nat → List Nat)
    (m : Bindings.WalletManager) (id p q : String) (now : Int) (hp : p ≠ "") (hq : q ≠ "") :
    m.DecryptWallet id p now = m.DecryptWallet id q now ∧
    m.DeleteWallet id p = m.DeleteWallet id q ∧
    (∀ (name : String) (srcID srcAddress : RandSource) (tCreated tUpdated : Int)
      (w : Bindings.Wallet),
      (Bindings.WalletManager.CreateWallet sha256 m name p srcID srcAddress tCreated
        tUpdated).1 = Outcome.ret w →
      w.Encrypted = true ∧
      ((Bindings.WalletManager.CreateWallet sha256 m name p srcID srcAddress tCreated
        tUpdated).2.DecryptWallet w.ID q now).1 = Outcome.ret () ∧
      ((Bindings.WalletManager.CreateWallet sha256 m name p srcID srcAddress tCreated
        tUpdated).2.DecryptWallet w.ID q now).2.encryptedFlag w.ID = some false ∧
      ((Bindings.WalletManager.CreateWallet sha256 m name p srcID srcAddress tCreated
        tUpdated).2.DeleteWallet w.ID q).1 = Outcome.ret () ∧
      ((Bindings.WalletManager.CreateWallet sha256 m name p srcID srcAddress tCreated
        tUpdated).2.DeleteWallet w.ID q).2.wallets.get? w.ID = none) ∧
    (∀ tEncrypted : Int, (m.EncryptWallet id p tEncrypted).1 = Outcome.ret () →
      (m.EncryptWallet id p tEncrypted).2.encryptedFlag id = some true ∧
      ((m.EncryptWallet id p tEncrypted).2.DecryptWallet id q now).1 = Outcome.ret () ∧
      ((m.EncryptWallet id p tEncrypted).2.DecryptWallet id q now).2.encryptedFlag id =
        some false ∧
      ((m.EncryptWallet id p tEncrypted).2.DeleteWallet id q).1 = Outcome.ret () ∧
      ((m.EncryptWallet id p tEncrypted).2.DeleteWallet id q).2.wallets.get? id = none) := by
  refine ⟨?_, ?_, ?_, ?_⟩
  · simp [Bindings.WalletManager.DecryptWallet, hp, hq]
  · simp [Bindings.WalletManager.DeleteWallet, hp, hq]
  · intro name srcID srcAddress tCreated tUpdated w hw
    by_cases hinit : m.initialized = true
    · by_cases hname : name = ""
      · simp [Bindings.WalletManager.CreateWallet, hinit, hname] at hw
      · by_cases hdup : m.wallets.values.any (fun wallet => wallet.Name = name) = true
        · simp only [Bindings.WalletManager.CreateWallet, hinit, hname, hdup, Bool.not_true,
            Bool.false_eq_true, if_false, if_true] at hw
          exact absurd hw (by simp)
        · have hrun : Bindings.WalletManager.CreateWallet sha256 m name p srcID srcAddress
              tCreated tUpdated =
              (Outcome.ret
                { ID := Bindings.WalletManager.generateWalletID srcID, Name := name,
                  Addresses := [] ++ [Bindings.WalletManager.generateAddress sha256 srcAddress],
                  Balance := 0, Unconfirmed := 0, Created := tCreated,
                  LastUpdated := tUpdated, Encrypted := decide (p ≠ ""), BackupPath := "",
                  Config := GoMap.empty },
                Bindings.WalletManager.mk m.initialized
                  (m.wallets.set (Bindings.WalletManager.generateWalletID srcID)
                    { ID := Bindings.WalletManager.generateWalletID srcID, Name := name,
                      Addresses :=
                        [] ++ [Bindings.WalletManager.generateAddress sha256 srcAddress],
                      Balance := 0, Unconfirmed := 0, Created := tCreated,
                      LastUpdated := tUpdated, Encrypted := decide (p ≠ ""),
                      BackupPath := "", Config := GoMap.empty })
                  m.config) := by
            simp only [Bindings.WalletManager.CreateWallet, hinit, hname, hdup, Bool.not_true,
              Bool.false_eq_true, if_false]
          rw [hrun] at hw ⊢
          simp only [Outcome.ret.injEq] at hw
          subst hw
          have hne := Bindings.WalletManager.generateWalletID_ne_empty srcID
          have henc : decide (p ≠ "") = true := by simp [hp]
          simp only
          exact ⟨henc, Bindings.WalletManager.any_password_opens m _ q now _ hinit hne hq henc⟩
    · simp [Bindings.WalletManager.CreateWallet, hinit] at hw
  · intro tEncrypted he
    by_cases hinit : m.initialized = true
    · by_cases hid : id = ""
      · simp [Bindings.WalletManager.EncryptWallet, hinit, hid] at he
      · cases hw : m.wallets.get? id with
        | none => simp [Bindings.WalletManager.EncryptWallet, hinit, hid, hp, hw] at he
        | some w =>
          by_cases hwe : w.Encrypted = true
          · simp [Bindings.WalletManager.EncryptWallet, hinit, hid, hp, hw, hwe] at he
          · have hrun : m.EncryptWallet id p tEncrypted =
                (Outcome.ret (),
                  Bindings.WalletManager.mk m.initialized
                    (m.wallets.set id { w with Encrypted := true, LastUpdated := tEncrypted })
                    m.config) := by
              simp [Bindings.WalletManager.EncryptWallet, hinit, hid, hp, hw, hwe]
            rw [hrun]
            simp only
            refine ⟨?_, Bindings.WalletManager.any_password_opens m id q now _ hinit hid hq rfl⟩
            simp [Bindings.WalletManager.encryptedFlag, GoMap.get?_set_self]
    · simp [Bindings.WalletManager.EncryptWallet, hinit] at he

theorem passwords_are_never_checked_witness :
    Bindings.encryptedWalletManager.DecryptWallet Bindings.testWalletID "secret" 5 =
      Bindings.encryptedWalletManager.DecryptWallet Bindings.testWalletID "guess" 5 ∧
    (Bindings.encryptedWalletManager.DecryptWallet Bindings.testWalletID "guess" 5).1 =
      Outcome.ret () :=
  ⟨(passwords_are_never_checked stubSha256 Bindings.encryptedWalletManager
      Bindings.testWalletID "secret" "guess" 5 (by decide) (by decide)).1, by decide⟩

/-! # Addresses of `satox_bindings.WalletManager` -/

theorem GoMap.get?_del_cases {V : Type} (m : GoMap V) (k k' : String) (a : V)
    (h : (m.del k).get? k' = some a) : k' ≠ k ∧ m.get? k' = some a := by
  by_cases hk : k' = k
  · subst hk
    rw [GoMap.get?_del_self] at h
    exact absurd h (by simp)
  · rw [GoMap.get?_del_ne _ _ _ hk] at h
    exact ⟨hk, h⟩

namespace Bindings

/-- Replacing a stored wallet by one of the same name with indexed addresses
keeps the bookkeeping of the wallets. -/
theorem WalletManager.consistent_of_wallet_update (m : WalletManager) (walletID : String)
    (w w' : Wallet) (hw : m.wallets.get? walletID = some w) (hn : w'.Name = w.Name)
    (ha : WalletManager.AddressesIndexed w') (hI : m.WalletsConsistent) :
    WalletManager.WalletsConsistent
      (WalletManager.mk m.initialized (m.wallets.set walletID w') m.config) := by
  obtain ⟨h1, h2⟩ := hI
  refine ⟨?_, ?_⟩
  · intro id x hx
    rcases GoMap.get?_set_cases _ _ _ _ _ hx with ⟨hk, hv⟩ | ⟨_, hv⟩
    · subst hk
      subst hv
      exact ⟨(h1 id w hw).1, (h1 id w hw).2.1, ha⟩
    · exact h1 id x hv
  · intro id1 id2 w1 w2 hw1 hw2 hne
    rcases GoMap.get?_set_cases _ _ _ _ _ hw1 with ⟨hk1, hv1⟩ | ⟨hk1, hv1⟩
    · rcases GoMap.get?_set_cases _ _ _ _ _ hw2 with ⟨hk2, _⟩ | ⟨hk2, hv2⟩
      · exact absurd (hk1.trans hk2.symm) hne
      · rw [hv1, hn]
        exact h2 walletID id2 w w2 hw hv2 (fun c => hk2 c.symm)
    · rcases GoMap.get?_set_cases _ _ _ _ _ hw2 with ⟨hk2, hv2⟩ | ⟨_, hv2⟩
      · rw [hv2, hn]
        exact h2 id1 walletID w1 w hv1 hw hk1
      · exact h2 id1 id2 w1 w2 hv1 hv2 hne

/-- Storing a wallet with a fresh name and indexed addresses under a non-empty
id keeps the bookkeeping of the wallets. -/
theorem WalletManager.consistent_of_new_wallet (m : WalletManager) (walletID : String)
    (w : Wallet) (hinit : m.initialized = true) (hid : walletID ≠ "")
    (hname : ∀ x ∈ m.wallets.values, x.Name ≠ w.Name)
    (ha : WalletManager.AddressesIndexed w) (hI : m.WalletsConsistent) :
    WalletManager.WalletsConsistent
      (WalletManager.mk m.initialized (m.wallets.set walletID w) m.config) := by
  obtain ⟨h1, h2⟩ := hI
  refine ⟨?_, ?_⟩
  · intro id x hx
    rcases GoMap.get?_set_cases _ _ _ _ _ hx with ⟨hk, hv⟩ | ⟨_, hv⟩
    · subst hk
      subst hv
      exact ⟨hinit, hid, ha⟩
    · exact h1 id x hv
  · intro id1 id2 w1 w2 hw1 hw2 hne
    rcases GoMap.get?_set_cases _ _ _ _ _ hw1 with ⟨hk1, hv1⟩ | ⟨hk1, hv1⟩
    · rcases GoMap.get?_set_cases _ _ _ _ _ hw2 with ⟨hk2, _⟩ | ⟨_, hv2⟩
      · exact absurd (hk1.trans hk2.symm) hne
      · rw [hv1]
        exact fun c => hname w2 (GoMap.mem_values_of_get? _ _ _ hv2) c.symm
    · rcases GoMap.get?_set_cases _ _ _ _ _ hw2 with ⟨_, hv2⟩ | ⟨_, hv2⟩
      · rw [hv2]
        exact hname w1 (GoMap.mem_values_of_get? _ _ _ hv1)
      · exact h2 id1 id2 w1 w2 hv1 hv2 hne

theorem WalletManager.fresh_name (m : WalletManager) (name : String)
    (h : ¬ (m.wallets.values.any (fun wallet => decide (wallet.Name = name))) = true) :
    ∀ x ∈ m.wallets.values, x.Name ≠ name := by
  intro x hx c
  apply h
  rw [List.any_eq_true]
  exact ⟨x, hx, by simp [c]⟩

/-- The bookkeeping of the wallets holds in every reachable state. -/
theorem WalletManager.reachable_walletsConsistent (sha256 : List Nat → List Nat) (m : WalletManager)
    (hr : WalletManager.Reachable sha256 m) : m.WalletsConsistent := by
  induction hr with
  | start =>
    refine ⟨?_, ?_⟩
    · intro id w h
      simp [WalletManager.NewWalletManager, GoMap.get?_empty] at h
    · intro id1 id2 w1 w2 h
      simp [WalletManager.NewWalletManager, GoMap.get?_empty] at h
  | init m _ ih =>
    unfold WalletManager.Initialize
    split
    · exact ih
    · obtain ⟨h1, h2⟩ := ih
      exact ⟨fun id w hw => ⟨rfl, (h1 id w hw).2⟩, h2⟩
  | shut m _ ih =>
    unfold WalletManager.Shutdown
    split
    · exact ih
    · refine ⟨?_, ?_⟩
      · intro id w h
        simp [GoMap.get?_empty] at h
      · intro id1 id2 w1 w2 h
        simp [GoMap.get?_empty] at h
  | create m name password srcID srcAddress tCreated tUpdated _ ih =>
    unfold WalletManager.CreateWallet
    split
    · exact ih
    rename_i hinit
    split
    · exact ih
    split
    · exact ih
    · rename_i hdup
      exact WalletManager.consistent_of_new_wallet m _ _ (by simpa using hinit)
        (WalletManager.generateWalletID_ne_empty srcID) (WalletManager.fresh_name m name hdup)
        (by simp [WalletManager.AddressesIndexed, WalletManager.generateAddress,
          List.range_succ]) ih
  | delete m walletID password _ ih =>
    unfold WalletManager.DeleteWallet
    split
    · exact ih
    split
    · exact ih
    split
    · exact ih
    split
    · exact ih
    · obtain ⟨h1, h2⟩ := ih
      refine ⟨?_, ?_⟩
      · intro id w hw
        exact h1 id w (GoMap.get?_del_cases _ _ _ _ hw).2
      · intro id1 id2 w1 w2 hw1 hw2 hne
        exact h2 id1 id2 w1 w2 (GoMap.get?_del_cases _ _ _ _ hw1).2
          (GoMap.get?_del_cases _ _ _ _ hw2).2 hne
  | generate m walletID label src now _ ih =>
    unfold WalletManager.GenerateAddress
    split
    · exact ih
    split
    · exact ih
    split
    · exact ih
    rename_i wallet hwallet
    split
    · exact ih
    · rename_i hlen
      obtain ⟨_, _, b1, b2, b3⟩ := ih.1 walletID wallet hwallet
      refine WalletManager.consistent_of_wallet_update m walletID wallet _ hwallet rfl ?_ ih
      have hmod : wallet.Addresses.length % 2 ^ 32 = wallet.Addresses.length :=
        Nat.mod_eq_of_lt (by omega)
      refine ⟨by simp, by simp only [List.length_append, List.length_singleton]; omega, ?_⟩
      simp only [List.map_append, List.map_cons, List.map_nil, List.length_append,
        List.length_singleton, List.range_succ, b3, hmod]
  | updateBalance m walletID balance unconfirmed now _ ih =>
    unfold WalletManager.UpdateBalance
    split
    · exact ih
    split
    · exact ih
    split
    · exact ih
    · rename_i wallet hwallet
      exact WalletManager.consistent_of_wallet_update m walletID wallet _ hwallet rfl
        (ih.1 walletID wallet hwallet).2.2 ih
  | backup m walletID backupPath _ ih =>
    unfold WalletManager.BackupWallet
    split
    · exact ih
    split
    · exact ih
    split
    · exact ih
    split
    · exact ih
    · rename_i wallet hwallet
      exact WalletManager.consistent_of_wallet_update m walletID wallet _ hwallet rfl
        (ih.1 walletID wallet hwallet).2.2 ih
  | restore m backupPath name password srcID srcAddress tCreated tUpdated _ ih =>
    unfold WalletManager.RestoreWallet
    split
    · exact ih
    rename_i hinit
    split
    · exact ih
    split
    · exact ih
    split
    · exact ih
    · rename_i hdup
      exact WalletManager.consistent_of_new_wallet m _ _ (by simpa using hinit)
        (WalletManager.generateWalletID_ne_empty srcID) (WalletManager.fresh_name m name hdup)
        (by simp [WalletManager.AddressesIndexed, WalletManager.generateAddress,
          List.range_succ]) ih
  | encrypt m walletID password now _ ih =>
    unfold WalletManager.EncryptWallet
    split
    · exact ih
    split
    · exact ih
    split
    · exact ih
    split
    · exact ih
    rename_i wallet hwallet
    split
    · exact ih
    · exact WalletManager.consistent_of_wallet_update m walletID wallet _ hwallet rfl
        (ih.1 walletID wallet hwallet).2.2 ih
  | decrypt m walletID password now _ ih =>
    unfold WalletManager.DecryptWallet
    split
    · exact ih
    split
    · exact ih
    split
    · exact ih
    split
    · exact ih
    rename_i wallet hwallet
    split
    · exact ih
    · exact WalletManager.consistent_of_wallet_update m walletID wallet _ hwallet rfl
        (ih.1 walletID wallet hwallet).2.2 ih
  | config m newConfig _ ih =>
    unfold WalletManager.UpdateConfig
    split
    · exact ih
    · exact ih

end Bindings

/-- C36: in every state that the operations of `satox_bindings.WalletManager`
(`Initialize`, `Shutdown`, `CreateWallet`, `DeleteWallet`, `GenerateAddress`,
`UpdateBalance`, `BackupWallet`, `RestoreWallet`, `EncryptWallet`,
`DecryptWallet`, `UpdateConfig`) reach from `NewWalletManager`, a stored wallet
has between 1 and 1000 addresses, the address at position `i` of its
`Addresses` has `Index = i`, no wallet stored under another id has its `Name`,
and `GenerateAddress` for it returns "maximum number of addresses reached"
exactly when it has 1000 addresses. -/
theorem address_bookkeeping (sha256 : List Nat → List Nat) (m : Bindings.WalletManager)
    (hr : Bindings.WalletManager.Reachable sha256 m) (id : String) (w : Bindings.Wallet)
    (hw : m.wallets.get? id = some w) :
    1 ≤ w.Addresses.length ∧ w.Addresses.length ≤ 1000 ∧
    (∀ (i : Nat) (a : Bindings.WalletAddress), w.Addresses[i]? = some a → a.Index = i) ∧
    (∀ (id2 : String) (w2 : Bindings.Wallet), m.wallets.get? id2 = some w2 → id2 ≠ id →
      w2.Name ≠ w.Name) ∧
    ∀ (label : String) (src : RandSource) (now : Int),
      ((Bindings.WalletManager.GenerateAddress sha256 m id label src now).1 =
          Outcome.err "maximum number of addresses reached" ↔
        w.Addresses.length = 1000) := by
  obtain ⟨h1, h2⟩ := Bindings.WalletManager.reachable_walletsConsistent sha256 m hr
  obtain ⟨hinit, hid, a1, a2, a3⟩ := h1 id w hw
  refine ⟨a1, a2, ?_, ?_, ?_⟩
  · intro i a hia
    have hlt : i < w.Addresses.length := (List.getElem?_eq_some_iff.mp hia).1
    have hm : (w.Addresses.map (fun a => a.Index))[i]? = some a.Index := by
      rw [List.getElem?_map, hia]
      rfl
    rw [a3, List.getElem?_range hlt] at hm
    exact (Option.some.inj hm).symm
  · intro id2 w2 hw2 hne
    exact h2 id2 id w2 w hw2 hw hne
  · intro label src now
    unfold Bindings.WalletManager.GenerateAddress
    simp only [hinit, Bool.not_true, Bool.false_eq_true, if_false, hid, hw]
    by_cases hfull : w.Addresses.length ≥ 1000
    · simp only [hfull, if_true, true_iff]
      omega
    · simp only [hfull, if_false]
      constructor
      · intro h
        simp at h
      · intro h
        omega

theorem address_bookkeeping_witness :
    (Bindings.WalletManager.GenerateAddress stubSha256 Bindings.twoAddressManager
      Bindings.testWalletID "third" (constSource 13) 4).1 ≠
      Outcome.err "maximum number of addresses reached" := by
  cases h : Bindings.twoAddressManager.wallets.get? Bindings.testWalletID with
  | none => exact absurd h (by decide)
  | some w =>
    have hs : w.Addresses.length = 2 := by
      have : (Bindings.twoAddressManager.wallets.get? Bindings.testWalletID).map
          (fun w => w.Addresses.length) = some 2 := by decide
      rw [h] at this
      exact Option.some.inj this
    intro c
    have := ((address_bookkeeping stubSha256 Bindings.twoAddressManager
      (.generate _ _ _ _ _ (.create _ _ _ _ _ _ _ (.init _ .start)))
      Bindings.testWalletID w h).2.2.2.2 "third" (constSource 13) 4).mp c
    omega

/-! # Calls that lock a mutex they already hold -/

theorem RWMutex.Lock_of_locked (mu mu1 : RWMutex) (h : mu.Lock = some mu1) :
    mu1.Lock = none := by
  unfold RWMutex.Lock at h
  split at h
  · exact absurd h (by simp)
  · simp only [Option.some.injEq] at h
    subst h
    simp [RWMutex.Lock]

/-- `UpdateMetadata` of nft/nft.go never returns for a stored NFT: whenever it
gets the lock and finds the NFT, the `Lock` of `UpdateNFT` finds the mutex
held. -/
theorem Backed.NFTManager.UpdateMetadata_blocks (chainUpdate : Backed.NFT → Option String)
    (nm : Backed.NFTManager) (id : String) (metadata : Option (GoMap AnyValue))
    (nft : Backed.NFT) (hmu : nm.mu = RWMutex.free) (hnft : nm.nfts.get? id = some nft) :
    Backed.NFTManager.UpdateMetadata chainUpdate nm id metadata = Run.blocks := by
  simp [Backed.NFTManager.UpdateMetadata, Backed.NFTManager.UpdateNFT, hmu, hnft,
    RWMutex.Lock, RWMutex.free]

/-- `Shutdown` of `satox_bindings.DatabaseManager` never returns while
connected: the `Lock` of `Disconnect` finds the mutex held. -/
theorem Bindings.DatabaseManager.Shutdown_blocks (m : Bindings.DatabaseManager)
    (hmu : m.mu = RWMutex.free) (hc : m.connected = true) : m.Shutdown = Run.blocks := by
  simp [Bindings.DatabaseManager.Shutdown, Bindings.DatabaseManager.Disconnect, hmu, hc,
    RWMutex.Lock, RWMutex.free]

/-- C37, evaluated at the failing inputs. `CreateNFT` stores the NFT "nft-1" and
leaves the mutex free; `UpdateNFT` on that state returns nil and
`UpdateMetadata` for a missing id returns "NFT not found", but
`UpdateMetadata` for "nft-1" blocks: it calls `UpdateNFT` while holding the
mutex. `Initialize`, `CreateDatabase("main")` and `Connect("main")` give a
connected manager with a free mutex; `Disconnect` on it returns nil, but
`Shutdown` blocks: it calls `Disconnect` while holding the mutex. After
`Disconnect`, `Shutdown` returns nil. -/
theorem operations_block_on_their_own_mutex :
    Backed.NFTManager.CreateNFT Backed.stubStore Backed.chainAccepts
      Backed.NFTManager.NewNFTManager Backed.testNFT =
      Run.returns (Outcome.ret (), Backed.testManager) ∧
    Backed.testManager.mu = RWMutex.free ∧
    Backed.NFTManager.UpdateNFT Backed.chainAccepts Backed.testManager Backed.storedNFT =
      Run.returns (Outcome.ret (), Backed.testManager) ∧
    Backed.NFTManager.UpdateMetadata Backed.chainAccepts Backed.testManager "missing"
      (some GoMap.empty) = Run.returns (Outcome.err "NFT not found", Backed.testManager) ∧
    Backed.NFTManager.UpdateMetadata Backed.chainAccepts Backed.testManager "nft-1"
      (some GoMap.empty) = Run.blocks ∧
    Bindings.DatabaseManager.NewDatabaseManager.Initialize =
      Run.returns (Outcome.ret (),
        { Bindings.DatabaseManager.NewDatabaseManager with initialized := true }) ∧
    Bindings.DatabaseManager.CreateDatabase
      { Bindings.DatabaseManager.NewDatabaseManager with initialized := true } "main" none
      (Sum.inr Bindings.goodDB) =
      Run.returns (Outcome.ret (),
        { Bindings.connectedDatabaseManager with connected := false, currentDatabase := "" }) ∧
    Bindings.DatabaseManager.Connect
      { Bindings.connectedDatabaseManager with connected := false, currentDatabase := "" }
      "main" = Run.returns (Outcome.ret (), Bindings.connectedDatabaseManager) ∧
    Bindings.connectedDatabaseManager.mu = RWMutex.free ∧
    Bindings.connectedDatabaseManager.Disconnect =
      Run.returns (Outcome.ret (),
        { Bindings.connectedDatabaseManager with connected := false, currentDatabase := "" }) ∧
    Bindings.connectedDatabaseManager.Shutdown = Run.blocks ∧
    Bindings.DatabaseManager.Shutdown
      { Bindings.connectedDatabaseManager with connected := false, currentDatabase := "" } =
      Run.returns (Outcome.ret (), Bindings.DatabaseManager.NewDatabaseManager) := by
  refine ⟨by decide, by decide, by decide, by decide, by decide, by decide, by decide, by decide,
    by decide, by decide, by decide, by decide⟩

end Satox
